import Mathlib

/-!
# Interrupt simulator: vector table, dispatcher, trace ring and statistics

A shallow embedding of `interrupt_simulator.c` / `interrupt_simulator.h`.

* Global variables of the C program are the fields of `Sys`; every C function
  becomes a function on `Sys` (explicit state passing).
* A C string is the list of its bytes before the terminating NUL (`CString`);
  string literals are taken as their UTF-8 bytes, as in the source file.
* `int` and `time_t` values are `Int`; `unsigned long` counters are `Nat`.
  The `unsigned long` accumulators are 64-bit and stay far below `2 ^ 64`
  in any run (2^64 microseconds are more than 500 000 years), so they are
  not reduced; the one signed-to-unsigned conversion of the program (the
  elapsed time of a dispatch) is reduced modulo `2 ^ 64` explicitly.
  The `int` counter `call_count` is 32 bits wide: `call_count++` is followed
  with the wrap-around of the two's-complement machine (`int_wrap`), which is
  what the compiled program does where the C standard leaves the overflow
  undefined.
* A function pointer is an address (`Nat`), `NULL` is `none`; what the code at
  an address does is given by an `IsrImpl`.
* The clocks are state: `realtime` is what `time()` reads, `monotonic` what
  `clock_gettime(CLOCK_MONOTONIC)` reads; `usleep` advances both.
-/

namespace InterruptSimulator

/-! ## Constants of `interrupt_simulator.h` -/

abbrev MAX_INTERRUPTS : Nat := 16
abbrev MAX_TRACE_LINES : Nat := 100
abbrev MAX_TRACE_MSG_LEN : Nat := 256
abbrev MAX_DESCRIPTION_LEN : Nat := 64

abbrev ISR_SIMULATION_DELAY_US : Nat := 100000
abbrev KEYBOARD_DELAY_US : Nat := 50000
abbrev CUSTOM_DELAY_US : Nat := 75000

abbrev IRQ_TIMER : Int := 0
abbrev IRQ_KEYBOARD : Int := 1

abbrev INT_MAX : Int := 2147483647
abbrev INT_MIN : Int := -2147483648

/-- The value that the result `x` of an `int` operation has in a 32-bit
two's-complement `int`. -/
def int_wrap (x : Int) : Int := (x + 2147483648) % 4294967296 - 2147483648

abbrev SUCCESS : Int := 0
abbrev ERROR_INVALID_IRQ : Int := -1
abbrev ERROR_ISR_EXECUTING : Int := -2
abbrev ERROR_NO_ISR : Int := -3

/-! ## Strings and formatting -/

/-- A C string: its bytes before the terminating NUL. -/
abbrev CString := List UInt8

/-- The bytes of a string literal of the source file (UTF-8). -/
def cstr (s : String) : CString := s.data.flatMap String.utf8EncodeChar

/-- The double-quote character, written `\"` in the C format strings. -/
def dquote : CString := [34]

/-- Conversion `%d` of printf. -/
def fmt_d (i : Int) : CString := cstr (toString i)

/-- Conversion `%lu` of printf. -/
def fmt_lu (n : Nat) : CString := cstr (toString n)

/-- Conversion `%02d` of strftime fields (non-negative, below 100). -/
def fmt_02d (n : Nat) : CString := if n < 10 then cstr "0" ++ fmt_lu n else fmt_lu n

/-- What `snprintf(buf, size, ...)` leaves in `buf`, given the fully formatted
text: at most `size - 1` bytes. -/
def snprintf (size : Nat) (formatted : CString) : CString := formatted.take (size - 1)

/-- What `strncpy(dst, src, n); dst[n] = 0` leaves in `dst`: the first `n`
bytes of `src` (all of `src` when it is shorter). -/
def strncpy (n : Nat) (src : CString) : CString := src.take n

/-! ## Types of `interrupt_simulator.h` -/

inductive irq_state_t where
  | IRQ_STATE_FREE
  | IRQ_STATE_REGISTERED
  | IRQ_STATE_EXECUTING
deriving DecidableEq, Repr

inductive log_level_t where
  | LOG_LEVEL_SILENT
  | LOG_LEVEL_USER_ONLY
  | LOG_LEVEL_VERBOSE
deriving DecidableEq, Repr

open irq_state_t log_level_t

/-- A function pointer `void (*)(int)`: `none` is `NULL`, `some a` the address `a`. -/
abbrev isr_ptr := Option Nat

structure irq_descriptor_t where
  isr : isr_ptr
  state : irq_state_t
  call_count : Int
  last_call : Int
  total_execution_time : Nat
  description : CString
deriving DecidableEq

structure trace_entry_t where
  timestamp : CString
  event : CString
  irq_num : Int
deriving DecidableEq

structure system_stats_t where
  total_interrupts : Nat
  timer_interrupts : Nat
  keyboard_interrupts : Nat
  custom_interrupts : Nat
  average_response_time : ℚ
  system_start_time : Int
deriving DecidableEq

structure timespec where
  tv_sec : Int
  tv_nsec : Int
deriving DecidableEq

/-- The array `idt[MAX_INTERRUPTS]`. -/
abbrev Table := Fin MAX_INTERRUPTS → irq_descriptor_t

/-- The array `trace_log[MAX_TRACE_LINES]`. -/
abbrev Ring := Fin MAX_TRACE_LINES → trace_entry_t

/-- The global variables of the program, the observer stream and the clocks. -/
structure Sys where
  idt : Table
  trace_log : Ring
  trace_index : Nat
  system_running : Int
  timer_counter : Int
  stats : system_stats_t
  current_log_level : log_level_t
  show_timer_logs : Int
  stdout : List CString
  realtime : timespec
  monotonic : timespec

/-- What the code behind each function pointer does to the program state when
called with an `int` argument. -/
abbrev IsrImpl := Nat → Int → Sys → Sys

/-- Array index `idt[irq_num]`; the program evaluates it only after
`IS_VALID_IRQ(irq_num)`, where it is `irq_num` itself. -/
def idx (irq_num : Int) : Fin MAX_INTERRUPTS :=
  ⟨irq_num.toNat % MAX_INTERRUPTS, Nat.mod_lt _ (by decide)⟩

/-- Array index `trace_log[i]`; `trace_index` stays in `[0, MAX_TRACE_LINES)`,
where the index is `i` itself. -/
def slot (i : Nat) : Fin MAX_TRACE_LINES :=
  ⟨i % MAX_TRACE_LINES, Nat.mod_lt _ (by decide)⟩

/-! ## Clocks -/

/-- Result of `time(NULL)`. -/
def time (s : Sys) : Int := s.realtime.tv_sec

/-- Result of `clock_gettime(CLOCK_MONOTONIC, &t)`. -/
def clock_gettime (s : Sys) : timespec := s.monotonic

def timespec_add_us (t : timespec) (us : Nat) : timespec :=
  let ns : Int := t.tv_nsec + (us : Int) * 1000
  { tv_sec := t.tv_sec + ns / 1000000000, tv_nsec := ns % 1000000000 }

/-- Call `usleep(us)`: both clocks advance by the requested time. -/
def usleep (us : Nat) (s : Sys) : Sys :=
  { s with realtime := timespec_add_us s.realtime us,
           monotonic := timespec_add_us s.monotonic us }

/-- Function `get_timestamp`: `strftime(buffer, size, "%H:%M:%S", localtime(&rawtime))`,
with the local time zone taken as UTC. -/
def get_timestamp (s : Sys) : CString :=
  let sod : Nat := (time s % 86400).toNat
  fmt_02d (sod / 3600) ++ cstr ":" ++ fmt_02d (sod / 60 % 60) ++ cstr ":" ++ fmt_02d (sod % 60)

/-- Call `printf(...)` followed by `fflush(stdout)`: one more chunk on the
observer stream. -/
def printf (text : CString) (s : Sys) : Sys :=
  { s with stdout := s.stdout ++ [text] }

/-! ## Trace ring -/

/-- Function `add_trace_silent`. -/
def add_trace_silent (event : CString) (s : Sys) : Sys :=
  { s with
    trace_log := Function.update s.trace_log (slot s.trace_index)
      { timestamp := get_timestamp s,
        event := strncpy (MAX_TRACE_MSG_LEN - 1) event,
        irq_num := -1 },
    trace_index := (s.trace_index + 1) % MAX_TRACE_LINES }

/-- Function `add_trace_with_irq_silent`. -/
def add_trace_with_irq_silent (event : CString) (irq_num : Int) (s : Sys) : Sys :=
  { s with
    trace_log := Function.update s.trace_log (slot s.trace_index)
      { timestamp := get_timestamp s,
        event := strncpy (MAX_TRACE_MSG_LEN - 1) event,
        irq_num := irq_num },
    trace_index := (s.trace_index + 1) % MAX_TRACE_LINES }

/-- Function `add_trace`. -/
def add_trace (event : CString) (s : Sys) : Sys :=
  let s1 : Sys :=
    { s with
      trace_log := Function.update s.trace_log (slot s.trace_index)
        { timestamp := get_timestamp s,
          event := strncpy (MAX_TRACE_MSG_LEN - 1) event,
          irq_num := -1 },
      trace_index := (s.trace_index + 1) % MAX_TRACE_LINES }
  printf (cstr "[" ++
      (s1.trace_log (slot ((s1.trace_index + MAX_TRACE_LINES - 1) % MAX_TRACE_LINES))).timestamp ++
      cstr "] " ++ event ++ cstr "\n") s1

/-- Function `add_trace_with_irq`. -/
def add_trace_with_irq (event : CString) (irq_num : Int) (s : Sys) : Sys :=
  let s1 : Sys :=
    { s with
      trace_log := Function.update s.trace_log (slot s.trace_index)
        { timestamp := get_timestamp s,
          event := strncpy (MAX_TRACE_MSG_LEN - 1) event,
          irq_num := irq_num },
      trace_index := (s.trace_index + 1) % MAX_TRACE_LINES }
  printf (cstr "[" ++
      (s1.trace_log (slot ((s1.trace_index + MAX_TRACE_LINES - 1) % MAX_TRACE_LINES))).timestamp ++
      cstr "] " ++ event ++ cstr "\n") s1

/-- The decision `should_print` of `add_trace_smart` (its `switch`). -/
def should_print (level : log_level_t) (show_timer_logs : Int) (is_timer_related : Int) : Int :=
  match level with
  | LOG_LEVEL_SILENT => 0
  | LOG_LEVEL_USER_ONLY => if is_timer_related ≠ 0 then show_timer_logs else 1
  | LOG_LEVEL_VERBOSE => 1

/-- Function `add_trace_smart`. -/
def add_trace_smart (event : CString) (irq_num : Int) (is_timer_related : Int) (s : Sys) : Sys :=
  let s1 : Sys :=
    if irq_num ≥ 0 then add_trace_with_irq_silent event irq_num s
    else add_trace_silent event s
  if should_print s1.current_log_level s1.show_timer_logs is_timer_related ≠ 0 then
    if irq_num ≥ 0 then
      printf (cstr "[" ++
        (s1.trace_log (slot ((s1.trace_index + MAX_TRACE_LINES - 1) % MAX_TRACE_LINES))).timestamp ++
        cstr "] [IRQ" ++ fmt_d irq_num ++ cstr "] " ++ event ++ cstr "\n") s1
    else
      printf (cstr "[" ++
        (s1.trace_log (slot ((s1.trace_index + MAX_TRACE_LINES - 1) % MAX_TRACE_LINES))).timestamp ++
        cstr "] " ++ event ++ cstr "\n") s1
  else s1

/-! ## Validation and queries -/

/-- Macro `IS_VALID_IRQ`. -/
def IS_VALID_IRQ (irq : Int) : Bool := decide (irq ≥ 0) && decide (irq < (MAX_INTERRUPTS : Int))

/-- Function `validate_irq_num`. -/
def validate_irq_num (irq_num : Int) : Int :=
  if IS_VALID_IRQ irq_num then SUCCESS else ERROR_INVALID_IRQ

/-- Function `is_irq_available`: the result and the state after the call (the
table is read under the lock, nothing is written). -/
def is_irq_available (irq_num : Int) (s : Sys) : Int × Sys :=
  if !IS_VALID_IRQ irq_num then (0, s)
  else
    let available : Int := if (s.idt (idx irq_num)).state = IRQ_STATE_FREE then 1 else 0
    (available, s)

/-- Function `get_irq_state_string`. -/
def get_irq_state_string (state : irq_state_t) : CString :=
  match state with
  | IRQ_STATE_FREE => cstr "LIBRE"
  | IRQ_STATE_REGISTERED => cstr "REGISTRADO"
  | IRQ_STATE_EXECUTING => cstr "EJECUTANDO"

/-! ## Initialisation -/

/-- The static initialisers of the global variables, before `main` runs. -/
def boot (realtime monotonic : timespec) : Sys :=
  { idt := fun _ =>
      { isr := none, state := IRQ_STATE_FREE, call_count := 0, last_call := 0,
        total_execution_time := 0, description := [] },
    trace_log := fun _ => { timestamp := [], event := [], irq_num := 0 },
    trace_index := 0,
    system_running := 1,
    timer_counter := 0,
    stats :=
      { total_interrupts := 0, timer_interrupts := 0, keyboard_interrupts := 0,
        custom_interrupts := 0, average_response_time := 0, system_start_time := 0 },
    current_log_level := LOG_LEVEL_USER_ONLY,
    show_timer_logs := 0,
    stdout := [],
    realtime := realtime,
    monotonic := monotonic }

/-- The loop of `init_idt` (under the table lock): every descriptor is reset. -/
def init_idt_locked : Table := fun i =>
  { isr := none,
    state := IRQ_STATE_FREE,
    call_count := 0,
    last_call := 0,
    total_execution_time := 0,
    description := snprintf MAX_DESCRIPTION_LEN
      (cstr "IRQ " ++ fmt_d (i.val : Int) ++ cstr " - Vector libre en IDT") }

/-- Function `init_idt`. -/
def init_idt (s : Sys) : Sys :=
  let s1 : Sys := { s with idt := init_idt_locked }
  let s2 := add_trace (cstr "🚀 KERNEL: Tabla de Descriptores de Interrupción (IDT) inicializada") s1
  let s3 := add_trace (cstr "🎯 KERNEL: 16 vectores de interrupción disponibles para asignación") s2
  add_trace (cstr "🔧 HARDWARE: Controlador de interrupciones (PIC/APIC) configurado") s3

/-- Function `init_system_stats`. -/
def init_system_stats (s : Sys) : Sys :=
  { s with stats :=
      { total_interrupts := 0, timer_interrupts := 0, keyboard_interrupts := 0,
        custom_interrupts := 0, average_response_time := 0, system_start_time := time s } }

/-- Function `update_stats`. -/
def update_stats (irq_num : Int) (execution_time : Nat) (s : Sys) : Sys :=
  let st1 : system_stats_t := { s.stats with total_interrupts := s.stats.total_interrupts + 1 }
  let st2 : system_stats_t :=
    if irq_num = IRQ_TIMER then { st1 with timer_interrupts := st1.timer_interrupts + 1 }
    else if irq_num = IRQ_KEYBOARD then { st1 with keyboard_interrupts := st1.keyboard_interrupts + 1 }
    else { st1 with custom_interrupts := st1.custom_interrupts + 1 }
  let st3 : system_stats_t :=
    if st2.total_interrupts > 0 then
      { st2 with average_response_time :=
          (st2.average_response_time * ((st2.total_interrupts - 1 : Nat) : ℚ) + (execution_time : ℚ)) /
            (st2.total_interrupts : ℚ) }
    else st2
  { s with stats := st3 }

/-! ## Vector table: register and unregister -/

/-- The table writes of `register_isr` under the table lock. -/
def register_locked (i : Fin MAX_INTERRUPTS) (isr_function : isr_ptr) (description : CString)
    (t : Table) : Table :=
  Function.update t i
    { t i with
      isr := isr_function,
      state := IRQ_STATE_REGISTERED,
      call_count := 0,
      total_execution_time := 0,
      description := strncpy (MAX_DESCRIPTION_LEN - 1) description }

/-- Function `register_isr`: the return code and the new state. -/
def register_isr (irq_num : Int) (isr_function : isr_ptr) (description : CString) (s : Sys) :
    Int × Sys :=
  if validate_irq_num irq_num ≠ SUCCESS then
    (ERROR_INVALID_IRQ,
      add_trace (cstr "❌ KERNEL: Error en registro ISR - IRQ fuera de rango válido") s)
  else if (s.idt (idx irq_num)).state = IRQ_STATE_EXECUTING then
    (ERROR_ISR_EXECUTING,
      add_trace (cstr "⚠️  KERNEL: Registro ISR fallido - IRQ actualmente en ejecución") s)
  else
    let s1 : Sys := { s with idt := register_locked (idx irq_num) isr_function description s.idt }
    let s2 := add_trace_with_irq
      (snprintf MAX_TRACE_MSG_LEN
        (cstr "📝 KERNEL: ISR registrada en IDT[" ++ fmt_d irq_num ++ cstr "] -> Handler: " ++
          dquote ++ description ++ dquote))
      irq_num s1
    let s3 := add_trace_with_irq
      (snprintf MAX_TRACE_MSG_LEN
        (cstr "🔗 HARDWARE: IRQ " ++ fmt_d irq_num ++
          cstr " ahora conectada al kernel - Lista para recibir señales"))
      irq_num s2
    (SUCCESS, s3)

/-- The table writes of `unregister_isr` under the table lock. -/
def unregister_locked (i : Fin MAX_INTERRUPTS) (irq_num : Int) (t : Table) : Table :=
  Function.update t i
    { t i with
      isr := none,
      state := IRQ_STATE_FREE,
      call_count := 0,
      total_execution_time := 0,
      description := snprintf MAX_DESCRIPTION_LEN
        (cstr "IRQ " ++ fmt_d irq_num ++ cstr " - Disponible para asignación") }

/-- Function `unregister_isr`: the return code and the new state. -/
def unregister_isr (irq_num : Int) (s : Sys) : Int × Sys :=
  if validate_irq_num irq_num ≠ SUCCESS then
    (ERROR_INVALID_IRQ,
      add_trace (cstr "❌ KERNEL: Error en desregistro ISR - IRQ fuera de rango válido") s)
  else if (s.idt (idx irq_num)).state = IRQ_STATE_EXECUTING then
    (ERROR_ISR_EXECUTING,
      add_trace (cstr "⚠️  KERNEL: Desregistro ISR fallido - IRQ actualmente en ejecución") s)
  else
    let old_description := strncpy (MAX_DESCRIPTION_LEN - 1) (s.idt (idx irq_num)).description
    let s1 : Sys := { s with idt := unregister_locked (idx irq_num) irq_num s.idt }
    let s2 := add_trace_with_irq
      (snprintf MAX_TRACE_MSG_LEN
        (cstr "🗑️  KERNEL: ISR removida de IDT[" ++ fmt_d irq_num ++ cstr "] - Era: " ++
          dquote ++ old_description ++ dquote))
      irq_num s1
    let s3 := add_trace_with_irq
      (snprintf MAX_TRACE_MSG_LEN
        (cstr "🚫 HARDWARE: IRQ " ++ fmt_d irq_num ++
          cstr " desconectada - Interrupciones no serán procesadas"))
      irq_num s2
    (SUCCESS, s3)

/-! ## Dispatcher -/

/-- The elapsed time of `dispatch_interrupt`:
`(end.tv_sec - start.tv_sec) * 1000000 + (end.tv_nsec - start.tv_nsec) / 1000`
in `long` arithmetic (division truncating toward zero), stored in an
`unsigned long`. -/
def execution_time_of (start_time end_time : timespec) : Nat :=
  (((end_time.tv_sec - start_time.tv_sec) * 1000000 +
      (end_time.tv_nsec - start_time.tv_nsec).tdiv 1000) % ((2 : Int) ^ 64)).toNat

/-- The table writes of the first locked section of `dispatch_interrupt`. -/
def dispatch_mark_executing (i : Fin MAX_INTERRUPTS) (now : Int) (t : Table) : Table :=
  Function.update t i
    { t i with
      state := IRQ_STATE_EXECUTING,
      call_count := int_wrap ((t i).call_count + 1),
      last_call := now }

/-- The table writes of the second locked section of `dispatch_interrupt`. -/
def dispatch_restore_registered (i : Fin MAX_INTERRUPTS) (execution_time : Nat) (t : Table) :
    Table :=
  Function.update t i
    { t i with
      state := IRQ_STATE_REGISTERED,
      total_execution_time := (t i).total_execution_time + execution_time }

/-- The rejection message for an out-of-range number. -/
def msg_rejected (irq_num : Int) : CString :=
  snprintf MAX_TRACE_MSG_LEN
    (cstr "❌ HARDWARE: IRQ " ++ fmt_d irq_num ++
      cstr " RECHAZADA - Número fuera del rango válido (0-" ++
      fmt_d ((MAX_INTERRUPTS : Int) - 1) ++ cstr ")")

/-- The "no handler" message. -/
def msg_no_handler (irq_num : Int) (state : irq_state_t) : CString :=
  snprintf MAX_TRACE_MSG_LEN
    (cstr "❌ KERNEL: IRQ " ++ fmt_d irq_num ++ cstr " SIN HANDLER - Estado: " ++
      get_irq_state_string state)

/-- The "already executing, ignored (reentrancy)" message. -/
def msg_reentrancy (irq_num : Int) : CString :=
  snprintf MAX_TRACE_MSG_LEN
    (cstr "⚠️  KERNEL: IRQ " ++ fmt_d irq_num ++
      cstr " ya ejecutándose - Interrupción ignorada (reentrancy)")

/-- The accepted path of `dispatch_interrupt` up to the point where the
handler is about to be called: three trace events, the first table update
and the capture of the function pointer (still under the table lock), then
the "executing" trace event. Returns the state and the captured pointer. -/
def dispatch_enter (irq_num : Int) (s : Sys) : Sys × isr_ptr :=
  let is_timer_irq : Int := if irq_num = IRQ_TIMER then 1 else 0
  let s1 := add_trace_smart
    (snprintf MAX_TRACE_MSG_LEN
      (cstr "🔥 HARDWARE: IRQ " ++ fmt_d irq_num ++
        cstr " disparada - Línea de interrupción activada"))
    irq_num is_timer_irq s
  let s2 := add_trace_smart
    (snprintf MAX_TRACE_MSG_LEN
      (cstr "🚨 CPU: Guardando contexto actual - Registros y estado del procesador"))
    irq_num is_timer_irq s1
  let s3 := add_trace_smart
    (snprintf MAX_TRACE_MSG_LEN
      (cstr "🔍 KERNEL: Consultando IDT[" ++ fmt_d irq_num ++
        cstr "] - Vector de interrupción encontrado"))
    irq_num is_timer_irq s2
  let s4 : Sys := { s3 with idt := dispatch_mark_executing (idx irq_num) (time s3) s3.idt }
  let isr_function : isr_ptr := (s4.idt (idx irq_num)).isr
  let trace_msg := snprintf MAX_TRACE_MSG_LEN
    (cstr "⚡ KERNEL: Ejecutando ISR " ++ dquote ++ (s4.idt (idx irq_num)).description ++ dquote ++
      cstr " - Llamada #" ++ fmt_d (s4.idt (idx irq_num)).call_count ++ cstr " [Modo Kernel]")
  (add_trace_smart trace_msg irq_num is_timer_irq s4, isr_function)

/-- Function `dispatch_interrupt`. Besides the new state it returns the calls
it made through the function pointer, as pairs (address, argument). -/
def dispatch_interrupt (isrs : IsrImpl) (irq_num : Int) (s : Sys) : Sys × List (Nat × Int) :=
  let is_timer_irq : Int := if irq_num = IRQ_TIMER then 1 else 0
  if validate_irq_num irq_num ≠ SUCCESS then
    (add_trace_smart (msg_rejected irq_num) (-1) 0 s, [])
  else if (s.idt (idx irq_num)).state ≠ IRQ_STATE_REGISTERED ∨ (s.idt (idx irq_num)).isr = none then
    (add_trace_smart (msg_no_handler irq_num (s.idt (idx irq_num)).state) irq_num is_timer_irq s, [])
  else if (s.idt (idx irq_num)).state = IRQ_STATE_EXECUTING then
    (add_trace_smart (msg_reentrancy irq_num) irq_num is_timer_irq s, [])
  else
    let s5 := (dispatch_enter irq_num s).1
    let isr_function : isr_ptr := (dispatch_enter irq_num s).2
    let start_time := clock_gettime s5
    let s6 : Sys :=
      match isr_function with
      | some f => isrs f irq_num s5
      | none => s5
    let calls : List (Nat × Int) :=
      match isr_function with
      | some f => [(f, irq_num)]
      | none => []
    let end_time := clock_gettime s6
    let execution_time := execution_time_of start_time end_time
    let s7 : Sys :=
      { s6 with idt := dispatch_restore_registered (idx irq_num) execution_time s6.idt }
    let s8 := update_stats irq_num execution_time s7
    let s9 := add_trace_smart
      (snprintf MAX_TRACE_MSG_LEN
        (cstr "🔄 CPU: Restaurando contexto - Volviendo al proceso interrumpido (" ++
          fmt_lu execution_time ++ cstr " μs)"))
      irq_num is_timer_irq s8
    let s10 := add_trace_smart
      (snprintf MAX_TRACE_MSG_LEN
        (cstr "✅ KERNEL: IRQ " ++ fmt_d irq_num ++
          cstr " procesada - Sistema listo para nuevas interrupciones"))
      irq_num is_timer_irq s9
    (s10, calls)

/-! ## The predefined handlers -/

/-- Function `timer_isr`. -/
def timer_isr (irq_num : Int) (s : Sys) : Sys :=
  let s1 : Sys := { s with timer_counter := s.timer_counter + 1 }
  let s2 := add_trace_smart
    (snprintf MAX_TRACE_MSG_LEN
      (cstr "    ⏰ TIMER_ISR: Tick del sistema #" ++ fmt_d s1.timer_counter ++
        cstr " - Actualizando jiffies del kernel"))
    irq_num 1 s1
  let s3 := add_trace_smart
    (snprintf MAX_TRACE_MSG_LEN
      (cstr "    📊 SCHEDULER: Verificando quantum de procesos - Time slice check"))
    irq_num 1 s2
  let s4 := usleep ISR_SIMULATION_DELAY_US s3
  add_trace_smart
    (snprintf MAX_TRACE_MSG_LEN
      (cstr "    🔄 TIMER_ISR: Completada - Sistema de tiempo actualizado"))
    irq_num 1 s4

/-- Function `keyboard_isr`. -/
def keyboard_isr (irq_num : Int) (s : Sys) : Sys :=
  let s1 := add_trace_with_irq
    (snprintf MAX_TRACE_MSG_LEN
      (cstr "    ⌨️  KEYBOARD_ISR: Leyendo scancode del controlador 8042"))
    irq_num s
  let s2 := add_trace_with_irq
    (snprintf MAX_TRACE_MSG_LEN
      (cstr "    🔤 INPUT_LAYER: Traduciendo scancode a keycode"))
    irq_num s1
  let s3 := add_trace_with_irq
    (snprintf MAX_TRACE_MSG_LEN
      (cstr "    📤 EVENT_QUEUE: Enviando evento de teclado a /dev/input/eventX"))
    irq_num s2
  usleep KEYBOARD_DELAY_US s3

/-- Function `custom_isr`. -/
def custom_isr (irq_num : Int) (s : Sys) : Sys :=
  let s1 := add_trace_with_irq
    (snprintf MAX_TRACE_MSG_LEN
      (cstr "    🔧 CUSTOM_ISR: Procesando interrupción de dispositivo personalizado"))
    irq_num s
  let s2 := add_trace_with_irq
    (snprintf MAX_TRACE_MSG_LEN
      (cstr "    💾 DEVICE_DRIVER: Intercambiando datos con hardware específico"))
    irq_num s1
  let s3 := add_trace_with_irq
    (snprintf MAX_TRACE_MSG_LEN
      (cstr "    ✅ CUSTOM_ISR: Operación completada - Hardware listo para nuevas operaciones"))
    irq_num s2
  usleep CUSTOM_DELAY_US s3

/-- Function `error_isr`. -/
def error_isr (irq_num : Int) (s : Sys) : Sys :=
  let s1 := add_trace_with_irq
    (snprintf MAX_TRACE_MSG_LEN (cstr "    ERROR ISR: Manejando error en IRQ " ++ fmt_d irq_num))
    irq_num s
  usleep 50000 s1

/-- The code of the program's own handlers, at symbolic addresses 1 to 4
(`timer_isr`, `keyboard_isr`, `custom_isr`, `error_isr`); any other address
holds a handler that does nothing. -/
def program_isrs : IsrImpl := fun a =>
  match a with
  | 1 => timer_isr
  | 2 => keyboard_isr
  | 3 => custom_isr
  | 4 => error_isr
  | _ => fun _ s => s

/-! ## Reading the trace ring -/

/-- Function `strlen`. -/
def strlen (s : CString) : Nat := s.length

/-- Whether `text` begins with `pattern`, byte by byte. -/
def starts_with : CString → CString → Bool
  | _, [] => true
  | [], _ :: _ => false
  | c :: text, p :: pattern => c == p && starts_with text pattern

/-- Function `strstr`: the offset of the first occurrence of `needle` in
`haystack`, `none` for the `NULL` result. -/
def strstr (haystack needle : CString) : Option Nat :=
  (List.range (haystack.length + 1)).find? (fun i => starts_with (haystack.drop i) needle)

/-- The array `timer_patterns` of `is_timer_related_trace`. -/
def timer_patterns : List CString :=
  [cstr "TIMER", cstr "Timer", cstr "timer",
   cstr "TICK", cstr "Tick", cstr "tick",
   cstr "Hilo del timer", cstr "timer_thread",
   cstr "DESPACHANDO IRQ 0", cstr "FINALIZANDO IRQ 0",
   cstr ">>> DESPACHANDO IRQ 0", cstr "<<< FINALIZANDO IRQ 0",
   cstr "iniciado", cstr "finalizando"]

/-- Function `is_timer_related_trace`. -/
def is_timer_related_trace (entry : trace_entry_t) : Int :=
  if entry.irq_num = IRQ_TIMER then 1
  else if timer_patterns.any (fun p => (strstr entry.event p).isSome) then 1
  else 0

/-- Function `show_recent_trace`. -/
def show_recent_trace (s : Sys) : Sys :=
  let s1 := printf (cstr "\n=== TRAZA RECIENTE ===\n") s
  let entries_to_show : Nat := if s1.trace_index < 10 then s1.trace_index else 10
  let start : Nat := (s1.trace_index + MAX_TRACE_LINES - entries_to_show) % MAX_TRACE_LINES
  let s2 := (List.range entries_to_show).foldl
    (fun (acc : Sys) (i : Nat) =>
      let idx := (start + i) % MAX_TRACE_LINES
      if strlen (acc.trace_log (slot idx)).event > 0 then
        if (acc.trace_log (slot idx)).irq_num ≥ 0 then
          printf (cstr "[" ++ (acc.trace_log (slot idx)).timestamp ++ cstr "] [IRQ" ++
            fmt_d (acc.trace_log (slot idx)).irq_num ++ cstr "] " ++
            (acc.trace_log (slot idx)).event ++ cstr "\n") acc
        else
          printf (cstr "[" ++ (acc.trace_log (slot idx)).timestamp ++ cstr "] " ++
            (acc.trace_log (slot idx)).event ++ cstr "\n") acc
      else acc)
    s1
  printf (cstr "\n") s2

/-- The search loop of `show_last_trace`, `for (i = ...; i < MAX_TRACE_LINES && !found; i++)`,
with `fuel` iterations left before `i` reaches `MAX_TRACE_LINES`: the values of
`found` and `total_entries` when the loop ends, and the state. -/
def show_last_trace_loop (start_search : Nat) : Nat → Nat → Int → Sys → Int × Int × Sys
  | 0, _, total_entries, s => (0, total_entries, s)
  | fuel + 1, i, total_entries, s =>
    let idx := (start_search + MAX_TRACE_LINES - 1 - i) % MAX_TRACE_LINES
    if strlen (s.trace_log (slot idx)).event > 0 then
      if is_timer_related_trace (s.trace_log (slot idx)) = 0 then
        let s1 := printf
          (cstr "Entrada encontrada (posición " ++ fmt_d ((i : Int) + 1) ++
            cstr " desde el final):\n") s
        let s2 :=
          if (s1.trace_log (slot idx)).irq_num ≥ 0 then
            printf (cstr "[" ++ (s1.trace_log (slot idx)).timestamp ++ cstr "] [IRQ" ++
              fmt_d (s1.trace_log (slot idx)).irq_num ++ cstr "] " ++
              (s1.trace_log (slot idx)).event ++ cstr "\n") s1
          else
            printf (cstr "[" ++ (s1.trace_log (slot idx)).timestamp ++ cstr "] " ++
              (s1.trace_log (slot idx)).event ++ cstr "\n") s1
        (1, total_entries + 1, s2)
      else show_last_trace_loop start_search fuel (i + 1) (total_entries + 1) s
    else show_last_trace_loop start_search fuel (i + 1) total_entries s

/-- Function `show_last_trace`. -/
def show_last_trace (s : Sys) : Sys :=
  let s1 := printf (cstr "\n=== ÚLTIMA TRAZA NO-TIMER ===\n") s
  let start_search : Nat := if s1.trace_index = 0 then MAX_TRACE_LINES else s1.trace_index
  let r := show_last_trace_loop start_search MAX_TRACE_LINES 0 0 s1
  let s2 : Sys :=
    if r.1 = 0 then
      if r.2.1 = 0 then
        printf (cstr "El log de trazas está vacío\n") r.2.2
      else
        let s3 := printf (cstr "No se encontraron trazas que no sean del timer\n") r.2.2
        let s4 := printf
          (cstr "Total de entradas válidas revisadas: " ++ fmt_d r.2.1 ++ cstr "\n") s3
        printf (cstr "Todas las trazas recientes parecen ser del timer del sistema\n") s4
    else r.2.2
  printf (cstr "\n") s2

/-! ## Timer thread -/

abbrev TIMER_INTERVAL_SEC : Nat := 3

/-- Call `sleep(sec)`: both clocks advance by the requested time. -/
def sleep (sec : Nat) (s : Sys) : Sys := usleep (sec * 1000000) s

/-- The `while (system_running)` loop of `timer_thread_func`. While this
thread sleeps the other threads run: what they do to the program state
during the successive sleeps is the list `others`. The result is the state,
the number of calls of `dispatch_interrupt` made, and whether the loop has
been left (it has not when `others` ends with the flag still set: the
thread is then about to sleep again). -/
def timer_thread_loop (isrs : IsrImpl) : List (Sys → Sys) → Sys → Sys × Nat × Bool
  | [], s => if s.system_running ≠ 0 then (s, 0, false) else (s, 0, true)
  | during_sleep :: rest, s =>
    if s.system_running ≠ 0 then
      let s1 := during_sleep (sleep TIMER_INTERVAL_SEC s)
      if s1.system_running ≠ 0 then
        let s2 := add_trace_smart
          (snprintf MAX_TRACE_MSG_LEN
            (cstr "⏲️  HARDWARE: Timer PIT disparando IRQ0 - Señal de reloj del sistema"))
          (-1) 1 s1
        let s3 := (dispatch_interrupt isrs IRQ_TIMER s2).1
        ((timer_thread_loop isrs rest s3).1, (timer_thread_loop isrs rest s3).2.1 + 1,
          (timer_thread_loop isrs rest s3).2.2)
      else timer_thread_loop isrs rest s1
    else (s, 0, true)

/-- Function `timer_thread_func`, with the same result as `timer_thread_loop`. -/
def timer_thread_func (isrs : IsrImpl) (others : List (Sys → Sys)) (s : Sys) : Sys × Nat × Bool :=
  let s1 := add_trace
    (cstr "🕐 HARDWARE: Hilo del timer PIT (Programmable Interval Timer) iniciado") s
  let s2 := add_trace (cstr "⚙️  TIMER: Configurado para generar IRQ0 cada 3 segundos") s1
  let r := timer_thread_loop isrs others s2
  if r.2.2 then
    (add_trace (cstr "🛑 HARDWARE: Timer PIT detenido - Hilo del timer finalizando") r.1,
      r.2.1, true)
  else r

/-! ## Lock events

The same functions, followed for the mutex operations they perform instead
of for the state: each `_locks` definition lists, in program order, the
`pthread_mutex_lock` / `pthread_mutex_unlock` calls of the path that the
function takes in the given state, and the call through the function
pointer. `dispatch_interrupt_steps` lists in addition the places where
`dispatch_interrupt` reads and writes `idt[irq_num]`. -/

inductive mutex_t where
  | idt_mutex
  | trace_mutex
  | stats_mutex
deriving DecidableEq, Repr

inductive LockEvent where
  | lock (m : mutex_t)
  | unlock (m : mutex_t)
  | call_isr (isr_function : Nat) (irq_num : Int)
  | read_idt (irq_num : Int)
  | write_idt (irq_num : Int) (state : irq_state_t)
deriving DecidableEq, Repr

open mutex_t

/-- The four recording functions: each locks and unlocks `trace_mutex` once. -/
def add_trace_locks : List LockEvent :=
  [LockEvent.lock trace_mutex, LockEvent.unlock trace_mutex]

/-- Function `add_trace_smart`: one call of a silent recording function. -/
def add_trace_smart_locks : List LockEvent := add_trace_locks

/-- Function `update_stats`. -/
def update_stats_locks : List LockEvent :=
  [LockEvent.lock stats_mutex, LockEvent.unlock stats_mutex]

/-- Function `register_isr`. -/
def register_isr_locks (irq_num : Int) (s : Sys) : List LockEvent :=
  if validate_irq_num irq_num ≠ SUCCESS then add_trace_locks
  else if (s.idt (idx irq_num)).state = IRQ_STATE_EXECUTING then
    [LockEvent.lock idt_mutex, LockEvent.unlock idt_mutex] ++ add_trace_locks
  else
    [LockEvent.lock idt_mutex, LockEvent.unlock idt_mutex] ++ add_trace_locks ++ add_trace_locks

/-- Function `unregister_isr`. -/
def unregister_isr_locks (irq_num : Int) (s : Sys) : List LockEvent :=
  if validate_irq_num irq_num ≠ SUCCESS then add_trace_locks
  else if (s.idt (idx irq_num)).state = IRQ_STATE_EXECUTING then
    [LockEvent.lock idt_mutex, LockEvent.unlock idt_mutex] ++ add_trace_locks
  else
    [LockEvent.lock idt_mutex, LockEvent.unlock idt_mutex] ++ add_trace_locks ++ add_trace_locks

/-- Function `dispatch_interrupt`; `isr_locks` are the events of the handler
it calls. -/
def dispatch_interrupt_locks (isr_locks : List LockEvent) (irq_num : Int) (s : Sys) :
    List LockEvent :=
  if validate_irq_num irq_num ≠ SUCCESS then add_trace_smart_locks
  else if (s.idt (idx irq_num)).state ≠ IRQ_STATE_REGISTERED ∨ (s.idt (idx irq_num)).isr = none then
    [LockEvent.lock idt_mutex, LockEvent.unlock idt_mutex] ++ add_trace_smart_locks
  else if (s.idt (idx irq_num)).state = IRQ_STATE_EXECUTING then
    [LockEvent.lock idt_mutex, LockEvent.unlock idt_mutex] ++ add_trace_smart_locks
  else
    [LockEvent.lock idt_mutex] ++
      add_trace_smart_locks ++ add_trace_smart_locks ++ add_trace_smart_locks ++
      [LockEvent.unlock idt_mutex] ++
      add_trace_smart_locks ++
      (match (s.idt (idx irq_num)).isr with
        | some f => [LockEvent.call_isr f irq_num] ++ isr_locks
        | none => []) ++
      [LockEvent.lock idt_mutex, LockEvent.unlock idt_mutex] ++
      update_stats_locks ++
      add_trace_smart_locks ++ add_trace_smart_locks

/-- Whether mutex `m` is held after the events, given whether it was before. -/
def holds (m : mutex_t) : Bool → List LockEvent → Bool
  | held, [] => held
  | held, LockEvent.lock m2 :: rest => holds m (if m2 = m then true else held) rest
  | held, LockEvent.unlock m2 :: rest => holds m (if m2 = m then false else held) rest
  | held, LockEvent.call_isr _ _ :: rest => holds m held rest
  | held, LockEvent.read_idt _ :: rest => holds m held rest
  | held, LockEvent.write_idt _ _ :: rest => holds m held rest

/-- Whether somewhere in the events `trace_mutex` is locked while `idt_mutex`
is held; `held` tells whether `idt_mutex` is held at the start. -/
def trace_locked_under_table : Bool → List LockEvent → Bool
  | _, [] => false
  | held, LockEvent.lock m :: rest =>
      (held && decide (m = trace_mutex)) ||
        trace_locked_under_table (if m = idt_mutex then true else held) rest
  | held, LockEvent.unlock m :: rest =>
      trace_locked_under_table (if m = idt_mutex then false else held) rest
  | held, LockEvent.call_isr _ _ :: rest => trace_locked_under_table held rest
  | held, LockEvent.read_idt _ :: rest => trace_locked_under_table held rest
  | held, LockEvent.write_idt _ _ :: rest => trace_locked_under_table held rest

/-- Function `dispatch_interrupt`, with its accesses to the table:
`read_idt` stands for the tests of `idt[irq_num].state` and `.isr` at the head
of the locked section and for the reads of `idt[irq_num]` that format a
message, `write_idt irq_num st` for the block of assignments to `idt[irq_num]`
that sets its state to `st` (with `call_count++`, `last_call` and the capture
of the function pointer in the first section, with `total_execution_time +=`
in the second). `isr_steps` are the events of the handler it calls. -/
def dispatch_interrupt_steps (isr_steps : List LockEvent) (irq_num : Int) (s : Sys) :
    List LockEvent :=
  if validate_irq_num irq_num ≠ SUCCESS then add_trace_smart_locks
  else if (s.idt (idx irq_num)).state ≠ IRQ_STATE_REGISTERED ∨ (s.idt (idx irq_num)).isr = none then
    [LockEvent.lock idt_mutex, LockEvent.read_idt irq_num, LockEvent.unlock idt_mutex,
     LockEvent.read_idt irq_num] ++ add_trace_smart_locks
  else if (s.idt (idx irq_num)).state = IRQ_STATE_EXECUTING then
    [LockEvent.lock idt_mutex, LockEvent.read_idt irq_num, LockEvent.unlock idt_mutex] ++
      add_trace_smart_locks
  else
    [LockEvent.lock idt_mutex, LockEvent.read_idt irq_num] ++
      add_trace_smart_locks ++ add_trace_smart_locks ++ add_trace_smart_locks ++
      [LockEvent.write_idt irq_num IRQ_STATE_EXECUTING, LockEvent.read_idt irq_num,
       LockEvent.unlock idt_mutex] ++
      add_trace_smart_locks ++
      (match (s.idt (idx irq_num)).isr with
        | some f => [LockEvent.call_isr f irq_num] ++ isr_steps
        | none => []) ++
      [LockEvent.lock idt_mutex, LockEvent.write_idt irq_num IRQ_STATE_REGISTERED,
       LockEvent.unlock idt_mutex] ++
      update_stats_locks ++
      add_trace_smart_locks ++ add_trace_smart_locks

/-- The mutex operations and handler calls among the events. -/
def lock_events (events : List LockEvent) : List LockEvent :=
  events.filter (fun e =>
    match e with
    | LockEvent.read_idt _ => false
    | LockEvent.write_idt _ _ => false
    | _ => true)

/-- Whether `idt_mutex` is held only around accesses to the table: while it is
held, no other mutex is locked or unlocked and no handler is called; `held`
tells whether `idt_mutex` is held at the start. -/
def table_lock_only_around_table : Bool → List LockEvent → Bool
  | _, [] => true
  | held, LockEvent.lock m :: rest =>
      (decide (m = idt_mutex) || !held) &&
        table_lock_only_around_table (if m = idt_mutex then true else held) rest
  | held, LockEvent.unlock m :: rest =>
      (decide (m = idt_mutex) || !held) &&
        table_lock_only_around_table (if m = idt_mutex then false else held) rest
  | held, LockEvent.call_isr _ _ :: rest => !held && table_lock_only_around_table held rest
  | held, LockEvent.read_idt _ :: rest => table_lock_only_around_table held rest
  | held, LockEvent.write_idt _ _ :: rest => table_lock_only_around_table held rest

/-! ## Interleaving model of the table-lock critical sections

Every access of `register_isr`, `unregister_isr` and `dispatch_interrupt` to
the table happens inside a `LOCK_IDT` / `UNLOCK_IDT` section, so with several
threads the table evolves by these sections taken one at a time, in any order.
`dispatch_interrupt` has two of them, with the handler call in between. -/

/-- What `register_isr` does to the table (its one locked section). -/
def register_table (irq_num : Int) (isr_function : isr_ptr) (description : CString)
    (t : Table) : Table :=
  if validate_irq_num irq_num ≠ SUCCESS then t
  else if (t (idx irq_num)).state = IRQ_STATE_EXECUTING then t
  else register_locked (idx irq_num) isr_function description t

/-- What `unregister_isr` does to the table (its one locked section). -/
def unregister_table (irq_num : Int) (t : Table) : Table :=
  if validate_irq_num irq_num ≠ SUCCESS then t
  else if (t (idx irq_num)).state = IRQ_STATE_EXECUTING then t
  else unregister_locked (idx irq_num) irq_num t

/-- The first locked section of `dispatch_interrupt` on the table, with the
clock reading `now`: the new table and the function pointer captured for the
call, `none` when the request is turned away and no handler is called. -/
def dispatch_begin (irq_num : Int) (now : Int) (t : Table) : Table × Option Nat :=
  if validate_irq_num irq_num ≠ SUCCESS then (t, none)
  else if (t (idx irq_num)).state ≠ IRQ_STATE_REGISTERED ∨ (t (idx irq_num)).isr = none then
    (t, none)
  else if (t (idx irq_num)).state = IRQ_STATE_EXECUTING then (t, none)
  else
    (dispatch_mark_executing (idx irq_num) now t,
      (dispatch_mark_executing (idx irq_num) now t (idx irq_num)).isr)

/-- The table together with, for each vector, the number of calls of
`dispatch_interrupt` that have passed their first locked section with a
captured handler and not yet run their second one. -/
structure Conc where
  idt : Table
  in_flight : Fin MAX_INTERRUPTS → Nat

/-- The atomic steps. -/
inductive Action where
  | register (irq_num : Int) (isr_function : isr_ptr) (description : CString)
  | unregister (irq_num : Int)
  | begin_dispatch (irq_num : Int) (now : Int)
  | end_dispatch (irq_num : Int) (execution_time : Nat)

/-- One atomic step; `none` when the step cannot happen (an `end_dispatch`
of a vector with no dispatch in flight). -/
def step (a : Action) (c : Conc) : Option Conc :=
  match a with
  | Action.register irq_num isr_function description =>
      some { c with idt := register_table irq_num isr_function description c.idt }
  | Action.unregister irq_num =>
      some { c with idt := unregister_table irq_num c.idt }
  | Action.begin_dispatch irq_num now =>
      match (dispatch_begin irq_num now c.idt).2 with
      | some _ =>
          some { idt := (dispatch_begin irq_num now c.idt).1,
                 in_flight := Function.update c.in_flight (idx irq_num)
                   (c.in_flight (idx irq_num) + 1) }
      | none => some { c with idt := (dispatch_begin irq_num now c.idt).1 }
  | Action.end_dispatch irq_num execution_time =>
      if IS_VALID_IRQ irq_num = true ∧ 0 < c.in_flight (idx irq_num) then
        some { idt := dispatch_restore_registered (idx irq_num) execution_time c.idt,
               in_flight := Function.update c.in_flight (idx irq_num)
                 (c.in_flight (idx irq_num) - 1) }
      else none

/-- A sequence of atomic steps. -/
def run : List Action → Conc → Option Conc
  | [], c => some c
  | a :: rest, c => (step a c).bind (run rest)

/-- The table left by `init_idt`, with no dispatch in flight. -/
def conc_init (s : Sys) : Conc :=
  { idt := (init_idt s).idt, in_flight := fun _ => 0 }

/-- The invariant of the interleaving model: per vector at most one dispatch
in flight, and the state is Executing exactly when there is one. -/
def exclusive (c : Conc) : Prop :=
  ∀ i : Fin MAX_INTERRUPTS,
    c.in_flight i ≤ 1 ∧ ((c.idt i).state = IRQ_STATE_EXECUTING ↔ c.in_flight i = 1)

/-! ## Auxiliary definitions for the statements -/

/-- The ring part of every recording function: one slot written, index advanced. -/
def ring_put (event : CString) (irq_num : Int) (s : Sys) : Ring × Nat :=
  (Function.update s.trace_log (slot s.trace_index)
      { timestamp := get_timestamp s,
        event := strncpy (MAX_TRACE_MSG_LEN - 1) event,
        irq_num := irq_num },
    (s.trace_index + 1) % MAX_TRACE_LINES)

/-- The descriptor invariant of the data model: a handler is present exactly
when the state is Registered or Executing, for every descriptor. -/
def handler_invariant (t : Table) : Prop :=
  ∀ i : Fin MAX_INTERRUPTS,
    (t i).isr ≠ none ↔
      ((t i).state = IRQ_STATE_REGISTERED ∨ (t i).state = IRQ_STATE_EXECUTING)

/-- One call of one of the four recording functions. -/
inductive RecordCall where
  | add_trace (event : CString)
  | add_trace_with_irq (event : CString) (irq_num : Int)
  | add_trace_silent (event : CString)
  | add_trace_with_irq_silent (event : CString) (irq_num : Int)

/-- The call itself. -/
def RecordCall.run (c : RecordCall) (s : Sys) : Sys :=
  match c with
  | RecordCall.add_trace event => InterruptSimulator.add_trace event s
  | RecordCall.add_trace_with_irq event irq_num =>
      InterruptSimulator.add_trace_with_irq event irq_num s
  | RecordCall.add_trace_silent event => InterruptSimulator.add_trace_silent event s
  | RecordCall.add_trace_with_irq_silent event irq_num =>
      InterruptSimulator.add_trace_with_irq_silent event irq_num s

/-- The message passed to the call. -/
def RecordCall.message (c : RecordCall) : CString :=
  match c with
  | RecordCall.add_trace event => event
  | RecordCall.add_trace_with_irq event _ => event
  | RecordCall.add_trace_silent event => event
  | RecordCall.add_trace_with_irq_silent event _ => event

/-- The vector passed to the call, `-1` for the two functions that take none. -/
def RecordCall.vector (c : RecordCall) : Int :=
  match c with
  | RecordCall.add_trace _ => -1
  | RecordCall.add_trace_with_irq _ irq_num => irq_num
  | RecordCall.add_trace_silent _ => -1
  | RecordCall.add_trace_with_irq_silent _ irq_num => irq_num

/-- What the event of a call looks like in the ring, apart from its
timestamp: the message cut to 255 bytes, and the vector. -/
def RecordCall.stored (c : RecordCall) : CString × Int :=
  (c.message.take 255, c.vector)

/-- A sequence of recording calls, in order. -/
def record_all (calls : List RecordCall) (s : Sys) : Sys :=
  calls.foldl (fun acc c => c.run acc) s

/-- The 100 slots read cyclically from `trace_index`, without the timestamps. -/
def ring_read (s : Sys) : List (CString × Int) :=
  (List.range MAX_TRACE_LINES).map
    (fun i => ((s.trace_log (slot (s.trace_index + i))).event,
               (s.trace_log (slot (s.trace_index + i))).irq_num))

/-- The line echoed by `add_trace_smart` when it echoes. -/
def smart_line (event : CString) (irq_num : Int) (s : Sys) : CString :=
  if irq_num ≥ 0 then
    cstr "[" ++ get_timestamp s ++ cstr "] [IRQ" ++ fmt_d irq_num ++ cstr "] " ++ event ++ cstr "\n"
  else
    cstr "[" ++ get_timestamp s ++ cstr "] " ++ event ++ cstr "\n"

/-- The line printed for one ring entry by the display functions. -/
def entry_line (e : trace_entry_t) : CString :=
  if e.irq_num ≥ 0 then
    cstr "[" ++ e.timestamp ++ cstr "] [IRQ" ++ fmt_d e.irq_num ++ cstr "] " ++ e.event ++ cstr "\n"
  else
    cstr "[" ++ e.timestamp ++ cstr "] " ++ e.event ++ cstr "\n"

/-- The line with which `show_last_trace` announces the entry it found. -/
def found_line (position : Int) : CString :=
  cstr "Entrada encontrada (posición " ++ fmt_d position ++ cstr " desde el final):\n"

/-- Whether the event of a call, as it is stored in the ring, is classified
as timer-related by `is_timer_related_trace`. -/
def RecordCall.timer_related (c : RecordCall) : Bool :=
  is_timer_related_trace
    { timestamp := [], event := c.message.take 255, irq_num := c.vector } != 0

/-- In a list of events given newest first, the position (from 0) of the
first one that is not timer-related. -/
def first_not_timer : List RecordCall → Option Nat
  | [] => none
  | c :: rest => if c.timer_related then (first_not_timer rest).map (fun q => q + 1) else some 0

/-- The ring entry examined by `show_last_trace` in iteration `i` of its loop. -/
def scanned (s : Sys) (start_search i : Nat) : trace_entry_t :=
  s.trace_log (slot ((start_search + MAX_TRACE_LINES - 1 - i) % MAX_TRACE_LINES))

/-- A sequence of calls `update_stats(irq_num, execution_time)`, in order. -/
def update_all (calls : List (Int × Nat)) (s : Sys) : Sys :=
  calls.foldl (fun acc c => update_stats c.1 c.2 acc) s

/-- The sum of the elapsed times of a sequence of calls of `update_stats`. -/
def total_time (calls : List (Int × Nat)) : ℚ :=
  (calls.map (fun c => (c.2 : ℚ))).sum

/-- The value of the elapsed-time expression of `dispatch_interrupt` in `long`
arithmetic, before it is stored in an `unsigned long`. -/
def elapsed_long (start_time end_time : timespec) : Int :=
  (end_time.tv_sec - start_time.tv_sec) * 1000000 +
    (end_time.tv_nsec - start_time.tv_nsec).tdiv 1000

/-- The exact time between two clock readings, in microseconds. -/
def elapsed_exact (start_time end_time : timespec) : ℚ :=
  (((end_time.tv_sec - start_time.tv_sec) * 1000000000 +
      (end_time.tv_nsec - start_time.tv_nsec) : Int) : ℚ) / 1000

/-- The ring and the index of a state. -/
def ring_of (s : Sys) : Ring × Nat := (s.trace_log, s.trace_index)

/-- The ring with one more entry `(event, vector)`, recorded at `timestamp`. -/
def ring_append (timestamp : CString) (event : CString × Int) (ring : Ring × Nat) : Ring × Nat :=
  (Function.update ring.1 (slot ring.2)
      { timestamp := timestamp, event := event.1, irq_num := event.2 },
    (ring.2 + 1) % MAX_TRACE_LINES)

/-- The ring with several more entries, in order. -/
def append_events (timestamp : CString) (events : List (CString × Int)) (ring : Ring × Nat) :
    Ring × Nat :=
  events.foldl (fun r e => ring_append timestamp e r) ring

/-- The "handler attached" event of `register_isr`. -/
def msg_attached (irq_num : Int) (description : CString) : CString :=
  snprintf MAX_TRACE_MSG_LEN
    (cstr "📝 KERNEL: ISR registrada en IDT[" ++ fmt_d irq_num ++ cstr "] -> Handler: " ++
      dquote ++ description ++ dquote)

/-- The "hardware line connected" event of `register_isr`. -/
def msg_connected (irq_num : Int) : CString :=
  snprintf MAX_TRACE_MSG_LEN
    (cstr "🔗 HARDWARE: IRQ " ++ fmt_d irq_num ++
      cstr " ahora conectada al kernel - Lista para recibir señales")

/-- The "handler detached" event of `unregister_isr`. -/
def msg_detached (irq_num : Int) (old_description : CString) : CString :=
  snprintf MAX_TRACE_MSG_LEN
    (cstr "🗑️  KERNEL: ISR removida de IDT[" ++ fmt_d irq_num ++ cstr "] - Era: " ++
      dquote ++ old_description ++ dquote)

/-- The "hardware line disconnected" event of `unregister_isr`. -/
def msg_disconnected (irq_num : Int) : CString :=
  snprintf MAX_TRACE_MSG_LEN
    (cstr "🚫 HARDWARE: IRQ " ++ fmt_d irq_num ++
      cstr " desconectada - Interrupciones no serán procesadas")

/-- The four events of `dispatch_interrupt` before the handler is called. -/
def msgs_before_handler (irq_num : Int) (description : CString) (call_count : Int) :
    List CString :=
  [snprintf MAX_TRACE_MSG_LEN
      (cstr "🔥 HARDWARE: IRQ " ++ fmt_d irq_num ++
        cstr " disparada - Línea de interrupción activada"),
   snprintf MAX_TRACE_MSG_LEN
      (cstr "🚨 CPU: Guardando contexto actual - Registros y estado del procesador"),
   snprintf MAX_TRACE_MSG_LEN
      (cstr "🔍 KERNEL: Consultando IDT[" ++ fmt_d irq_num ++
        cstr "] - Vector de interrupción encontrado"),
   snprintf MAX_TRACE_MSG_LEN
      (cstr "⚡ KERNEL: Ejecutando ISR " ++ dquote ++ description ++ dquote ++
        cstr " - Llamada #" ++ fmt_d call_count ++ cstr " [Modo Kernel]")]

/-- The two events of `dispatch_interrupt` after the handler has returned. -/
def msgs_after_handler (irq_num : Int) (execution_time : Nat) : List CString :=
  [snprintf MAX_TRACE_MSG_LEN
      (cstr "🔄 CPU: Restaurando contexto - Volviendo al proceso interrumpido (" ++
        fmt_lu execution_time ++ cstr " μs)"),
   snprintf MAX_TRACE_MSG_LEN
      (cstr "✅ KERNEL: IRQ " ++ fmt_d irq_num ++
        cstr " procesada - Sistema listo para nuevas interrupciones")]

/-- The scenario "register, dispatch, unregister" on vector `v`: the state
after `register_isr(v, f, d)`. -/
def scenario_registered (v : Fin MAX_INTERRUPTS) (f : Nat) (d : CString) (s : Sys) : Sys :=
  (register_isr ((v : Nat) : Int) (some f) d s).2

/-- The scenario: the state in which `dispatch_interrupt(v)` calls the handler. -/
def scenario_at_handler (v : Fin MAX_INTERRUPTS) (f : Nat) (d : CString) (s : Sys) : Sys :=
  (dispatch_enter ((v : Nat) : Int) (scenario_registered v f d s)).1

/-- The scenario: the state in which the handler returns. -/
def scenario_after_handler (isrs : IsrImpl) (v : Fin MAX_INTERRUPTS) (f : Nat) (d : CString)
    (s : Sys) : Sys :=
  isrs f ((v : Nat) : Int) (scenario_at_handler v f d s)

/-- The scenario: the state after `dispatch_interrupt(v)`. -/
def scenario_dispatched (isrs : IsrImpl) (v : Fin MAX_INTERRUPTS) (f : Nat) (d : CString)
    (s : Sys) : Sys :=
  (dispatch_interrupt isrs ((v : Nat) : Int) (scenario_registered v f d s)).1

/-- The scenario: the state after the final `unregister_isr(v)`. -/
def scenario_final (isrs : IsrImpl) (v : Fin MAX_INTERRUPTS) (f : Nat) (d : CString)
    (s : Sys) : Sys :=
  (unregister_isr ((v : Nat) : Int) (scenario_dispatched isrs v f d s)).2

/-- The call `dispatch_interrupt(irq_num)` made `n` times in a row. -/
def dispatch_times (isrs : IsrImpl) (irq_num : Int) : Nat → Sys → Sys
  | 0, s => s
  | n + 1, s => dispatch_times isrs irq_num n (dispatch_interrupt isrs irq_num s).1

/-! ## States used as concrete inputs -/

/-- The program state after `init_idt` and `init_system_stats`, at some clock reading. -/
def started : Sys :=
  init_system_stats (init_idt (boot { tv_sec := 1700000000, tv_nsec := 0 } { tv_sec := 5, tv_nsec := 0 }))

/-- A state in which another thread is inside the handler of vector 3:
`custom_isr` was registered on it and a dispatch has run its first locked section. -/
def busy : Sys :=
  { started with
    idt := dispatch_mark_executing 3 1700000000
      (register_locked 3 (some 3) (cstr "Tarjeta de red Ethernet") started.idt) }

/-- Two threads race on vector 3: after the registration, one dispatch runs
its first locked section; then a second dispatch, a register and an
unregister of the same vector arrive while the handler is still running. -/
def race : List Action :=
  [Action.register 3 (some 3) (cstr "Tarjeta de red Ethernet"),
   Action.begin_dispatch 3 1700000000,
   Action.begin_dispatch 3 1700000001,
   Action.register 3 (some 4) (cstr "X"),
   Action.unregister 3]

/-- The state reached by `race`. -/
def raced : Conc :=
  { idt := dispatch_mark_executing 3 1700000000
      (register_locked 3 (some 3) (cstr "Tarjeta de red Ethernet") (init_idt started).idt),
    in_flight := Function.update (fun _ => 0) 3 1 }

/-- The program state at program start, before `init_idt`: the ring is
zero-initialised and `trace_index` is 0. -/
def fresh : Sys :=
  boot { tv_sec := 1700000000, tv_nsec := 0 } { tv_sec := 5, tv_nsec := 0 }

/-- The started program with the log level set to Silent. -/
def silenced : Sys :=
  { started with current_log_level := LOG_LEVEL_SILENT }

/-- One hundred events recorded from program start, which fill the ring
exactly once. -/
def hundred_events : List RecordCall :=
  List.replicate 100 (RecordCall.add_trace_with_irq_silent (cstr "evento") 5)

/-- Two recorded events: first a device event on vector 5, then a timer
message without a vector. -/
def two_events : List RecordCall :=
  [RecordCall.add_trace_with_irq (cstr "evento") 5,
   RecordCall.add_trace_silent (cstr "Timer PIT detenido")]

/-- The started program with `custom_isr` registered on vector 2. -/
def with_custom : Sys := (register_isr 2 (some 3) (cstr "X") started).2

/-- The started program with `timer_isr` registered on the timer vector. -/
def with_timer : Sys :=
  (register_isr IRQ_TIMER (some 1) (cstr "Timer PIT - Reloj del sistema") started).2

/-- What the main thread does when the user leaves the menu: the run flag is cleared. -/
def request_shutdown (s : Sys) : Sys := { s with system_running := 0 }

/-! ## Basic facts about the model -/

section Basics

open irq_state_t log_level_t

theorem idx_cast (v : Fin MAX_INTERRUPTS) : idx ((v : Nat) : Int) = v := by
  apply Fin.ext
  have h := v.isLt
  simp only [idx, Int.toNat_ofNat]
  exact Nat.mod_eq_of_lt h

theorem IS_VALID_IRQ_iff (irq : Int) : IS_VALID_IRQ irq = true ↔ 0 ≤ irq ∧ irq < 16 := by
  simp [IS_VALID_IRQ]

theorem validate_irq_num_eq_success (irq : Int) :
    validate_irq_num irq = SUCCESS ↔ 0 ≤ irq ∧ irq < 16 := by
  unfold validate_irq_num
  by_cases h : IS_VALID_IRQ irq = true
  · simp [h, (IS_VALID_IRQ_iff irq).1 h]
  · have h2 : ¬ (0 ≤ irq ∧ irq < 16) := fun hc => h ((IS_VALID_IRQ_iff irq).2 hc)
    simp [h, h2]

theorem validate_irq_num_cast (v : Fin MAX_INTERRUPTS) :
    validate_irq_num ((v : Nat) : Int) = SUCCESS := by
  rw [validate_irq_num_eq_success]
  have h : (v : Nat) < 16 := v.isLt
  omega

@[simp] theorem printf_idt (x : CString) (s : Sys) : (printf x s).idt = s.idt := rfl
@[simp] theorem printf_stats (x : CString) (s : Sys) : (printf x s).stats = s.stats := rfl
@[simp] theorem printf_trace_log (x : CString) (s : Sys) :
    (printf x s).trace_log = s.trace_log := rfl
@[simp] theorem printf_trace_index (x : CString) (s : Sys) :
    (printf x s).trace_index = s.trace_index := rfl
@[simp] theorem printf_monotonic (x : CString) (s : Sys) :
    (printf x s).monotonic = s.monotonic := rfl
@[simp] theorem printf_realtime (x : CString) (s : Sys) :
    (printf x s).realtime = s.realtime := rfl

@[simp] theorem add_trace_idt (e : CString) (s : Sys) : (add_trace e s).idt = s.idt := rfl
@[simp] theorem add_trace_stats (e : CString) (s : Sys) : (add_trace e s).stats = s.stats := rfl
@[simp] theorem add_trace_with_irq_idt (e : CString) (n : Int) (s : Sys) :
    (add_trace_with_irq e n s).idt = s.idt := rfl
@[simp] theorem add_trace_with_irq_stats (e : CString) (n : Int) (s : Sys) :
    (add_trace_with_irq e n s).stats = s.stats := rfl

/-- The slot read back for the echo, `(trace_index - 1 + MAX_TRACE_LINES) % MAX_TRACE_LINES`
after the index has advanced, is the slot just written. -/
theorem slot_last_written (i : Nat) :
    slot (((i + 1) % MAX_TRACE_LINES + MAX_TRACE_LINES - 1) % MAX_TRACE_LINES) = slot i := by
  apply Fin.ext
  simp only [slot, MAX_TRACE_LINES]
  omega

theorem add_trace_smart_idt (e : CString) (n t : Int) (s : Sys) :
    (add_trace_smart e n t s).idt = s.idt := by
  unfold add_trace_smart
  dsimp only
  split_ifs <;> rfl

theorem add_trace_smart_stats (e : CString) (n t : Int) (s : Sys) :
    (add_trace_smart e n t s).stats = s.stats := by
  unfold add_trace_smart
  dsimp only
  split_ifs <;> rfl

theorem add_trace_smart_realtime (e : CString) (n t : Int) (s : Sys) :
    (add_trace_smart e n t s).realtime = s.realtime := by
  unfold add_trace_smart
  dsimp only
  split_ifs <;> rfl

theorem add_trace_smart_monotonic (e : CString) (n t : Int) (s : Sys) :
    (add_trace_smart e n t s).monotonic = s.monotonic := by
  unfold add_trace_smart
  dsimp only
  split_ifs <;> rfl

theorem add_trace_smart_ring (e : CString) (n t : Int) (s : Sys) :
    ((add_trace_smart e n t s).trace_log, (add_trace_smart e n t s).trace_index) =
      ring_put e (if n ≥ 0 then n else -1) s := by
  unfold add_trace_smart
  dsimp only
  split_ifs <;> rfl

theorem update_stats_idt (n : Int) (e : Nat) (s : Sys) : (update_stats n e s).idt = s.idt := rfl

end Basics

/-! ## Vector table contracts -/

section VectorTable

open irq_state_t log_level_t

theorem register_isr_code (s : Sys) (v : Int) (h : isr_ptr) (d : CString) :
    (register_isr v h d s).1 =
      if ¬ (0 ≤ v ∧ v < 16) then ERROR_INVALID_IRQ
      else if (s.idt (idx v)).state = IRQ_STATE_EXECUTING then ERROR_ISR_EXECUTING
      else SUCCESS := by
  unfold register_isr
  by_cases hv : 0 ≤ v ∧ v < 16
  · have h1 : validate_irq_num v = SUCCESS := (validate_irq_num_eq_success v).2 hv
    by_cases he : (s.idt (idx v)).state = IRQ_STATE_EXECUTING <;> simp [h1, hv, he]
  · have h1 : validate_irq_num v ≠ SUCCESS := fun hc => hv ((validate_irq_num_eq_success v).1 hc)
    simp [h1, hv]

theorem unregister_isr_code (s : Sys) (v : Int) :
    (unregister_isr v s).1 =
      if ¬ (0 ≤ v ∧ v < 16) then ERROR_INVALID_IRQ
      else if (s.idt (idx v)).state = IRQ_STATE_EXECUTING then ERROR_ISR_EXECUTING
      else SUCCESS := by
  unfold unregister_isr
  by_cases hv : 0 ≤ v ∧ v < 16
  · have h1 : validate_irq_num v = SUCCESS := (validate_irq_num_eq_success v).2 hv
    by_cases he : (s.idt (idx v)).state = IRQ_STATE_EXECUTING <;> simp [h1, hv, he]
  · have h1 : validate_irq_num v ≠ SUCCESS := fun hc => hv ((validate_irq_num_eq_success v).1 hc)
    simp [h1, hv]

theorem register_isr_idt (s : Sys) (v : Int) (h : isr_ptr) (d : CString) :
    (register_isr v h d s).2.idt = register_table v h d s.idt := by
  unfold register_isr register_table
  split_ifs <;> rfl

theorem unregister_isr_idt (s : Sys) (v : Int) :
    (unregister_isr v s).2.idt = unregister_table v s.idt := by
  unfold unregister_isr unregister_table
  split_ifs <;> rfl

theorem register_isr_stats (s : Sys) (v : Int) (h : isr_ptr) (d : CString) :
    (register_isr v h d s).2.stats = s.stats := by
  unfold register_isr
  split_ifs <;> rfl

theorem unregister_isr_stats (s : Sys) (v : Int) :
    (unregister_isr v s).2.stats = s.stats := by
  unfold unregister_isr
  split_ifs <;> rfl

/-- C1: for every vector `v` in `[0,16)` whose state is not Executing, every
handler `h` and every description `d`, `register_isr(v, h, d)` returns
`SUCCESS` and leaves descriptor `v` with handler `h`, state Registered,
`call_count = 0`, `total_execution_time = 0` and the first 63 bytes of `d` as
description. -/
theorem register_isr_installs (s : Sys) (v : Fin MAX_INTERRUPTS) (h : isr_ptr) (d : CString)
    (hs : (s.idt v).state ≠ IRQ_STATE_EXECUTING) :
    (register_isr ((v : Nat) : Int) h d s).1 = SUCCESS ∧
    ((register_isr ((v : Nat) : Int) h d s).2.idt v).isr = h ∧
    ((register_isr ((v : Nat) : Int) h d s).2.idt v).state = IRQ_STATE_REGISTERED ∧
    ((register_isr ((v : Nat) : Int) h d s).2.idt v).call_count = 0 ∧
    ((register_isr ((v : Nat) : Int) h d s).2.idt v).total_execution_time = 0 ∧
    ((register_isr ((v : Nat) : Int) h d s).2.idt v).description = d.take 63 := by
  have hv : (0 : Int) ≤ ((v : Nat) : Int) ∧ ((v : Nat) : Int) < 16 :=
    (validate_irq_num_eq_success _).1 (validate_irq_num_cast v)
  have hval := validate_irq_num_cast v
  refine ⟨?_, ?_⟩
  · rw [register_isr_code]
    simp [hv, idx_cast, hs]
  · rw [register_isr_idt]
    unfold register_table register_locked
    rw [idx_cast]
    simp [hval, hs, strncpy]

theorem register_isr_installs_witness :
    (started.idt 2).state ≠ IRQ_STATE_EXECUTING ∧
    (register_isr 2 (some 3) (cstr "X") started).1 = SUCCESS ∧
    ((register_isr 2 (some 3) (cstr "X") started).2.idt 2).isr = some 3 ∧
    ((register_isr 2 (some 3) (cstr "X") started).2.idt 2).state = IRQ_STATE_REGISTERED ∧
    ((register_isr 2 (some 3) (cstr "X") started).2.idt 2).call_count = 0 ∧
    ((register_isr 2 (some 3) (cstr "X") started).2.idt 2).total_execution_time = 0 ∧
    ((register_isr 2 (some 3) (cstr "X") started).2.idt 2).description = (cstr "X").take 63 :=
  ⟨by decide, register_isr_installs started 2 (some 3) (cstr "X") (by decide)⟩

/-- C2: for every integer `v` and every table state, `register_isr` and
`unregister_isr` each return `ERROR_INVALID_IRQ` exactly when `v` is outside
`[0,16)`, `ERROR_ISR_EXECUTING` exactly when `v` is in range and descriptor
`v` is Executing, and `SUCCESS` in every other case. -/
theorem register_unregister_result (s : Sys) (v : Int) (h : isr_ptr) (d : CString) :
    ((register_isr v h d s).1 = ERROR_INVALID_IRQ ↔ ¬ (0 ≤ v ∧ v < 16)) ∧
    ((register_isr v h d s).1 = ERROR_ISR_EXECUTING ↔
      (0 ≤ v ∧ v < 16) ∧ (s.idt (idx v)).state = IRQ_STATE_EXECUTING) ∧
    ((register_isr v h d s).1 = SUCCESS ↔
      (0 ≤ v ∧ v < 16) ∧ (s.idt (idx v)).state ≠ IRQ_STATE_EXECUTING) ∧
    ((unregister_isr v s).1 = ERROR_INVALID_IRQ ↔ ¬ (0 ≤ v ∧ v < 16)) ∧
    ((unregister_isr v s).1 = ERROR_ISR_EXECUTING ↔
      (0 ≤ v ∧ v < 16) ∧ (s.idt (idx v)).state = IRQ_STATE_EXECUTING) ∧
    ((unregister_isr v s).1 = SUCCESS ↔
      (0 ≤ v ∧ v < 16) ∧ (s.idt (idx v)).state ≠ IRQ_STATE_EXECUTING) := by
  rw [register_isr_code, unregister_isr_code]
  by_cases hv : 0 ≤ v ∧ v < 16
  · by_cases he : (s.idt (idx v)).state = IRQ_STATE_EXECUTING <;> simp [hv, he]
  · simp [hv]

/-- C3: for every vector `v` in `[0,16)` whose state is not Executing,
`unregister_isr(v)` returns `SUCCESS` and leaves descriptor `v` with no
handler, state Free, `call_count = 0` and `total_execution_time = 0`. -/
theorem unregister_isr_clears (s : Sys) (v : Fin MAX_INTERRUPTS)
    (hs : (s.idt v).state ≠ IRQ_STATE_EXECUTING) :
    (unregister_isr ((v : Nat) : Int) s).1 = SUCCESS ∧
    ((unregister_isr ((v : Nat) : Int) s).2.idt v).isr = none ∧
    ((unregister_isr ((v : Nat) : Int) s).2.idt v).state = IRQ_STATE_FREE ∧
    ((unregister_isr ((v : Nat) : Int) s).2.idt v).call_count = 0 ∧
    ((unregister_isr ((v : Nat) : Int) s).2.idt v).total_execution_time = 0 := by
  have hv : (0 : Int) ≤ ((v : Nat) : Int) ∧ ((v : Nat) : Int) < 16 :=
    (validate_irq_num_eq_success _).1 (validate_irq_num_cast v)
  have hval := validate_irq_num_cast v
  refine ⟨?_, ?_⟩
  · rw [unregister_isr_code]
    simp [hv, idx_cast, hs]
  · rw [unregister_isr_idt]
    unfold unregister_table unregister_locked
    rw [idx_cast]
    simp [hval, hs]

theorem unregister_isr_clears_witness :
    ((register_isr 2 (some 3) (cstr "X") started).2.idt 2).state ≠ IRQ_STATE_EXECUTING ∧
    (unregister_isr 2 (register_isr 2 (some 3) (cstr "X") started).2).1 = SUCCESS ∧
    ((unregister_isr 2 (register_isr 2 (some 3) (cstr "X") started).2).2.idt 2).isr = none ∧
    ((unregister_isr 2 (register_isr 2 (some 3) (cstr "X") started).2).2.idt 2).state =
      IRQ_STATE_FREE ∧
    ((unregister_isr 2 (register_isr 2 (some 3) (cstr "X") started).2).2.idt 2).call_count = 0 ∧
    ((unregister_isr 2 (register_isr 2 (some 3) (cstr "X") started).2).2.idt 2).total_execution_time
      = 0 :=
  ⟨by decide,
    unregister_isr_clears (register_isr 2 (some 3) (cstr "X") started).2 2 (by decide)⟩

/-- C4: whenever `register_isr` or `unregister_isr` returns an error, every
vector descriptor and the statistics are exactly as before the call. -/
theorem failed_mutation_changes_nothing (s : Sys) (v : Int) (h : isr_ptr) (d : CString) :
    ((register_isr v h d s).1 ≠ SUCCESS →
      (register_isr v h d s).2.idt = s.idt ∧ (register_isr v h d s).2.stats = s.stats) ∧
    ((unregister_isr v s).1 ≠ SUCCESS →
      (unregister_isr v s).2.idt = s.idt ∧ (unregister_isr v s).2.stats = s.stats) := by
  rw [register_isr_code, unregister_isr_code, register_isr_idt, unregister_isr_idt,
    register_isr_stats, unregister_isr_stats]
  unfold register_table unregister_table
  by_cases hv : 0 ≤ v ∧ v < 16
  · have h1 : validate_irq_num v = SUCCESS := (validate_irq_num_eq_success v).2 hv
    by_cases he : (s.idt (idx v)).state = IRQ_STATE_EXECUTING <;> simp [hv, he, h1]
  · have h1 : validate_irq_num v ≠ SUCCESS := fun hc => hv ((validate_irq_num_eq_success v).1 hc)
    simp [hv, h1]

theorem failed_mutation_changes_nothing_witness :
    ((register_isr 3 (some 4) (cstr "X") busy).1 ≠ SUCCESS ∧
      (register_isr 3 (some 4) (cstr "X") busy).2.idt = busy.idt ∧
      (register_isr 3 (some 4) (cstr "X") busy).2.stats = busy.stats) ∧
    ((unregister_isr 3 busy).1 ≠ SUCCESS ∧
      (unregister_isr 3 busy).2.idt = busy.idt ∧
      (unregister_isr 3 busy).2.stats = busy.stats) :=
  ⟨⟨by decide, (failed_mutation_changes_nothing busy 3 (some 4) (cstr "X")).1 (by decide)⟩,
   ⟨by decide, (failed_mutation_changes_nothing busy 3 (some 4) (cstr "X")).2 (by decide)⟩⟩

end VectorTable

/-! ## Dispatcher contracts -/

section Dispatcher

open irq_state_t log_level_t

theorem snprintf_strncpy (x : CString) :
    strncpy (MAX_TRACE_MSG_LEN - 1) (snprintf MAX_TRACE_MSG_LEN x) = snprintf MAX_TRACE_MSG_LEN x := by
  simp [strncpy, snprintf, List.take_take]

theorem dispatch_enter_idt (irq_num : Int) (s : Sys) :
    (dispatch_enter irq_num s).1.idt = dispatch_mark_executing (idx irq_num) (time s) s.idt := by
  simp [dispatch_enter, add_trace_smart_idt, time, add_trace_smart_realtime]

theorem dispatch_enter_isr (irq_num : Int) (s : Sys) :
    (dispatch_enter irq_num s).2 = (s.idt (idx irq_num)).isr := by
  simp [dispatch_enter, add_trace_smart_idt, dispatch_mark_executing]

theorem dispatch_enter_monotonic (irq_num : Int) (s : Sys) :
    (dispatch_enter irq_num s).1.monotonic = s.monotonic := by
  simp [dispatch_enter, add_trace_smart_monotonic]

theorem dispatch_enter_stats (irq_num : Int) (s : Sys) :
    (dispatch_enter irq_num s).1.stats = s.stats := by
  simp [dispatch_enter, add_trace_smart_stats]

/-- The request is turned away with the "no handler" event whenever the state
is not Registered or the handler is missing. -/
theorem dispatch_turned_away (isrs : IsrImpl) (s : Sys) (v : Fin MAX_INTERRUPTS)
    (h : (s.idt v).state ≠ IRQ_STATE_REGISTERED ∨ (s.idt v).isr = none) :
    dispatch_interrupt isrs ((v : Nat) : Int) s =
      (add_trace_smart (msg_no_handler ((v : Nat) : Int) (s.idt v).state) ((v : Nat) : Int)
        (if ((v : Nat) : Int) = IRQ_TIMER then 1 else 0) s, []) := by
  have hval := validate_irq_num_cast v
  unfold dispatch_interrupt
  rw [idx_cast]
  simp only [hval, ne_eq, not_true_eq_false, if_false, h, if_true]

/-- The accepted path: the handler found in the table is called once, between
the two table updates. -/
theorem dispatch_accepted (isrs : IsrImpl) (s : Sys) (v : Fin MAX_INTERRUPTS) (f : Nat)
    (hstate : (s.idt v).state = IRQ_STATE_REGISTERED) (hisr : (s.idt v).isr = some f) :
    (dispatch_interrupt isrs ((v : Nat) : Int) s).2 = [(f, ((v : Nat) : Int))] ∧
    (dispatch_interrupt isrs ((v : Nat) : Int) s).1.idt =
      dispatch_restore_registered v
        (execution_time_of (clock_gettime (dispatch_enter ((v : Nat) : Int) s).1)
          (clock_gettime (isrs f ((v : Nat) : Int) (dispatch_enter ((v : Nat) : Int) s).1)))
        (isrs f ((v : Nat) : Int) (dispatch_enter ((v : Nat) : Int) s).1).idt := by
  have hval := validate_irq_num_cast v
  have hcap : (dispatch_enter ((v : Nat) : Int) s).2 = some f := by
    rw [dispatch_enter_isr, idx_cast, hisr]
  unfold dispatch_interrupt
  rw [idx_cast]
  simp only [hval, ne_eq, not_true_eq_false, if_false, hstate, hisr, or_self, hcap,
    add_trace_smart_idt, update_stats_idt]
  simp [add_trace_smart_idt, update_stats_idt]

theorem int_wrap_in_range (x : Int) (h1 : INT_MIN ≤ x) (h2 : x ≤ INT_MAX) : int_wrap x = x := by
  unfold int_wrap
  simp only [INT_MIN, INT_MAX] at h1 h2
  omega

/-- Descriptor `v` after an accepted dispatch whose handler leaves the table
alone. -/
theorem dispatch_accepted_descriptor (isrs : IsrImpl) (s : Sys) (v : Fin MAX_INTERRUPTS)
    (f : Nat) (hstate : (s.idt v).state = IRQ_STATE_REGISTERED) (hisr : (s.idt v).isr = some f)
    (hframe : ∀ (a : Int) (t : Sys), (isrs f a t).idt = t.idt) :
    (dispatch_interrupt isrs ((v : Nat) : Int) s).1.idt v =
      { s.idt v with
        state := IRQ_STATE_REGISTERED,
        call_count := int_wrap ((s.idt v).call_count + 1),
        last_call := time s,
        total_execution_time := (s.idt v).total_execution_time +
          execution_time_of (clock_gettime (dispatch_enter ((v : Nat) : Int) s).1)
            (clock_gettime (isrs f ((v : Nat) : Int) (dispatch_enter ((v : Nat) : Int) s).1)) } := by
  rw [(dispatch_accepted isrs s v f hstate hisr).2, hframe, dispatch_enter_idt, idx_cast]
  simp [dispatch_restore_registered, dispatch_mark_executing]

/-- After `n` dispatches in a row of a Registered vector whose handler leaves
the table alone, the vector is Registered with the same handler and, as long
as `INT_MAX` is not passed, its `call_count` has grown by `n`. -/
theorem dispatch_times_descriptor (isrs : IsrImpl) (v : Fin MAX_INTERRUPTS) (f : Nat)
    (hframe : ∀ (a : Int) (t : Sys), (isrs f a t).idt = t.idt) :
    ∀ (n : Nat) (s : Sys), (s.idt v).state = IRQ_STATE_REGISTERED → (s.idt v).isr = some f →
      INT_MIN ≤ (s.idt v).call_count → (s.idt v).call_count + (n : Int) ≤ INT_MAX →
      ((dispatch_times isrs ((v : Nat) : Int) n s).idt v).state = IRQ_STATE_REGISTERED ∧
      ((dispatch_times isrs ((v : Nat) : Int) n s).idt v).isr = some f ∧
      ((dispatch_times isrs ((v : Nat) : Int) n s).idt v).call_count =
        (s.idt v).call_count + (n : Int) := by
  intro n
  induction n with
  | zero =>
      intro s hstate hisr _ _
      exact ⟨hstate, hisr, by simp [dispatch_times]⟩
  | succ n ih =>
      intro s hstate hisr hlo hhi
      have hd := dispatch_accepted_descriptor isrs s v f hstate hisr hframe
      have hw : int_wrap ((s.idt v).call_count + 1) = (s.idt v).call_count + 1 := by
        apply int_wrap_in_range
        · simp only [INT_MIN] at hlo ⊢
          omega
        · simp only [INT_MAX] at hhi ⊢
          push_cast at hhi
          omega
      have hc : ((dispatch_interrupt isrs ((v : Nat) : Int) s).1.idt v).call_count =
          (s.idt v).call_count + 1 := by
        rw [hd]
        exact hw
      have hs : ((dispatch_interrupt isrs ((v : Nat) : Int) s).1.idt v).state =
          IRQ_STATE_REGISTERED := by
        rw [hd]
      have hi : ((dispatch_interrupt isrs ((v : Nat) : Int) s).1.idt v).isr = some f := by
        rw [hd]
        exact hisr
      obtain ⟨r1, r2, r3⟩ := ih (dispatch_interrupt isrs ((v : Nat) : Int) s).1 hs hi
        (by rw [hc]; simp only [INT_MIN] at hlo ⊢; omega)
        (by rw [hc]; simp only [INT_MAX] at hhi ⊢; push_cast at hhi; omega)
      refine ⟨r1, r2, ?_⟩
      show ((dispatch_times isrs ((v : Nat) : Int) n
        (dispatch_interrupt isrs ((v : Nat) : Int) s).1).idt v).call_count = _
      rw [r3, hc]
      push_cast
      ring

/-- C5 (as stated, refuted): `call_count` is a C `int`. With `custom_isr`
registered on vector 2 (a handler that leaves the table alone), after
2147483647 dispatches of the vector its `call_count` is `INT_MAX`, and the
next `dispatch_interrupt(2)` calls the handler and leaves `call_count` at
-2147483648, not one more than before. -/
theorem dispatch_call_count_wraps :
    ((dispatch_times program_isrs 2 2147483647 with_custom).idt 2).state =
      IRQ_STATE_REGISTERED ∧
    ((dispatch_times program_isrs 2 2147483647 with_custom).idt 2).isr = some 3 ∧
    ((dispatch_times program_isrs 2 2147483647 with_custom).idt 2).call_count = 2147483647 ∧
    (dispatch_interrupt program_isrs 2
      (dispatch_times program_isrs 2 2147483647 with_custom)).2 = [(3, 2)] ∧
    ((dispatch_interrupt program_isrs 2
      (dispatch_times program_isrs 2 2147483647 with_custom)).1.idt 2).call_count =
      -2147483648 := by
  have hframe : ∀ (a : Int) (t : Sys), (program_isrs 3 a t).idt = t.idt := fun _ _ => rfl
  have h0s : (with_custom.idt 2).state = IRQ_STATE_REGISTERED := by decide
  have h0i : (with_custom.idt 2).isr = some 3 := by decide
  have h0c : (with_custom.idt 2).call_count = 0 := by decide
  have e : (((2 : Fin MAX_INTERRUPTS) : Nat) : Int) = 2 := rfl
  obtain ⟨r1, r2, r3⟩ := dispatch_times_descriptor program_isrs 2 3 hframe 2147483647
    with_custom h0s h0i (by rw [h0c]; norm_num) (by rw [h0c]; norm_num)
  rw [h0c] at r3
  rw [e] at r1 r2 r3
  generalize dispatch_times program_isrs 2 2147483647 with_custom = S at r1 r2 r3 ⊢
  have hd := dispatch_accepted_descriptor program_isrs S 2 3 r1 r2 hframe
  have hc := (dispatch_accepted program_isrs S 2 3 r1 r2).1
  rw [e] at hd hc
  have hd2 := congrArg irq_descriptor_t.call_count hd
  rw [r3] at hd2
  refine ⟨r1, r2, ?_, hc, ?_⟩
  · rw [r3]
    norm_num
  · have hw : int_wrap (0 + ((2147483647 : Nat) : Int) + 1) = -2147483648 := by decide
    exact hd2.trans hw

/-- C5 (amended): for every vector `v` in `[0,16)` that is Registered with a
handler `f` which does not modify the table, `dispatch_interrupt(v)` calls
`f` exactly once, with argument `v`, and on return descriptor `v` is
Registered, its `call_count` is the 32-bit `int` successor of the old one:
one more when the old count is an `int` below `INT_MAX`, and `INT_MIN` when
it is `INT_MAX`; its `last_call` is the time read at the start of the
dispatch, its `total_execution_time` has grown by the elapsed time measured
around the call, and its handler and description are unchanged. -/
theorem dispatch_runs_handler (isrs : IsrImpl) (s : Sys) (v : Fin MAX_INTERRUPTS) (f : Nat)
    (hstate : (s.idt v).state = IRQ_STATE_REGISTERED)
    (hisr : (s.idt v).isr = some f)
    (hframe : ∀ (a : Int) (t : Sys), (isrs f a t).idt = t.idt) :
    (dispatch_interrupt isrs ((v : Nat) : Int) s).2 = [(f, ((v : Nat) : Int))] ∧
    ((dispatch_interrupt isrs ((v : Nat) : Int) s).1.idt v).state = IRQ_STATE_REGISTERED ∧
    ((dispatch_interrupt isrs ((v : Nat) : Int) s).1.idt v).call_count =
      int_wrap ((s.idt v).call_count + 1) ∧
    (INT_MIN ≤ (s.idt v).call_count → (s.idt v).call_count < INT_MAX →
      ((dispatch_interrupt isrs ((v : Nat) : Int) s).1.idt v).call_count =
        (s.idt v).call_count + 1) ∧
    ((s.idt v).call_count = INT_MAX →
      ((dispatch_interrupt isrs ((v : Nat) : Int) s).1.idt v).call_count = INT_MIN) ∧
    ((dispatch_interrupt isrs ((v : Nat) : Int) s).1.idt v).last_call = time s ∧
    ((dispatch_interrupt isrs ((v : Nat) : Int) s).1.idt v).total_execution_time =
      (s.idt v).total_execution_time +
        execution_time_of (clock_gettime (dispatch_enter ((v : Nat) : Int) s).1)
          (clock_gettime (isrs f ((v : Nat) : Int) (dispatch_enter ((v : Nat) : Int) s).1)) ∧
    ((dispatch_interrupt isrs ((v : Nat) : Int) s).1.idt v).isr = some f ∧
    ((dispatch_interrupt isrs ((v : Nat) : Int) s).1.idt v).description =
      (s.idt v).description := by
  have hd := dispatch_accepted_descriptor isrs s v f hstate hisr hframe
  refine ⟨(dispatch_accepted isrs s v f hstate hisr).1, ?_, ?_, ?_, ?_, ?_, ?_, ?_, ?_⟩
  · rw [hd]
  · rw [hd]
  · intro hlo hhi
    rw [hd]
    apply int_wrap_in_range
    · simp only [INT_MIN] at hlo ⊢
      omega
    · simp only [INT_MAX] at hhi ⊢
      omega
  · intro hmax
    rw [hd]
    show int_wrap ((s.idt v).call_count + 1) = INT_MIN
    rw [hmax]
    decide
  · rw [hd]
  · rw [hd]
  · rw [hd]
    exact hisr
  · rw [hd]

theorem dispatch_runs_handler_witness :
    (with_custom.idt 2).state = IRQ_STATE_REGISTERED ∧
    (with_custom.idt 2).isr = some 3 ∧
    (∀ (a : Int) (t : Sys), (program_isrs 3 a t).idt = t.idt) ∧
    INT_MIN ≤ (with_custom.idt 2).call_count ∧
    (with_custom.idt 2).call_count < INT_MAX ∧
    (dispatch_interrupt program_isrs 2 with_custom).2 = [(3, 2)] ∧
    ((dispatch_interrupt program_isrs 2 with_custom).1.idt 2).state = IRQ_STATE_REGISTERED ∧
    ((dispatch_interrupt program_isrs 2 with_custom).1.idt 2).call_count =
      (with_custom.idt 2).call_count + 1 ∧
    ((dispatch_interrupt program_isrs 2 with_custom).1.idt 2).last_call = time with_custom ∧
    ((dispatch_interrupt program_isrs 2 with_custom).1.idt 2).total_execution_time =
      (with_custom.idt 2).total_execution_time +
        execution_time_of (clock_gettime (dispatch_enter 2 with_custom).1)
          (clock_gettime (program_isrs 3 2 (dispatch_enter 2 with_custom).1)) ∧
    ((dispatch_interrupt program_isrs 2 with_custom).1.idt 2).isr = some 3 ∧
    ((dispatch_interrupt program_isrs 2 with_custom).1.idt 2).description =
      (with_custom.idt 2).description :=
  ⟨by decide, by decide, fun _ _ => rfl, by decide, by decide,
    (dispatch_runs_handler program_isrs with_custom 2 3 (by decide) (by decide)
      (fun _ _ => rfl)).1,
    (dispatch_runs_handler program_isrs with_custom 2 3 (by decide) (by decide)
      (fun _ _ => rfl)).2.1,
    (dispatch_runs_handler program_isrs with_custom 2 3 (by decide) (by decide)
      (fun _ _ => rfl)).2.2.2.1 (by decide) (by decide),
    (dispatch_runs_handler program_isrs with_custom 2 3 (by decide) (by decide)
      (fun _ _ => rfl)).2.2.2.2.2⟩

/-- The text of the "no handler" event for a Free vector is not cut by the
256-byte message buffer. -/
theorem msg_no_handler_free (v : Fin MAX_INTERRUPTS) :
    msg_no_handler ((v : Nat) : Int) IRQ_STATE_FREE =
      cstr "❌ KERNEL: IRQ " ++ fmt_d ((v : Nat) : Int) ++ cstr " SIN HANDLER - Estado: LIBRE" := by
  fin_cases v <;> decide

/-- C6: for every vector `v` in `[0,16)` whose state is Free,
`dispatch_interrupt(v)` calls no handler, leaves every descriptor and the
statistics unchanged, and appends exactly one trace entry: the "no handler"
event, tagged with vector `v`. -/
theorem dispatch_free_vector (isrs : IsrImpl) (s : Sys) (v : Fin MAX_INTERRUPTS)
    (hfree : (s.idt v).state = IRQ_STATE_FREE) :
    (dispatch_interrupt isrs ((v : Nat) : Int) s).2 = [] ∧
    (dispatch_interrupt isrs ((v : Nat) : Int) s).1.idt = s.idt ∧
    (dispatch_interrupt isrs ((v : Nat) : Int) s).1.stats = s.stats ∧
    (dispatch_interrupt isrs ((v : Nat) : Int) s).1.trace_log =
      Function.update s.trace_log (slot s.trace_index)
        { timestamp := get_timestamp s,
          event := cstr "❌ KERNEL: IRQ " ++ fmt_d ((v : Nat) : Int) ++
            cstr " SIN HANDLER - Estado: LIBRE",
          irq_num := ((v : Nat) : Int) } ∧
    (dispatch_interrupt isrs ((v : Nat) : Int) s).1.trace_index =
      (s.trace_index + 1) % MAX_TRACE_LINES := by
  have hrej : (s.idt v).state ≠ IRQ_STATE_REGISTERED ∨ (s.idt v).isr = none :=
    Or.inl (by rw [hfree]; decide)
  have hnn : ((v : Nat) : Int) ≥ 0 := Int.ofNat_nonneg _
  have hring := add_trace_smart_ring (msg_no_handler ((v : Nat) : Int) (s.idt v).state)
    ((v : Nat) : Int) (if ((v : Nat) : Int) = IRQ_TIMER then 1 else 0) s
  rw [if_pos hnn, hfree] at hring
  rw [dispatch_turned_away isrs s v hrej, hfree]
  refine ⟨rfl, add_trace_smart_idt _ _ _ _, add_trace_smart_stats _ _ _ _, ?_, ?_⟩
  · have h1 := congrArg Prod.fst hring
    simp only [ring_put, msg_no_handler, snprintf_strncpy] at h1
    rw [← msg_no_handler_free v, msg_no_handler]
    exact h1
  · exact congrArg Prod.snd hring

theorem dispatch_free_vector_witness :
    (started.idt 5).state = IRQ_STATE_FREE ∧
    (dispatch_interrupt program_isrs 5 started).2 = [] ∧
    (dispatch_interrupt program_isrs 5 started).1.idt = started.idt ∧
    (dispatch_interrupt program_isrs 5 started).1.stats = started.stats ∧
    (dispatch_interrupt program_isrs 5 started).1.trace_log =
      Function.update started.trace_log (slot started.trace_index)
        { timestamp := get_timestamp started,
          event := cstr "❌ KERNEL: IRQ " ++ fmt_d 5 ++ cstr " SIN HANDLER - Estado: LIBRE",
          irq_num := 5 } ∧
    (dispatch_interrupt program_isrs 5 started).1.trace_index =
      (started.trace_index + 1) % MAX_TRACE_LINES :=
  ⟨by decide, dispatch_free_vector program_isrs started 5 (by decide)⟩

/-- C7: for every integer `v` outside `[0,16)`, `dispatch_interrupt(v)` calls
no handler, leaves every descriptor and the statistics unchanged, and changes
the program state only by one appended rejection trace entry, recorded
without a vector (`irq_num = -1`); whether the entry is also echoed to the
observer stream is left to the logging policy. -/
theorem dispatch_out_of_range (isrs : IsrImpl) (s : Sys) (v : Int) (hv : v < 0 ∨ 16 ≤ v) :
    (dispatch_interrupt isrs v s).2 = [] ∧
    (dispatch_interrupt isrs v s).1.idt = s.idt ∧
    (dispatch_interrupt isrs v s).1.stats = s.stats ∧
    (dispatch_interrupt isrs v s).1 =
      { s with
        trace_log := Function.update s.trace_log (slot s.trace_index)
          { timestamp := get_timestamp s, event := msg_rejected v, irq_num := -1 },
        trace_index := (s.trace_index + 1) % MAX_TRACE_LINES,
        stdout := (dispatch_interrupt isrs v s).1.stdout } ∧
    ((dispatch_interrupt isrs v s).1.stdout = s.stdout ∨
      (dispatch_interrupt isrs v s).1.stdout =
        s.stdout ++ [cstr "[" ++ get_timestamp s ++ cstr "] " ++ msg_rejected v ++ cstr "\n"]) := by
  have hval : validate_irq_num v ≠ SUCCESS := fun hc => by
    have := (validate_irq_num_eq_success v).1 hc
    omega
  have hd : dispatch_interrupt isrs v s = (add_trace_smart (msg_rejected v) (-1) 0 s, []) := by
    unfold dispatch_interrupt
    simp only [hval, ne_eq, not_false_eq_true, if_true]
  rw [hd]
  refine ⟨rfl, add_trace_smart_idt _ _ _ _, add_trace_smart_stats _ _ _ _, ?_, ?_⟩
  · have hneg : ¬ ((-1 : Int) ≥ 0) := by decide
    unfold add_trace_smart
    simp only [hneg, if_false]
    split_ifs <;>
      simp [printf, add_trace_silent, msg_rejected, strncpy, snprintf, List.take_take]
  · have hneg : ¬ ((-1 : Int) ≥ 0) := by decide
    unfold add_trace_smart
    simp only [hneg, if_false]
    split_ifs
    · right
      simp only [printf, add_trace_silent]
      rw [slot_last_written]
      simp
    · left
      rfl

theorem dispatch_out_of_range_witness :
    ((16 : Int) < 0 ∨ (16 : Int) ≤ 16) ∧
    (dispatch_interrupt program_isrs 16 started).2 = [] ∧
    (dispatch_interrupt program_isrs 16 started).1.idt = started.idt ∧
    (dispatch_interrupt program_isrs 16 started).1.stats = started.stats ∧
    (dispatch_interrupt program_isrs 16 started).1 =
      { started with
        trace_log := Function.update started.trace_log (slot started.trace_index)
          { timestamp := get_timestamp started, event := msg_rejected 16, irq_num := -1 },
        trace_index := (started.trace_index + 1) % MAX_TRACE_LINES,
        stdout := (dispatch_interrupt program_isrs 16 started).1.stdout } ∧
    ((dispatch_interrupt program_isrs 16 started).1.stdout = started.stdout ∨
      (dispatch_interrupt program_isrs 16 started).1.stdout =
        started.stdout ++
          [cstr "[" ++ get_timestamp started ++ cstr "] " ++ msg_rejected 16 ++ cstr "\n"]) :=
  ⟨by decide, dispatch_out_of_range program_isrs started 16 (by decide)⟩

/-- C8 (the code at the failing input): in `busy` vector 3 is Executing, and
`dispatch_interrupt(3)` calls no handler and records one event, the "no
handler" event with the state text EJECUTANDO; the recorded event is not the
"already executing, ignored (reentrancy)" event, whose branch comes second
and is never reached. -/
theorem dispatch_executing_records_no_handler :
    (busy.idt 3).state = IRQ_STATE_EXECUTING ∧
    (dispatch_interrupt program_isrs 3 busy).2 = [] ∧
    (dispatch_interrupt program_isrs 3 busy).1.trace_index =
      (busy.trace_index + 1) % MAX_TRACE_LINES ∧
    (dispatch_interrupt program_isrs 3 busy).1.trace_log (slot busy.trace_index) =
      { timestamp := get_timestamp busy,
        event := cstr "❌ KERNEL: IRQ 3 SIN HANDLER - Estado: EJECUTANDO",
        irq_num := 3 } ∧
    msg_reentrancy 3 =
      cstr "⚠️  KERNEL: IRQ 3 ya ejecutándose - Interrupción ignorada (reentrancy)" ∧
    ((dispatch_interrupt program_isrs 3 busy).1.trace_log (slot busy.trace_index)).event ≠
      msg_reentrancy 3 := by
  decide

/-- C9 (as stated, refuted): in `busy` vector 3 is Executing (another dispatch
is inside its handler); `dispatch_interrupt(3)` is rejected, returns, and the
state of descriptor 3 is still Executing. -/
theorem dispatch_rejected_stays_executing :
    (busy.idt 3).state = IRQ_STATE_EXECUTING ∧
    (dispatch_interrupt program_isrs 3 busy).2 = [] ∧
    ((dispatch_interrupt program_isrs 3 busy).1.idt 3).state = IRQ_STATE_EXECUTING := by
  decide

/-- C9 (amended): for every table state and every vector `v` in `[0,16)` whose
state is not Executing when `dispatch_interrupt(v)` is called, once the call
has returned, whether it ran the handler or rejected the request, the state
of descriptor `v` is not Executing; a dispatch of a vector that is already
Executing is rejected and leaves the whole table as it was. -/
theorem dispatch_not_left_executing (isrs : IsrImpl) (s : Sys) (v : Fin MAX_INTERRUPTS) :
    ((s.idt v).state ≠ IRQ_STATE_EXECUTING →
      ((dispatch_interrupt isrs ((v : Nat) : Int) s).1.idt v).state ≠ IRQ_STATE_EXECUTING) ∧
    ((s.idt v).state = IRQ_STATE_EXECUTING →
      (dispatch_interrupt isrs ((v : Nat) : Int) s).2 = [] ∧
      (dispatch_interrupt isrs ((v : Nat) : Int) s).1.idt = s.idt) := by
  constructor
  · intro hne
    by_cases hrej : (s.idt v).state ≠ IRQ_STATE_REGISTERED ∨ (s.idt v).isr = none
    · rw [dispatch_turned_away isrs s v hrej, add_trace_smart_idt]
      exact hne
    · have hstate : (s.idt v).state = IRQ_STATE_REGISTERED := by
        by_contra hc
        exact hrej (Or.inl hc)
      obtain ⟨f, hf⟩ : ∃ f, (s.idt v).isr = some f := by
        cases hi : (s.idt v).isr with
        | none => exact absurd (Or.inr hi) hrej
        | some f => exact ⟨f, rfl⟩
      rw [(dispatch_accepted isrs s v f hstate hf).2]
      simp [dispatch_restore_registered]
  · intro he
    have hrej : (s.idt v).state ≠ IRQ_STATE_REGISTERED ∨ (s.idt v).isr = none :=
      Or.inl (by rw [he]; decide)
    rw [dispatch_turned_away isrs s v hrej]
    exact ⟨rfl, add_trace_smart_idt _ _ _ _⟩

theorem dispatch_not_left_executing_witness :
    (((register_isr 2 (some 3) (cstr "X") started).2.idt 2).state ≠ IRQ_STATE_EXECUTING ∧
      ((dispatch_interrupt program_isrs 2 (register_isr 2 (some 3) (cstr "X") started).2).1.idt
        2).state ≠ IRQ_STATE_EXECUTING) ∧
    ((busy.idt 3).state = IRQ_STATE_EXECUTING ∧
      (dispatch_interrupt program_isrs 3 busy).2 = [] ∧
      (dispatch_interrupt program_isrs 3 busy).1.idt = busy.idt) :=
  ⟨⟨by decide,
      (dispatch_not_left_executing program_isrs (register_isr 2 (some 3) (cstr "X") started).2
        2).1 (by decide)⟩,
   ⟨by decide, (dispatch_not_left_executing program_isrs busy 3).2 (by decide)⟩⟩

end Dispatcher

/-! ## Mutual exclusion of dispatches of one vector -/

section Interleaving

open irq_state_t log_level_t

/-- The sequential `dispatch_interrupt` updates the table by exactly the two
locked sections of the interleaving model, with the handler in between. -/
theorem dispatch_interrupt_sections (isrs : IsrImpl) (s : Sys) (v : Fin MAX_INTERRUPTS) :
    ((dispatch_begin ((v : Nat) : Int) (time s) s.idt).2 = none →
      (dispatch_interrupt isrs ((v : Nat) : Int) s).2 = [] ∧
      (dispatch_interrupt isrs ((v : Nat) : Int) s).1.idt =
        (dispatch_begin ((v : Nat) : Int) (time s) s.idt).1) ∧
    (∀ f, (dispatch_begin ((v : Nat) : Int) (time s) s.idt).2 = some f →
      (dispatch_interrupt isrs ((v : Nat) : Int) s).2 = [(f, ((v : Nat) : Int))] ∧
      (dispatch_enter ((v : Nat) : Int) s).1.idt =
        (dispatch_begin ((v : Nat) : Int) (time s) s.idt).1 ∧
      ∃ e, (dispatch_interrupt isrs ((v : Nat) : Int) s).1.idt =
        dispatch_restore_registered v e
          (isrs f ((v : Nat) : Int) (dispatch_enter ((v : Nat) : Int) s).1).idt) := by
  have hval := validate_irq_num_cast v
  by_cases hrej : (s.idt v).state ≠ IRQ_STATE_REGISTERED ∨ (s.idt v).isr = none
  · have hb : dispatch_begin ((v : Nat) : Int) (time s) s.idt = (s.idt, none) := by
      unfold dispatch_begin
      rw [idx_cast]
      simp only [hval, ne_eq, not_true_eq_false, if_false, hrej, if_true]
    rw [hb, dispatch_turned_away isrs s v hrej]
    refine ⟨fun _ => ⟨rfl, add_trace_smart_idt _ _ _ _⟩, fun f hf => ?_⟩
    simp at hf
  · have hstate : (s.idt v).state = IRQ_STATE_REGISTERED := by
      by_contra hc
      exact hrej (Or.inl hc)
    obtain ⟨g, hg⟩ : ∃ g, (s.idt v).isr = some g := by
      cases hi : (s.idt v).isr with
      | none => exact absurd (Or.inr hi) hrej
      | some g => exact ⟨g, rfl⟩
    have hb : dispatch_begin ((v : Nat) : Int) (time s) s.idt =
        (dispatch_mark_executing v (time s) s.idt, some g) := by
      unfold dispatch_begin
      rw [idx_cast]
      simp [hval, hstate, hg, dispatch_mark_executing]
    rw [hb]
    refine ⟨fun hn => by simp at hn, fun f hf => ?_⟩
    have hfg : g = f := by simpa using hf
    subst hfg
    obtain ⟨hc, hi⟩ := dispatch_accepted isrs s v g hstate hg
    refine ⟨hc, ?_, _, hi⟩
    rw [dispatch_enter_idt, idx_cast]

theorem exclusive_init (s : Sys) : exclusive (conc_init s) := by
  intro i
  have h : ((conc_init s).idt i).state = IRQ_STATE_FREE := rfl
  have h0 : (conc_init s).in_flight i = 0 := rfl
  rw [h, h0]
  simp

theorem exclusive_of_not_executing (c : Conc) (hc : exclusive c) (j : Fin MAX_INTERRUPTS)
    (hj : (c.idt j).state ≠ IRQ_STATE_EXECUTING) : c.in_flight j = 0 := by
  obtain ⟨h1, h2⟩ := hc j
  have h3 : c.in_flight j ≠ 1 := fun h => hj (h2.2 h)
  omega

theorem exclusive_table_update (c : Conc) (hc : exclusive c) (j : Fin MAX_INTERRUPTS)
    (d : irq_descriptor_t) (hj : (c.idt j).state ≠ IRQ_STATE_EXECUTING)
    (hd : d.state ≠ IRQ_STATE_EXECUTING) :
    exclusive { c with idt := Function.update c.idt j d } := by
  intro i
  by_cases hij : i = j
  · subst hij
    have h0 := exclusive_of_not_executing c hc i hj
    simp [h0, hd]
  · simpa [Function.update_noteq hij] using hc i

theorem exclusive_step (a : Action) (c c2 : Conc) (hc : exclusive c) (hs : step a c = some c2) :
    exclusive c2 := by
  cases a with
  | register irq_num isr_function description =>
      simp only [step, Option.some.injEq] at hs
      subst hs
      unfold register_table
      split_ifs with h1 h2
      · exact hc
      · exact hc
      · exact exclusive_table_update c hc _ _ h2 (by simp)
  | unregister irq_num =>
      simp only [step, Option.some.injEq] at hs
      subst hs
      unfold unregister_table
      split_ifs with h1 h2
      · exact hc
      · exact hc
      · exact exclusive_table_update c hc _ _ h2 (by simp)
  | begin_dispatch irq_num now =>
      simp only [step] at hs
      unfold dispatch_begin at hs
      split_ifs at hs with h1 h2 h3
      · simp only [Option.some.injEq] at hs
        subst hs
        exact hc
      · simp only [Option.some.injEq] at hs
        subst hs
        exact hc
      · simp only [Option.some.injEq] at hs
        subst hs
        exact hc
      · have hreg : (c.idt (idx irq_num)).state = IRQ_STATE_REGISTERED := by
          by_contra hne
          exact h2 (Or.inl hne)
        obtain ⟨g, hg⟩ : ∃ g, (c.idt (idx irq_num)).isr = some g := by
          cases hi : (c.idt (idx irq_num)).isr with
          | none => exact absurd (Or.inr hi) h2
          | some g => exact ⟨g, rfl⟩
        have h0 := exclusive_of_not_executing c hc (idx irq_num) h3
        simp only [dispatch_mark_executing, Function.update_same, hg, Option.some.injEq] at hs
        subst hs
        intro i
        by_cases hij : i = idx irq_num
        · subst hij
          simp [h0]
        · simpa [Function.update_noteq hij] using hc i
  | end_dispatch irq_num execution_time =>
      simp only [step] at hs
      split_ifs at hs with h1
      simp only [Option.some.injEq] at hs
      subst hs
      have h1b : c.in_flight (idx irq_num) = 1 := by
        have := (hc (idx irq_num)).1
        omega
      intro i
      by_cases hij : i = idx irq_num
      · subst hij
        simp [dispatch_restore_registered, h1b]
      · simpa [dispatch_restore_registered, Function.update_noteq hij] using hc i

theorem exclusive_run (acts : List Action) :
    ∀ (c c2 : Conc), exclusive c → run acts c = some c2 → exclusive c2 := by
  induction acts with
  | nil =>
      intro c c2 hc hr
      simp only [run, Option.some.injEq] at hr
      subst hr
      exact hc
  | cons a rest ih =>
      intro c c2 hc hr
      simp only [run] at hr
      cases hstep : step a c with
      | none => simp [hstep] at hr
      | some c1 =>
          rw [hstep] at hr
          exact ih c1 c2 (exclusive_step a c c1 hc hstep) hr

/-- C10: in the model where the table-lock sections of `register_isr`,
`unregister_isr` and `dispatch_interrupt` (begin: check Registered with a
handler, set Executing; end: set Registered) interleave in any order from the
table left by `init_idt`, every reachable state has at most one dispatch of a
vector in flight, the vector is Executing exactly when one is in flight, and
while one is in flight a further dispatch of that vector captures no handler
and changes nothing. -/
theorem one_dispatch_in_flight (s : Sys) (acts : List Action) (c : Conc)
    (hrun : run acts (conc_init s) = some c) (i : Fin MAX_INTERRUPTS) :
    c.in_flight i ≤ 1 ∧
    ((c.idt i).state = IRQ_STATE_EXECUTING ↔ c.in_flight i = 1) ∧
    (c.in_flight i = 1 → ∀ now : Int,
      (dispatch_begin ((i : Nat) : Int) now c.idt).2 = none ∧
      step (Action.begin_dispatch ((i : Nat) : Int) now) c = some c) := by
  have hex := exclusive_run acts (conc_init s) c (exclusive_init s) hrun
  refine ⟨(hex i).1, (hex i).2, fun h1 now => ?_⟩
  have hst : (c.idt i).state = IRQ_STATE_EXECUTING := (hex i).2.2 h1
  have hval := validate_irq_num_cast i
  have hb : dispatch_begin ((i : Nat) : Int) now c.idt = (c.idt, none) := by
    unfold dispatch_begin
    rw [idx_cast]
    simp [hval, hst]
  refine ⟨by rw [hb], ?_⟩
  simp only [step, hb]

theorem one_dispatch_in_flight_witness :
    run race (conc_init started) = some raced ∧
    raced.in_flight 3 ≤ 1 ∧
    ((raced.idt 3).state = IRQ_STATE_EXECUTING ↔ raced.in_flight 3 = 1) ∧
    raced.in_flight 3 = 1 ∧
    (dispatch_begin 3 1700000002 raced.idt).2 = none ∧
    step (Action.begin_dispatch 3 1700000002) raced = some raced :=
  ⟨rfl, (one_dispatch_in_flight started race raced rfl 3).1,
    (one_dispatch_in_flight started race raced rfl 3).2.1, rfl,
    (one_dispatch_in_flight started race raced rfl 3).2.2 rfl 1700000002⟩

end Interleaving

/-! ## Descriptor invariant and availability -/

section Availability

open irq_state_t log_level_t

theorem cast_idx (v : Int) (hv : 0 ≤ v ∧ v < 16) : (((idx v : Fin MAX_INTERRUPTS) : Nat) : Int) = v := by
  simp only [idx, MAX_INTERRUPTS]
  omega

/-- An out-of-range request leaves the table alone and calls nothing. -/
theorem dispatch_invalid_idt (isrs : IsrImpl) (s : Sys) (v : Int) (hv : ¬ (0 ≤ v ∧ v < 16)) :
    (dispatch_interrupt isrs v s).2 = [] ∧ (dispatch_interrupt isrs v s).1.idt = s.idt := by
  have hval : validate_irq_num v ≠ SUCCESS := fun hc => hv ((validate_irq_num_eq_success v).1 hc)
  have hd : dispatch_interrupt isrs v s = (add_trace_smart (msg_rejected v) (-1) 0 s, []) := by
    unfold dispatch_interrupt
    simp only [hval, ne_eq, not_false_eq_true, if_true]
  rw [hd]
  exact ⟨rfl, add_trace_smart_idt _ _ _ _⟩

/-- The table after an accepted dispatch whose handler leaves the table alone:
the two locked sections applied one after the other. -/
theorem dispatch_accepted_idt (isrs : IsrImpl) (s : Sys) (v : Fin MAX_INTERRUPTS) (f : Nat)
    (hstate : (s.idt v).state = IRQ_STATE_REGISTERED) (hisr : (s.idt v).isr = some f)
    (hframe : ∀ (a : Int) (t : Sys), (isrs f a t).idt = t.idt) :
    (dispatch_interrupt isrs ((v : Nat) : Int) s).1.idt =
      dispatch_restore_registered v
        (execution_time_of (clock_gettime (dispatch_enter ((v : Nat) : Int) s).1)
          (clock_gettime (isrs f ((v : Nat) : Int) (dispatch_enter ((v : Nat) : Int) s).1)))
        (dispatch_mark_executing v (time s) s.idt) := by
  rw [(dispatch_accepted isrs s v f hstate hisr).2, hframe, dispatch_enter_idt, idx_cast]

theorem handler_invariant_update (t : Table) (ht : handler_invariant t) (j : Fin MAX_INTERRUPTS)
    (d : irq_descriptor_t)
    (hd : d.isr ≠ none ↔ (d.state = IRQ_STATE_REGISTERED ∨ d.state = IRQ_STATE_EXECUTING)) :
    handler_invariant (Function.update t j d) := by
  intro i
  by_cases hij : i = j
  · subst hij
    simpa using hd
  · simpa [Function.update_noteq hij] using ht i

theorem handler_invariant_init (s : Sys) : handler_invariant (init_idt s).idt := by
  intro i
  have h1 : ((init_idt s).idt i).isr = none := rfl
  have h2 : ((init_idt s).idt i).state = IRQ_STATE_FREE := rfl
  rw [h1, h2]
  simp

theorem handler_invariant_register (s : Sys) (v : Int) (f : Nat) (d : CString)
    (hinv : handler_invariant s.idt) :
    handler_invariant (register_isr v (some f) d s).2.idt := by
  rw [register_isr_idt]
  unfold register_table
  split_ifs
  · exact hinv
  · exact hinv
  · exact handler_invariant_update _ hinv _ _ (by simp)

theorem handler_invariant_unregister (s : Sys) (v : Int) (hinv : handler_invariant s.idt) :
    handler_invariant (unregister_isr v s).2.idt := by
  rw [unregister_isr_idt]
  unfold unregister_table
  split_ifs
  · exact hinv
  · exact hinv
  · exact handler_invariant_update _ hinv _ _ (by simp)

theorem handler_invariant_dispatch (isrs : IsrImpl) (s : Sys) (v : Int)
    (hinv : handler_invariant s.idt)
    (hframe : ∀ (f : Nat) (a : Int) (t : Sys), (isrs f a t).idt = t.idt) :
    handler_invariant (dispatch_interrupt isrs v s).1.idt := by
  by_cases hv : 0 ≤ v ∧ v < 16
  · rw [← cast_idx v hv]
    generalize idx v = w
    by_cases hrej : (s.idt w).state ≠ IRQ_STATE_REGISTERED ∨ (s.idt w).isr = none
    · rw [dispatch_turned_away isrs s w hrej, add_trace_smart_idt]
      exact hinv
    · have hstate : (s.idt w).state = IRQ_STATE_REGISTERED := by
        by_contra hc
        exact hrej (Or.inl hc)
      obtain ⟨f, hf⟩ : ∃ f, (s.idt w).isr = some f := by
        cases hi : (s.idt w).isr with
        | none => exact absurd (Or.inr hi) hrej
        | some f => exact ⟨f, rfl⟩
      rw [dispatch_accepted_idt isrs s w f hstate hf (hframe f)]
      unfold dispatch_restore_registered dispatch_mark_executing
      rw [Function.update_idem]
      exact handler_invariant_update _ hinv _ _ (by simp [hf])
  · rw [(dispatch_invalid_idt isrs s v hv).2]
    exact hinv

theorem program_isrs_idt (f : Nat) (a : Int) (t : Sys) : (program_isrs f a t).idt = t.idt := by
  unfold program_isrs
  split
  · simp [timer_isr, add_trace_smart_idt, usleep]
  · rfl
  · rfl
  · rfl
  · rfl

theorem started_handler_invariant : handler_invariant started.idt :=
  handler_invariant_init (boot { tv_sec := 1700000000, tv_nsec := 0 } { tv_sec := 5, tv_nsec := 0 })

/-- C11 (as stated, refuted): `started` satisfies the invariant;
`register_isr(2, NULL, "X")` succeeds and leaves descriptor 2 Registered with
no handler, so the invariant no longer holds. -/
theorem register_null_breaks_invariant :
    handler_invariant started.idt ∧
    (register_isr 2 none (cstr "X") started).1 = SUCCESS ∧
    ((register_isr 2 none (cstr "X") started).2.idt 2).state = IRQ_STATE_REGISTERED ∧
    ((register_isr 2 none (cstr "X") started).2.idt 2).isr = none ∧
    ¬ handler_invariant (register_isr 2 none (cstr "X") started).2.idt := by
  refine ⟨started_handler_invariant, by decide, by decide, by decide, fun h => ?_⟩
  have h2 := (h 2).2 (Or.inl (by decide))
  exact h2 (by decide)

/-- C11 (amended): the descriptor invariant "a handler is present if and only
if the state is Registered or Executing" holds for all 16 descriptors after
`init_idt` and is preserved by every call of `register_isr` with a non-NULL
handler, of `unregister_isr`, and of `dispatch_interrupt` whose handlers do
not themselves modify the table, for every vector and every description. -/
theorem handler_invariant_preserved (isrs : IsrImpl) (s : Sys) (v : Int) (f : Nat) (d : CString)
    (hinv : handler_invariant s.idt)
    (hframe : ∀ (g : Nat) (a : Int) (t : Sys), (isrs g a t).idt = t.idt) :
    handler_invariant (init_idt s).idt ∧
    handler_invariant (register_isr v (some f) d s).2.idt ∧
    handler_invariant (unregister_isr v s).2.idt ∧
    handler_invariant (dispatch_interrupt isrs v s).1.idt :=
  ⟨handler_invariant_init s, handler_invariant_register s v f d hinv,
    handler_invariant_unregister s v hinv, handler_invariant_dispatch isrs s v hinv hframe⟩

theorem handler_invariant_preserved_witness :
    handler_invariant (register_isr 2 (some 3) (cstr "X") started).2.idt ∧
    handler_invariant (init_idt (register_isr 2 (some 3) (cstr "X") started).2).idt ∧
    handler_invariant
      (register_isr 2 (some 4) (cstr "Y") (register_isr 2 (some 3) (cstr "X") started).2).2.idt ∧
    handler_invariant (unregister_isr 2 (register_isr 2 (some 3) (cstr "X") started).2).2.idt ∧
    handler_invariant
      (dispatch_interrupt program_isrs 2 (register_isr 2 (some 3) (cstr "X") started).2).1.idt :=
  ⟨handler_invariant_register started 2 3 (cstr "X") started_handler_invariant,
    handler_invariant_preserved program_isrs (register_isr 2 (some 3) (cstr "X") started).2 2 4
      (cstr "Y") (handler_invariant_register started 2 3 (cstr "X") started_handler_invariant)
      program_isrs_idt⟩

/-- C12: for every integer `v`, `is_irq_available(v)` is true if and only if
`v` is in `[0,16)` and descriptor `v` is Free (so it is false for every
out-of-range `v`); the result is 0 or 1 and the call leaves the state, every
descriptor included, as it was. -/
theorem is_irq_available_spec (s : Sys) (v : Int) :
    ((is_irq_available v s).1 ≠ 0 ↔
      (0 ≤ v ∧ v < 16) ∧ (s.idt (idx v)).state = IRQ_STATE_FREE) ∧
    ((is_irq_available v s).1 = 0 ∨ (is_irq_available v s).1 = 1) ∧
    (¬ (0 ≤ v ∧ v < 16) → (is_irq_available v s).1 = 0) ∧
    (is_irq_available v s).2 = s := by
  unfold is_irq_available
  by_cases hv : 0 ≤ v ∧ v < 16
  · have h1 : IS_VALID_IRQ v = true := (IS_VALID_IRQ_iff v).2 hv
    by_cases hf : (s.idt (idx v)).state = IRQ_STATE_FREE <;> simp [h1, hv, hf]
  · have h1 : IS_VALID_IRQ v = false := by
      cases hb : IS_VALID_IRQ v with
      | false => rfl
      | true => exact absurd ((IS_VALID_IRQ_iff v).1 hb) hv
    simp [h1, hv]

theorem is_irq_available_spec_witness :
    ¬ ((0 : Int) ≤ 16 ∧ (16 : Int) < 16) ∧ (is_irq_available 16 started).1 = 0 :=
  ⟨by decide, (is_irq_available_spec started 16).2.2.1 (by decide)⟩

/-- C13 (as stated, refuted): `register_isr(2, NULL, "X")` returns `SUCCESS`,
and the dispatch of vector 2 that follows calls nothing. -/
theorem register_null_then_dispatch_calls_nothing :
    (register_isr 2 none (cstr "X") started).1 = SUCCESS ∧
    (is_irq_available 2 (register_isr 2 none (cstr "X") started).2).1 = 0 ∧
    (dispatch_interrupt program_isrs 2 (register_isr 2 none (cstr "X") started).2).2 = [] := by
  decide

/-- C13 (amended): for every vector `v`, every non-NULL handler `f` and every
description `d`, if `register_isr(v, f, d)` returns `SUCCESS` then
`is_irq_available(v)` is false and a subsequent `dispatch_interrupt(v)` calls
`f`, once, with argument `v`. -/
theorem register_then_dispatch (isrs : IsrImpl) (s : Sys) (v : Int) (f : Nat) (d : CString)
    (hok : (register_isr v (some f) d s).1 = SUCCESS) :
    (is_irq_available v (register_isr v (some f) d s).2).1 = 0 ∧
    (dispatch_interrupt isrs v (register_isr v (some f) d s).2).2 = [(f, v)] := by
  have hcase := (register_unregister_result s v (some f) d).2.2.1.1 hok
  obtain ⟨hv, hne⟩ := hcase
  have hval : validate_irq_num v = SUCCESS := (validate_irq_num_eq_success v).2 hv
  have hidt : (register_isr v (some f) d s).2.idt =
      register_locked (idx v) (some f) d s.idt := by
    rw [register_isr_idt]
    unfold register_table
    simp [hval, hne]
  have hst : ((register_isr v (some f) d s).2.idt (idx v)).state = IRQ_STATE_REGISTERED := by
    rw [hidt]
    simp [register_locked]
  have hisr : ((register_isr v (some f) d s).2.idt (idx v)).isr = some f := by
    rw [hidt]
    simp [register_locked]
  constructor
  · have h := (is_irq_available_spec (register_isr v (some f) d s).2 v).1
    by_contra hc
    have h2 := (h.1 hc).2
    rw [hst] at h2
    exact absurd h2 (by decide)
  · have h := (dispatch_accepted isrs (register_isr v (some f) d s).2 (idx v) f hst hisr).1
    rw [cast_idx v hv] at h
    exact h

theorem register_then_dispatch_witness :
    (register_isr 2 (some 3) (cstr "X") started).1 = SUCCESS ∧
    (is_irq_available 2 (register_isr 2 (some 3) (cstr "X") started).2).1 = 0 ∧
    (dispatch_interrupt program_isrs 2 (register_isr 2 (some 3) (cstr "X") started).2).2 =
      [(3, 2)] :=
  ⟨by decide, register_then_dispatch program_isrs started 2 3 (cstr "X") (by decide)⟩

end Availability

/-! ## Trace ring contracts -/

section TraceRing

open irq_state_t log_level_t

theorem slot_mod (i : Nat) : slot (i % MAX_TRACE_LINES) = slot i := by
  apply Fin.ext
  simp only [slot, MAX_TRACE_LINES]
  omega

theorem slot_ne (i j : Nat) (hij : i < j) (hj : j < i + MAX_TRACE_LINES) : slot i ≠ slot j := by
  intro h
  have h2 := congrArg Fin.val h
  simp only [slot, MAX_TRACE_LINES] at h2 hj
  omega

/-- Every recording function writes one slot and advances the index. -/
theorem RecordCall.run_ring (c : RecordCall) (s : Sys) :
    (c.run s).trace_log =
      Function.update s.trace_log (slot s.trace_index)
        { timestamp := get_timestamp s, event := c.message.take 255, irq_num := c.vector } ∧
    (c.run s).trace_index = (s.trace_index + 1) % MAX_TRACE_LINES := by
  cases c <;> exact ⟨rfl, rfl⟩

theorem record_all_concat (calls : List RecordCall) (c : RecordCall) (s : Sys) :
    record_all (calls ++ [c]) s = c.run (record_all calls s) := by
  simp [record_all, List.foldl_append]

/-- The content of the ring after a sequence of recording calls that starts
with `trace_index = 0`. -/
theorem record_all_ring (s0 : Sys) (h0 : s0.trace_index = 0) (calls : List RecordCall) :
    (record_all calls s0).trace_index = calls.length % MAX_TRACE_LINES ∧
    (∀ (j : Nat) (c : RecordCall), calls[j]? = some c → calls.length ≤ j + MAX_TRACE_LINES →
      ((record_all calls s0).trace_log (slot j)).event = c.message.take 255 ∧
      ((record_all calls s0).trace_log (slot j)).irq_num = c.vector) ∧
    (∀ i : Nat, calls.length ≤ i → i < MAX_TRACE_LINES →
      (record_all calls s0).trace_log (slot i) = s0.trace_log (slot i)) := by
  induction calls using List.reverseRecOn with
  | nil =>
      refine ⟨by simpa [record_all] using h0, ?_, ?_⟩
      · intro j c hj
        simp at hj
      · intro i _ _
        rfl
  | append_singleton calls c ih =>
      obtain ⟨hidx, hslots, hrest⟩ := ih
      obtain ⟨hlog, hnext⟩ := RecordCall.run_ring c (record_all calls s0)
      rw [record_all_concat]
      have hlen : (calls ++ [c]).length = calls.length + 1 := by simp
      rw [hlen]
      have hs : slot (record_all calls s0).trace_index = slot calls.length := by
        rw [hidx, slot_mod]
      refine ⟨?_, ?_, ?_⟩
      · rw [hnext, hidx]
        simp only [MAX_TRACE_LINES]
        omega
      · intro j c2 hj hk
        rw [hlog, hs]
        by_cases hjk : j < calls.length
        · rw [List.getElem?_append_left hjk] at hj
          have hne : slot j ≠ slot calls.length :=
            slot_ne j calls.length hjk (by simp only [MAX_TRACE_LINES] at hk ⊢; omega)
          rw [Function.update_noteq hne]
          exact hslots j c2 hj (by omega)
        · have hjeq : j = calls.length := by
            have hlt : j < (calls ++ [c]).length := by
              by_contra hge
              rw [List.getElem?_eq_none (by omega)] at hj
              simp at hj
            rw [hlen] at hlt
            omega
          subst hjeq
          rw [List.getElem?_concat_length] at hj
          have hc : c = c2 := by simpa using hj
          subst hc
          simp
      · intro i hi hi2
        rw [hlog, hs]
        have hne : slot i ≠ slot calls.length := by
          intro h
          exact slot_ne calls.length i (by omega) (by simp only [MAX_TRACE_LINES] at hi2 ⊢; omega)
            h.symm
        rw [Function.update_noteq hne]
        exact hrest i (by omega) hi2

/-- C14: starting from a ring whose `trace_index` is 0 (the zero-initialised
ring at program start), after `k` events recorded through any mix of
`add_trace`, `add_trace_with_irq`, `add_trace_silent` and
`add_trace_with_irq_silent`, `trace_index = k mod 100`, and for every `j`
with `k - 100 <= j < k` slot `j mod 100` holds the `j`-th recorded event
(message cut to 255 bytes, with its vector or -1); once `k >= 100`, reading
the 100 slots cyclically from `trace_index` gives exactly the most recent 100
events in the order in which they were recorded. -/
theorem ring_keeps_most_recent (s0 : Sys) (h0 : s0.trace_index = 0) (calls : List RecordCall) :
    (record_all calls s0).trace_index = calls.length % 100 ∧
    (∀ (j : Nat) (c : RecordCall), calls[j]? = some c → calls.length ≤ j + 100 →
      ((record_all calls s0).trace_log (slot (j % 100))).event = c.message.take 255 ∧
      ((record_all calls s0).trace_log (slot (j % 100))).irq_num = c.vector) ∧
    (100 ≤ calls.length →
      ring_read (record_all calls s0) =
        (calls.drop (calls.length - 100)).map RecordCall.stored) := by
  obtain ⟨hidx, hslots, _⟩ := record_all_ring s0 h0 calls
  refine ⟨hidx, ?_, ?_⟩
  · intro j c hj hk
    have := slot_mod j
    simp only [MAX_TRACE_LINES] at this
    rw [this]
    exact hslots j c hj hk
  · intro hk
    apply List.ext_getElem?
    intro i
    unfold ring_read
    rw [List.getElem?_map, List.getElem?_map, List.getElem?_drop]
    by_cases hi : i < 100
    · rw [List.getElem?_range hi]
      have hlt : calls.length - 100 + i < calls.length := by omega
      rw [List.getElem?_eq_getElem hlt]
      have hs : slot ((record_all calls s0).trace_index + i) = slot (calls.length - 100 + i) := by
        rw [hidx]
        apply Fin.ext
        simp only [slot, MAX_TRACE_LINES]
        omega
      obtain ⟨he, hv⟩ := hslots (calls.length - 100 + i) _ (List.getElem?_eq_getElem hlt)
        (by simp only [MAX_TRACE_LINES]; omega)
      simp [hs, he, hv, RecordCall.stored]
    · rw [List.getElem?_eq_none (by simp only [List.length_range, MAX_TRACE_LINES]; omega),
        List.getElem?_eq_none (by omega)]
      rfl

theorem ring_keeps_most_recent_witness :
    fresh.trace_index = 0 ∧
    (record_all hundred_events fresh).trace_index = hundred_events.length % 100 ∧
    ((record_all hundred_events fresh).trace_log (slot (42 % 100))).event =
      (RecordCall.add_trace_with_irq_silent (cstr "evento") 5).message.take 255 ∧
    ring_read (record_all hundred_events fresh) =
      (hundred_events.drop (hundred_events.length - 100)).map RecordCall.stored :=
  ⟨rfl, (ring_keeps_most_recent fresh rfl hundred_events).1,
    ((ring_keeps_most_recent fresh rfl hundred_events).2.1 42
      (RecordCall.add_trace_with_irq_silent (cstr "evento") 5) rfl (by decide)).1,
    (ring_keeps_most_recent fresh rfl hundred_events).2.2 (by decide)⟩

end TraceRing

/-! ## Logging policy -/

section LoggingPolicy

open irq_state_t log_level_t

/-- The timestamp read back for the echo is the one just stored. -/
theorem add_trace_smart_stdout (e : CString) (n t : Int) (s : Sys) :
    (add_trace_smart e n t s).stdout =
      if should_print s.current_log_level s.show_timer_logs t ≠ 0 then
        s.stdout ++ [smart_line e n s]
      else s.stdout := by
  unfold add_trace_smart smart_line
  by_cases hn : n ≥ 0
  · simp only [hn, if_true]
    have h1 : (add_trace_with_irq_silent e n s).current_log_level = s.current_log_level := rfl
    have h2 : (add_trace_with_irq_silent e n s).show_timer_logs = s.show_timer_logs := rfl
    rw [h1, h2]
    split_ifs
    · simp only [printf, add_trace_with_irq_silent]
      rw [slot_last_written]
      simp
    · rfl
  · simp only [hn, if_false]
    have h1 : (add_trace_silent e s).current_log_level = s.current_log_level := rfl
    have h2 : (add_trace_silent e s).show_timer_logs = s.show_timer_logs := rfl
    rw [h1, h2]
    split_ifs
    · simp only [printf, add_trace_silent]
      rw [slot_last_written]
      simp
    · rfl

theorem should_print_ne_zero (l : log_level_t) (b t : Int) :
    should_print l b t ≠ 0 ↔
      (l = LOG_LEVEL_VERBOSE ∨ (l = LOG_LEVEL_USER_ONLY ∧ (t = 0 ∨ b ≠ 0))) := by
  cases l <;> by_cases ht : t = 0 <;> by_cases hb : b = 0 <;> simp [should_print, ht, hb]

/-- C17: for every event, `add_trace_smart` echoes it to the observer (one
line appended to the stream) if and only if the log level is Verbose, or the
level is UserOnly and the event is not flagged timer-related or the toggle
`show_timer_logs` is on; otherwise, and in particular with level Silent, the
stream is left as it was. -/
theorem add_trace_smart_echo_policy (e : CString) (n t : Int) (s : Sys) :
    ((add_trace_smart e n t s).stdout ≠ s.stdout ↔
      (s.current_log_level = LOG_LEVEL_VERBOSE ∨
        (s.current_log_level = LOG_LEVEL_USER_ONLY ∧ (t = 0 ∨ s.show_timer_logs ≠ 0)))) ∧
    ((add_trace_smart e n t s).stdout = s.stdout ∨
      (add_trace_smart e n t s).stdout = s.stdout ++ [smart_line e n s]) ∧
    (s.current_log_level = LOG_LEVEL_SILENT → (add_trace_smart e n t s).stdout = s.stdout) := by
  rw [add_trace_smart_stdout, ← should_print_ne_zero]
  by_cases hp : should_print s.current_log_level s.show_timer_logs t ≠ 0
  · rw [if_pos hp]
    refine ⟨⟨fun _ => hp, fun _ => by simp⟩, Or.inr rfl, fun hs => ?_⟩
    rw [hs] at hp
    exact absurd rfl hp
  · rw [if_neg hp]
    exact ⟨⟨fun h => absurd rfl h, fun h => absurd h hp⟩, Or.inl rfl, fun _ => rfl⟩

theorem add_trace_smart_echo_policy_witness :
    silenced.current_log_level = LOG_LEVEL_SILENT ∧
    (add_trace_smart (cstr "evento") 5 0 silenced).stdout = silenced.stdout :=
  ⟨rfl, (add_trace_smart_echo_policy (cstr "evento") 5 0 silenced).2.2 rfl⟩

/-- C18: recording does not depend on echoing. For every event, vector and
timer flag, two runs of `add_trace_smart` from the same state that differ
only in `current_log_level` and `show_timer_logs` end with the same ring
contents and the same `trace_index`, and in every case exactly one entry is
appended: one slot written, the index advanced by one. -/
theorem recording_independent_of_echo (e : CString) (n t : Int) (s : Sys)
    (l1 l2 : log_level_t) (b1 b2 : Int) :
    (add_trace_smart e n t { s with current_log_level := l1, show_timer_logs := b1 }).trace_log =
      (add_trace_smart e n t { s with current_log_level := l2, show_timer_logs := b2 }).trace_log ∧
    (add_trace_smart e n t { s with current_log_level := l1, show_timer_logs := b1 }).trace_index =
      (add_trace_smart e n t { s with current_log_level := l2, show_timer_logs := b2 }).trace_index ∧
    (add_trace_smart e n t { s with current_log_level := l1, show_timer_logs := b1 }).trace_log =
      Function.update s.trace_log (slot s.trace_index)
        { timestamp := get_timestamp s,
          event := e.take 255,
          irq_num := if n ≥ 0 then n else -1 } ∧
    (add_trace_smart e n t { s with current_log_level := l1, show_timer_logs := b1 }).trace_index =
      (s.trace_index + 1) % MAX_TRACE_LINES := by
  have h1 := add_trace_smart_ring e n t { s with current_log_level := l1, show_timer_logs := b1 }
  have h2 := add_trace_smart_ring e n t { s with current_log_level := l2, show_timer_logs := b2 }
  have f1 := congrArg Prod.fst h1
  have f2 := congrArg Prod.fst h2
  have g1 := congrArg Prod.snd h1
  have g2 := congrArg Prod.snd h2
  simp only [ring_put, get_timestamp, time, strncpy] at f1 f2 g1 g2
  refine ⟨f1.trans f2.symm, g1.trans g2.symm, ?_, g1⟩
  rw [f1]
  rfl

/-- C19 (the code at the failing input): with the log level Silent,
`register_isr(2, custom_isr, "X")` and `unregister_isr(2)` each write two
lines to the observer stream, the unconditional echo of `add_trace_with_irq`;
a dispatch of vector 2 echoes nothing of its own, and the three lines it adds
are those of the handler `custom_isr`, again through `add_trace_with_irq`. -/
theorem silent_register_still_echoes :
    silenced.current_log_level = LOG_LEVEL_SILENT ∧
    (register_isr 2 (some 3) (cstr "X") silenced).1 = SUCCESS ∧
    (register_isr 2 (some 3) (cstr "X") silenced).2.stdout =
      silenced.stdout ++
        [cstr "[22:13:20] 📝 KERNEL: ISR registrada en IDT[2] -> Handler: " ++ dquote ++
            cstr "X" ++ dquote ++ cstr "\n",
         cstr "[22:13:20] 🔗 HARDWARE: IRQ 2 ahora conectada al kernel - Lista para recibir señales\n"] ∧
    (unregister_isr 2 (register_isr 2 (some 3) (cstr "X") silenced).2).1 = SUCCESS ∧
    (unregister_isr 2 (register_isr 2 (some 3) (cstr "X") silenced).2).2.stdout.length =
      (register_isr 2 (some 3) (cstr "X") silenced).2.stdout.length + 2 ∧
    (dispatch_interrupt program_isrs 2
        (register_isr 2 (some 3) (cstr "X") silenced).2).1.stdout.length =
      (register_isr 2 (some 3) (cstr "X") silenced).2.stdout.length + 3 ∧
    (dispatch_interrupt (fun _ _ t => t) 2
        (register_isr 2 (some 3) (cstr "X") silenced).2).1.stdout =
      (register_isr 2 (some 3) (cstr "X") silenced).2.stdout := by
  decide

/-- C20 (the code at the failing input): `add_trace_with_irq("evento", 5)`
records the entry with vector 5 and echoes `[22:13:20] evento`, without the
`[IRQ5]` field that `add_trace_smart` and `show_recent_trace` print for an
entry with a vector. -/
theorem add_trace_with_irq_echo_lacks_vector :
    ((add_trace_with_irq (cstr "evento") 5 started).trace_log (slot started.trace_index)).irq_num
      = 5 ∧
    ((add_trace_with_irq (cstr "evento") 5 started).trace_log (slot started.trace_index)).timestamp
      = cstr "22:13:20" ∧
    (add_trace_with_irq (cstr "evento") 5 started).stdout =
      started.stdout ++ [cstr "[22:13:20] evento\n"] ∧
    smart_line (cstr "evento") 5 started = cstr "[22:13:20] [IRQ5] evento\n" ∧
    (add_trace_with_irq (cstr "evento") 5 started).stdout ≠
      started.stdout ++ [cstr "[22:13:20] [IRQ5] evento\n"] := by
  decide

end LoggingPolicy

/-! ## Reading the trace ring back -/

section TraceDisplay

open irq_state_t log_level_t

set_option maxRecDepth 100000 in
/-- C15 (the code at the failing input): after exactly 100 recorded events
the ring is full (`trace_index` is back to 0, the newest entry is in slot
99), and `show_recent_trace` prints its header and the closing empty line
only: no entry is shown, where the last 10 are expected. -/
theorem show_recent_trace_after_wrap :
    hundred_events.length = 100 ∧
    (record_all hundred_events fresh).trace_index = 0 ∧
    ((record_all hundred_events fresh).trace_log (slot 99)).event = cstr "evento" ∧
    ((record_all hundred_events fresh).trace_log (slot 90)).event = cstr "evento" ∧
    (show_recent_trace (record_all hundred_events fresh)).stdout =
      (record_all hundred_events fresh).stdout ++
        [cstr "\n=== TRAZA RECIENTE ===\n", cstr "\n"] := by
  decide

theorem is_timer_related_trace_congr (e1 e2 : trace_entry_t) (h1 : e1.event = e2.event)
    (h2 : e1.irq_num = e2.irq_num) : is_timer_related_trace e1 = is_timer_related_trace e2 := by
  unfold is_timer_related_trace
  rw [h1, h2]

theorem loop_step_empty (s : Sys) (start n i : Nat) (total : Int)
    (h : (scanned s start i).event = []) :
    show_last_trace_loop start (n + 1) i total s = show_last_trace_loop start n (i + 1) total s := by
  unfold scanned at h
  have hl : ¬ (strlen
      (s.trace_log (slot ((start + MAX_TRACE_LINES - 1 - i) % MAX_TRACE_LINES))).event > 0) := by
    rw [h]
    decide
  rw [show_last_trace_loop]
  simp only [hl, if_false]

theorem loop_step_timer (s : Sys) (start n i : Nat) (total : Int)
    (h1 : (scanned s start i).event ≠ [])
    (h2 : is_timer_related_trace (scanned s start i) ≠ 0) :
    show_last_trace_loop start (n + 1) i total s =
      show_last_trace_loop start n (i + 1) (total + 1) s := by
  unfold scanned at h1 h2
  have hl : strlen (s.trace_log (slot ((start + MAX_TRACE_LINES - 1 - i) % MAX_TRACE_LINES))).event > 0 :=
    List.length_pos.2 h1
  rw [show_last_trace_loop]
  simp only [hl, if_true, h2, if_false]

theorem loop_step_hit (s : Sys) (start n i : Nat) (total : Int)
    (h1 : (scanned s start i).event ≠ [])
    (h2 : is_timer_related_trace (scanned s start i) = 0) :
    show_last_trace_loop start (n + 1) i total s =
      (1, total + 1,
        printf (entry_line (scanned s start i)) (printf (found_line ((i : Int) + 1)) s)) := by
  unfold scanned at h1 h2
  have hl : strlen (s.trace_log (slot ((start + MAX_TRACE_LINES - 1 - i) % MAX_TRACE_LINES))).event > 0 :=
    List.length_pos.2 h1
  rw [show_last_trace_loop]
  simp only [hl, if_true, h2]
  unfold entry_line scanned found_line
  simp only [printf_trace_log]
  split_ifs <;> rfl

theorem loop_all_empty (s : Sys) (start : Nat) :
    ∀ (n i : Nat) (total : Int),
      (∀ p, i ≤ p → p < i + n → (scanned s start p).event = []) →
      show_last_trace_loop start n i total s = (0, total, s) := by
  intro n
  induction n with
  | zero =>
      intro i total _
      rfl
  | succ n ih =>
      intro i total h
      rw [loop_step_empty s start n i total (h i (le_refl i) (by omega))]
      exact ih (i + 1) total (fun p hp1 hp2 => h p (by omega) (by omega))

theorem take_ne_nil (m : CString) (h : m ≠ []) : m.take 255 ≠ [] := by
  cases m with
  | nil => exact absurd rfl h
  | cons a rest => simp

theorem timer_related_iff (c : RecordCall) (e : trace_entry_t)
    (he : e.event = c.message.take 255) (hv : e.irq_num = c.vector) :
    is_timer_related_trace e ≠ 0 ↔ c.timer_related = true := by
  have h := is_timer_related_trace_congr e
    { timestamp := [], event := c.message.take 255, irq_num := c.vector } he hv
  rw [h]
  simp [RecordCall.timer_related]

theorem first_not_timer_cons_timer (c : RecordCall) (rest : List RecordCall)
    (h : c.timer_related = true) :
    first_not_timer (c :: rest) = (first_not_timer rest).map (fun q => q + 1) := by
  simp [first_not_timer, h]

theorem first_not_timer_cons_hit (c : RecordCall) (rest : List RecordCall)
    (h : ¬ c.timer_related = true) : first_not_timer (c :: rest) = some 0 := by
  simp [first_not_timer, h]

/-- The search loop against a list of the held events, newest first: it stops
at the first one that is not timer-related, and otherwise counts them all. -/
theorem loop_scan (s : Sys) (start : Nat) :
    ∀ (L : List RecordCall) (i : Nat) (total : Int),
      i + L.length ≤ 100 →
      (∀ q c, L[q]? = some c →
        c.message ≠ [] ∧ (scanned s start (i + q)).event = c.message.take 255 ∧
          (scanned s start (i + q)).irq_num = c.vector) →
      (∀ p, i + L.length ≤ p → p < 100 → (scanned s start p).event = []) →
      (∀ q, first_not_timer L = some q →
        show_last_trace_loop start (100 - i) i total s =
          (1, total + (q : Int) + 1,
            printf (entry_line (scanned s start (i + q)))
              (printf (found_line (((i + q : Nat) : Int) + 1)) s))) ∧
      (first_not_timer L = none →
        show_last_trace_loop start (100 - i) i total s = (0, total + (L.length : Int), s)) := by
  intro L
  induction L with
  | nil =>
      intro i total hlen _ hrest
      refine ⟨fun q hq => by simp [first_not_timer] at hq, fun _ => ?_⟩
      rw [loop_all_empty s start (100 - i) i total
        (fun p hp1 hp2 => hrest p (by simpa using hp1) (by omega))]
      simp
  | cons c rest ih =>
      intro i total hlen hheld hrest
      have hlen2 : i + rest.length + 1 ≤ 100 := by
        simpa [Nat.add_assoc] using hlen
      have hfuel : 100 - i = (100 - (i + 1)) + 1 := by omega
      obtain ⟨hc1, hc2, hc3⟩ := hheld 0 c (by simp)
      rw [Nat.add_zero] at hc2 hc3
      have hnonempty : (scanned s start i).event ≠ [] := by
        rw [hc2]
        exact take_ne_nil _ hc1
      have hih := ih (i + 1) (total + 1) (by omega)
        (fun q c2 hq => by
          have h := hheld (q + 1) c2 (by simpa using hq)
          have e1 : i + (q + 1) = i + 1 + q := by omega
          rw [e1] at h
          exact h)
        (fun p hp1 hp2 => hrest p (by simp; omega) hp2)
      rw [hfuel]
      by_cases ht : c.timer_related = true
      · have hstep := loop_step_timer s start (100 - (i + 1)) i total hnonempty
          ((timer_related_iff c _ hc2 hc3).2 ht)
        rw [hstep]
        rw [first_not_timer_cons_timer c rest ht]
        cases hfr : first_not_timer rest with
        | none =>
            refine ⟨fun q hq => by simp at hq, fun _ => ?_⟩
            rw [hih.2 hfr]
            have e2 : total + 1 + (rest.length : Int) = total + ((c :: rest).length : Int) := by
              simp only [List.length_cons]
              push_cast
              ring
            rw [e2]
        | some q2 =>
            refine ⟨fun q hq => ?_, fun hq => by simp at hq⟩
            have hq3 : q2 + 1 = q := by simpa using hq
            subst hq3
            rw [hih.1 q2 hfr]
            have e1 : i + 1 + q2 = i + (q2 + 1) := by omega
            rw [e1]
            have e2 : total + 1 + (q2 : Int) + 1 = total + ((q2 + 1 : Nat) : Int) + 1 := by
              push_cast
              ring
            rw [e2]
      · have htz : is_timer_related_trace (scanned s start i) = 0 := by
          by_contra hc
          exact ht ((timer_related_iff c _ hc2 hc3).1 hc)
        have hstep := loop_step_hit s start (100 - (i + 1)) i total hnonempty htz
        rw [hstep]
        rw [first_not_timer_cons_hit c rest ht]
        refine ⟨fun q hq => ?_, fun hq => by simp at hq⟩
        have hq3 : 0 = q := by simpa using hq
        subst hq3
        simp

theorem first_not_timer_lt : ∀ (L : List RecordCall) (p : Nat),
    first_not_timer L = some p → p < L.length := by
  intro L
  induction L with
  | nil =>
      intro p hp
      simp [first_not_timer] at hp
  | cons c rest ih =>
      intro p hp
      by_cases ht : c.timer_related = true
      · rw [first_not_timer_cons_timer c rest ht] at hp
        cases hfr : first_not_timer rest with
        | none => simp [hfr] at hp
        | some q =>
            have h1 := ih q hfr
            have h2 : q + 1 = p := by simpa [hfr] using hp
            simp only [List.length_cons]
            omega
      · rw [first_not_timer_cons_hit c rest ht] at hp
        have h2 : 0 = p := by simpa using hp
        simp only [List.length_cons]
        omega

/-- The meaning of `first_not_timer`. -/
theorem first_not_timer_spec : ∀ (L : List RecordCall),
    (∀ p, first_not_timer L = some p →
      (∃ c, L[p]? = some c ∧ c.timer_related = false) ∧
      (∀ q c, q < p → L[q]? = some c → c.timer_related = true)) ∧
    (first_not_timer L = none → ∀ c ∈ L, c.timer_related = true) := by
  intro L
  induction L with
  | nil =>
      exact ⟨fun p hp => by simp [first_not_timer] at hp, fun _ c hc => by simp at hc⟩
  | cons c rest ih =>
      by_cases ht : c.timer_related = true
      · rw [first_not_timer_cons_timer c rest ht]
        cases hfr : first_not_timer rest with
        | none =>
            refine ⟨fun p hp => by simp at hp, fun _ c2 hc2 => ?_⟩
            rcases List.mem_cons.1 hc2 with h | h
            · rw [h]
              exact ht
            · exact ih.2 hfr c2 h
        | some q2 =>
            refine ⟨fun p hp => ?_, fun hp => by simp at hp⟩
            have hq3 : q2 + 1 = p := by simpa using hp
            subst hq3
            obtain ⟨⟨c2, hc2, hc3⟩, hbefore⟩ := ih.1 q2 hfr
            refine ⟨⟨c2, by simpa using hc2, hc3⟩, fun q c3 hq hc => ?_⟩
            cases q with
            | zero =>
                have : c = c3 := by simpa using hc
                rw [← this]
                exact ht
            | succ q3 => exact hbefore q3 c3 (by omega) (by simpa using hc)
      · rw [first_not_timer_cons_hit c rest ht]
        refine ⟨fun p hp => ?_, fun hp => by simp at hp⟩
        have hq3 : 0 = p := by simpa using hp
        subst hq3
        refine ⟨⟨c, by simp, by simpa using ht⟩, fun q c3 hq _ => by omega⟩

theorem scanned_held (s : Sys) (k q : Nat) (hidx : s.trace_index = k % MAX_TRACE_LINES)
    (hq : q < k) (hq2 : q < 100) :
    scanned s (if s.trace_index = 0 then MAX_TRACE_LINES else s.trace_index) q =
      s.trace_log (slot (k - 1 - q)) := by
  unfold scanned
  congr 1
  apply Fin.ext
  rw [hidx]
  simp only [slot, MAX_TRACE_LINES]
  split_ifs <;> omega

theorem scanned_unused (s : Sys) (k p : Nat) (hidx : s.trace_index = k % MAX_TRACE_LINES)
    (hk : k < 100) (hp : k ≤ p) (hp2 : p < 100) :
    ∃ i, k ≤ i ∧ i < MAX_TRACE_LINES ∧
      scanned s (if s.trace_index = 0 then MAX_TRACE_LINES else s.trace_index) p =
        s.trace_log (slot i) := by
  refine ⟨((if s.trace_index = 0 then MAX_TRACE_LINES else s.trace_index) +
    MAX_TRACE_LINES - 1 - p) % MAX_TRACE_LINES, ?_, ?_, ?_⟩
  · rw [hidx]
    simp only [MAX_TRACE_LINES]
    split_ifs <;> omega
  · simp only [MAX_TRACE_LINES]
    omega
  · unfold scanned
    rw [slot_mod]

/-- What `show_last_trace` prints after a sequence of recording calls with
non-empty messages, started on the zero-initialised ring. -/
theorem show_last_trace_stdout (s0 : Sys) (h0 : s0.trace_index = 0)
    (hzero : ∀ i, (s0.trace_log i).event = []) (calls : List RecordCall)
    (hne : ∀ c ∈ calls, c.message ≠ []) :
    (∀ p, first_not_timer (calls.reverse.take 100) = some p →
      (show_last_trace (record_all calls s0)).stdout =
        (record_all calls s0).stdout ++
          [cstr "\n=== ÚLTIMA TRAZA NO-TIMER ===\n", found_line ((p : Int) + 1),
           entry_line ((record_all calls s0).trace_log (slot (calls.length - 1 - p))),
           cstr "\n"]) ∧
    (first_not_timer (calls.reverse.take 100) = none → calls = [] →
      (show_last_trace (record_all calls s0)).stdout =
        (record_all calls s0).stdout ++
          [cstr "\n=== ÚLTIMA TRAZA NO-TIMER ===\n", cstr "El log de trazas está vacío\n",
           cstr "\n"]) ∧
    (first_not_timer (calls.reverse.take 100) = none → calls ≠ [] →
      (show_last_trace (record_all calls s0)).stdout =
        (record_all calls s0).stdout ++
          [cstr "\n=== ÚLTIMA TRAZA NO-TIMER ===\n",
           cstr "No se encontraron trazas que no sean del timer\n",
           cstr "Total de entradas válidas revisadas: " ++
             fmt_d ((min calls.length 100 : Nat) : Int) ++ cstr "\n",
           cstr "Todas las trazas recientes parecen ser del timer del sistema\n",
           cstr "\n"]) := by
  obtain ⟨hidx, hslots, hunused⟩ := record_all_ring s0 h0 calls
  generalize hs : record_all calls s0 = s at hidx hslots hunused
  have hLlen : (calls.reverse.take 100).length = min calls.length 100 := by
    rw [List.length_take, List.length_reverse, Nat.min_comm]
  have hget : ∀ q c, (calls.reverse.take 100)[q]? = some c →
      q < 100 ∧ q < calls.length ∧ calls[calls.length - 1 - q]? = some c := by
    intro q c hq
    rw [List.getElem?_take] at hq
    by_cases hq1 : q < 100
    · rw [if_pos hq1] at hq
      by_cases hq2 : q < calls.length
      · rw [List.getElem?_reverse hq2] at hq
        exact ⟨hq1, hq2, hq⟩
      · rw [List.getElem?_eq_none (by rw [List.length_reverse]; omega)] at hq
        simp at hq
    · rw [if_neg hq1] at hq
      simp at hq
  have hloop := loop_scan (printf (cstr "\n=== ÚLTIMA TRAZA NO-TIMER ===\n") s)
    (if s.trace_index = 0 then MAX_TRACE_LINES else s.trace_index)
    (calls.reverse.take 100) 0 0 (by rw [hLlen]; omega)
    (fun q c hq => by
      obtain ⟨hq1, hq2, hq3⟩ := hget q c hq
      have hsc := scanned_held s calls.length q hidx hq2 hq1
      have hsl := hslots (calls.length - 1 - q) c hq3 (by simp only [MAX_TRACE_LINES]; omega)
      have hmem : c ∈ calls := List.getElem?_mem hq3
      rw [Nat.zero_add]
      refine ⟨hne c hmem, ?_, ?_⟩
      · exact (congrArg trace_entry_t.event hsc).trans hsl.1
      · exact (congrArg trace_entry_t.irq_num hsc).trans hsl.2)
    (fun p hp1 hp2 => by
      rw [hLlen] at hp1
      have hk : calls.length < 100 := by omega
      obtain ⟨i, hi1, hi2, hi3⟩ := scanned_unused s calls.length p hidx hk (by omega) hp2
      have h1 : (scanned s (if s.trace_index = 0 then MAX_TRACE_LINES else s.trace_index) p).event
          = [] := by
        rw [hi3, hunused i hi1 hi2]
        exact hzero _
      exact h1)
  obtain ⟨hfound, hnone⟩ := hloop
  have hunfold : show_last_trace s =
      printf (cstr "\n")
        (if (show_last_trace_loop (if s.trace_index = 0 then MAX_TRACE_LINES else s.trace_index)
              (100 - 0) 0 0 (printf (cstr "\n=== ÚLTIMA TRAZA NO-TIMER ===\n") s)).1 = 0 then
          if (show_last_trace_loop (if s.trace_index = 0 then MAX_TRACE_LINES else s.trace_index)
              (100 - 0) 0 0 (printf (cstr "\n=== ÚLTIMA TRAZA NO-TIMER ===\n") s)).2.1 = 0 then
            printf (cstr "El log de trazas está vacío\n")
              (show_last_trace_loop (if s.trace_index = 0 then MAX_TRACE_LINES else s.trace_index)
                (100 - 0) 0 0 (printf (cstr "\n=== ÚLTIMA TRAZA NO-TIMER ===\n") s)).2.2
          else
            printf (cstr "Todas las trazas recientes parecen ser del timer del sistema\n")
              (printf
                (cstr "Total de entradas válidas revisadas: " ++
                  fmt_d (show_last_trace_loop
                    (if s.trace_index = 0 then MAX_TRACE_LINES else s.trace_index)
                    (100 - 0) 0 0 (printf (cstr "\n=== ÚLTIMA TRAZA NO-TIMER ===\n") s)).2.1 ++
                  cstr "\n")
                (printf (cstr "No se encontraron trazas que no sean del timer\n")
                  (show_last_trace_loop
                    (if s.trace_index = 0 then MAX_TRACE_LINES else s.trace_index)
                    (100 - 0) 0 0 (printf (cstr "\n=== ÚLTIMA TRAZA NO-TIMER ===\n") s)).2.2))
        else
          (show_last_trace_loop (if s.trace_index = 0 then MAX_TRACE_LINES else s.trace_index)
            (100 - 0) 0 0 (printf (cstr "\n=== ÚLTIMA TRAZA NO-TIMER ===\n") s)).2.2) := rfl
  rw [hunfold]
  refine ⟨fun p hp => ?_, fun hn hc => ?_, fun hn hc => ?_⟩
  · have hp2 := first_not_timer_lt _ p hp
    rw [hLlen] at hp2
    have hsc := scanned_held s calls.length p hidx (by omega) (by omega)
    rw [hfound p hp]
    have hsc2 : scanned (printf (cstr "\n=== ÚLTIMA TRAZA NO-TIMER ===\n") s)
        (if s.trace_index = 0 then MAX_TRACE_LINES else s.trace_index) (0 + p) =
        s.trace_log (slot (calls.length - 1 - p)) := by
      rw [Nat.zero_add]
      exact hsc
    rw [hsc2]
    simp [printf]
  · rw [hnone hn]
    subst hc
    simp [printf]
  · rw [hnone hn, hLlen]
    have hpos2 : ¬ ((calls.length : Int) ⊓ 100 = 0) := by
      have : calls.length ≠ 0 := fun h => hc (List.length_eq_zero.1 h)
      omega
    simp only [zero_add]
    simp [printf, hpos2]

theorem first_not_timer_of (L : List RecordCall) (p : Nat) (c : RecordCall)
    (hc : L[p]? = some c) (hnt : c.timer_related = false)
    (hbefore : ∀ q c2, q < p → L[q]? = some c2 → c2.timer_related = true) :
    first_not_timer L = some p := by
  obtain ⟨hsome, hnone⟩ := first_not_timer_spec L
  cases hf : first_not_timer L with
  | none =>
      have h := hnone hf c (List.getElem?_mem hc)
      rw [hnt] at h
      exact absurd h (by decide)
  | some p2 =>
      obtain ⟨⟨c2, hc2, hc3⟩, hb2⟩ := hsome p2 hf
      rcases Nat.lt_trichotomy p2 p with h | h | h
      · have := hbefore p2 c2 h hc2
        rw [hc3] at this
        exact absurd this (by decide)
      · rw [h]
      · have := hb2 p c h hc
        rw [hnt] at this
        exact absurd this (by decide)

theorem first_not_timer_none_of (L : List RecordCall)
    (h : ∀ c ∈ L, c.timer_related = true) : first_not_timer L = none := by
  cases hf : first_not_timer L with
  | none => rfl
  | some p =>
      obtain ⟨⟨c, hc, hc2⟩, _⟩ := (first_not_timer_spec L).1 p hf
      have := h c (List.getElem?_mem hc)
      rw [hc2] at this
      exact absurd this (by decide)

theorem held_get (calls : List RecordCall) (q : Nat) (c : RecordCall)
    (hq : (calls.reverse.take 100)[q]? = some c) :
    q < 100 ∧ q < calls.length ∧ calls[calls.length - 1 - q]? = some c := by
  rw [List.getElem?_take] at hq
  by_cases hq1 : q < 100
  · rw [if_pos hq1] at hq
    by_cases hq2 : q < calls.length
    · rw [List.getElem?_reverse hq2] at hq
      exact ⟨hq1, hq2, hq⟩
    · rw [List.getElem?_eq_none (by rw [List.length_reverse]; omega)] at hq
      simp at hq
  · rw [if_neg hq1] at hq
    simp at hq

/-- C16 (as stated, refuted): one event has been recorded, with an empty
message and no vector, so it is not timer-related; `show_last_trace` skips it
as a slot without content and reports that the log is empty. -/
theorem show_last_trace_skips_empty_message :
    (record_all [RecordCall.add_trace_silent []] fresh).trace_index = 1 ∧
    (RecordCall.add_trace_silent []).timer_related = false ∧
    (show_last_trace (record_all [RecordCall.add_trace_silent []] fresh)).stdout =
      (record_all [RecordCall.add_trace_silent []] fresh).stdout ++
        [cstr "\n=== ÚLTIMA TRAZA NO-TIMER ===\n", cstr "El log de trazas está vacío\n",
         cstr "\n"] := by
  decide

/-- C16 (amended): for every sequence of recorded events with non-empty
messages, recorded from the zero-initialised ring, `show_last_trace` scans
the ring backward from the newest entry and reports the most recently
recorded entry, among the last 100 that the ring holds, that is not
timer-related, with its position from the end; it reports "log empty"
exactly when no event has been recorded, and "none matched" exactly when
events are held but all of them are timer-related. -/
theorem show_last_trace_reports (s0 : Sys) (h0 : s0.trace_index = 0)
    (hzero : ∀ i, (s0.trace_log i).event = []) (calls : List RecordCall)
    (hne : ∀ c ∈ calls, c.message ≠ []) :
    (∀ (p : Nat) (c : RecordCall), (calls.reverse.take 100)[p]? = some c →
      c.timer_related = false →
      (∀ q c2, q < p → (calls.reverse.take 100)[q]? = some c2 → c2.timer_related = true) →
      (show_last_trace (record_all calls s0)).stdout =
        (record_all calls s0).stdout ++
          [cstr "\n=== ÚLTIMA TRAZA NO-TIMER ===\n", found_line ((p : Int) + 1),
           entry_line ((record_all calls s0).trace_log (slot (calls.length - 1 - p))),
           cstr "\n"] ∧
      ((record_all calls s0).trace_log (slot (calls.length - 1 - p))).event =
        c.message.take 255 ∧
      ((record_all calls s0).trace_log (slot (calls.length - 1 - p))).irq_num = c.vector) ∧
    ((show_last_trace (record_all calls s0)).stdout =
        (record_all calls s0).stdout ++
          [cstr "\n=== ÚLTIMA TRAZA NO-TIMER ===\n", cstr "El log de trazas está vacío\n",
           cstr "\n"] ↔
      calls = []) ∧
    ((show_last_trace (record_all calls s0)).stdout =
        (record_all calls s0).stdout ++
          [cstr "\n=== ÚLTIMA TRAZA NO-TIMER ===\n",
           cstr "No se encontraron trazas que no sean del timer\n",
           cstr "Total de entradas válidas revisadas: " ++
             fmt_d ((min calls.length 100 : Nat) : Int) ++ cstr "\n",
           cstr "Todas las trazas recientes parecen ser del timer del sistema\n",
           cstr "\n"] ↔
      (calls ≠ [] ∧ ∀ c ∈ calls.reverse.take 100, c.timer_related = true)) := by
  obtain ⟨hfound, hempty, hnomatch⟩ := show_last_trace_stdout s0 h0 hzero calls hne
  obtain ⟨_, hslots, _⟩ := record_all_ring s0 h0 calls
  refine ⟨fun p c hc hnt hbefore => ?_, ⟨fun hout => ?_, fun hc => ?_⟩,
    ⟨fun hout => ?_, fun hc => ?_⟩⟩
  · obtain ⟨hq1, hq2, hq3⟩ := held_get calls p c hc
    have hsl := hslots (calls.length - 1 - p) c hq3 (by simp only [MAX_TRACE_LINES]; omega)
    exact ⟨hfound p (first_not_timer_of _ p c hc hnt hbefore), hsl.1, hsl.2⟩
  · by_contra hcalls
    cases hf : first_not_timer (calls.reverse.take 100) with
    | none =>
        rw [hnomatch hf hcalls] at hout
        have := congrArg List.length (List.append_cancel_left hout)
        simp at this
    | some p =>
        rw [hfound p hf] at hout
        have := congrArg List.length (List.append_cancel_left hout)
        simp at this
  · subst hc
    exact hempty rfl rfl
  · cases hf : first_not_timer (calls.reverse.take 100) with
    | none =>
        have hcalls : calls ≠ [] := by
          intro hc
          rw [hempty hf hc] at hout
          have := congrArg List.length (List.append_cancel_left hout)
          simp at this
        exact ⟨hcalls, (first_not_timer_spec _).2 hf⟩
    | some p =>
        rw [hfound p hf] at hout
        have := congrArg List.length (List.append_cancel_left hout)
        simp at this
  · exact hnomatch (first_not_timer_none_of _ hc.2) hc.1

theorem two_events_nonempty : ∀ c ∈ two_events, c.message ≠ [] := by
  intro c hc
  simp only [two_events, List.mem_cons, List.mem_singleton, List.not_mem_nil, or_false] at hc
  rcases hc with h | h <;> subst h <;> decide

theorem two_events_newer_timer : ∀ (q : Nat) (c2 : RecordCall), q < 1 →
    (two_events.reverse.take 100)[q]? = some c2 → c2.timer_related = true := by
  intro q c2 hq hc
  have hq0 : q = 0 := by omega
  subst hq0
  have h : RecordCall.add_trace_silent (cstr "Timer PIT detenido") = c2 := by
    simpa [two_events] using hc
  subst h
  decide

theorem show_last_trace_reports_witness :
    fresh.trace_index = 0 ∧
    (two_events.reverse.take 100)[1]? = some (RecordCall.add_trace_with_irq (cstr "evento") 5) ∧
    (RecordCall.add_trace_with_irq (cstr "evento") 5).timer_related = false ∧
    (show_last_trace (record_all two_events fresh)).stdout =
      (record_all two_events fresh).stdout ++
        [cstr "\n=== ÚLTIMA TRAZA NO-TIMER ===\n", found_line (((1 : Nat) : Int) + 1),
         entry_line ((record_all two_events fresh).trace_log (slot (two_events.length - 1 - 1))),
         cstr "\n"] ∧
    (show_last_trace (record_all [] fresh)).stdout =
      (record_all [] fresh).stdout ++
        [cstr "\n=== ÚLTIMA TRAZA NO-TIMER ===\n", cstr "El log de trazas está vacío\n",
         cstr "\n"] :=
  ⟨rfl, rfl, by decide,
    ((show_last_trace_reports fresh rfl (fun _ => rfl) two_events two_events_nonempty).1 1
      (RecordCall.add_trace_with_irq (cstr "evento") 5) rfl (by decide)
      two_events_newer_timer).1,
    (show_last_trace_reports fresh rfl (fun _ => rfl) []
      (fun c hc => absurd hc (List.not_mem_nil c))).2.1.2 rfl⟩

end TraceDisplay

/-! ## Statistics -/

section Statistics

open irq_state_t log_level_t

theorem update_all_concat (calls : List (Int × Nat)) (c : Int × Nat) (s : Sys) :
    update_all (calls ++ [c]) s = update_stats c.1 c.2 (update_all calls s) := by
  simp [update_all, List.foldl_append]

/-- One call of `update_stats`, counter by counter. -/
theorem update_stats_counters (s : Sys) (v : Int) (t : Nat) :
    (update_stats v t s).stats.total_interrupts = s.stats.total_interrupts + 1 ∧
    (update_stats v t s).stats.timer_interrupts =
      s.stats.timer_interrupts + (if v = IRQ_TIMER then 1 else 0) ∧
    (update_stats v t s).stats.keyboard_interrupts =
      s.stats.keyboard_interrupts + (if v ≠ IRQ_TIMER ∧ v = IRQ_KEYBOARD then 1 else 0) ∧
    (update_stats v t s).stats.custom_interrupts =
      s.stats.custom_interrupts + (if v ≠ IRQ_TIMER ∧ v ≠ IRQ_KEYBOARD then 1 else 0) := by
  unfold update_stats
  by_cases h0 : v = IRQ_TIMER
  · simp [h0]
  · by_cases h1 : v = IRQ_KEYBOARD
    · simp [h1]
    · simp [h0, h1]

theorem update_all_consistent (s : Sys) (calls : List (Int × Nat)) :
    (update_all calls (init_system_stats s)).stats.total_interrupts =
      (update_all calls (init_system_stats s)).stats.timer_interrupts +
      (update_all calls (init_system_stats s)).stats.keyboard_interrupts +
      (update_all calls (init_system_stats s)).stats.custom_interrupts := by
  induction calls using List.reverseRecOn with
  | nil => rfl
  | append_singleton calls c ih =>
      rw [update_all_concat]
      obtain ⟨h1, h2, h3, h4⟩ := update_stats_counters (update_all calls (init_system_stats s)) c.1 c.2
      rw [h1, h2, h3, h4, ih]
      by_cases h0 : c.1 = IRQ_TIMER
      · simp [h0]
        omega
      · by_cases hk : c.1 = IRQ_KEYBOARD
        · simp [hk]
          omega
        · simp [h0, hk]
          omega

/-- C21: `update_stats(v, t)` increases `total_interrupts` by exactly 1 and
exactly one category counter by 1 (`timer_interrupts` when `v = 0`,
`keyboard_interrupts` when `v = 1`, `custom_interrupts` otherwise), and
`total_interrupts = timer_interrupts + keyboard_interrupts + custom_interrupts`
holds after `init_system_stats` and after any sequence of updates. -/
theorem update_stats_counts (s : Sys) (v : Int) (t : Nat) (calls : List (Int × Nat)) :
    (update_stats v t s).stats.total_interrupts = s.stats.total_interrupts + 1 ∧
    (v = 0 →
      (update_stats v t s).stats.timer_interrupts = s.stats.timer_interrupts + 1 ∧
      (update_stats v t s).stats.keyboard_interrupts = s.stats.keyboard_interrupts ∧
      (update_stats v t s).stats.custom_interrupts = s.stats.custom_interrupts) ∧
    (v = 1 →
      (update_stats v t s).stats.timer_interrupts = s.stats.timer_interrupts ∧
      (update_stats v t s).stats.keyboard_interrupts = s.stats.keyboard_interrupts + 1 ∧
      (update_stats v t s).stats.custom_interrupts = s.stats.custom_interrupts) ∧
    (v ≠ 0 → v ≠ 1 →
      (update_stats v t s).stats.timer_interrupts = s.stats.timer_interrupts ∧
      (update_stats v t s).stats.keyboard_interrupts = s.stats.keyboard_interrupts ∧
      (update_stats v t s).stats.custom_interrupts = s.stats.custom_interrupts + 1) ∧
    (init_system_stats s).stats.total_interrupts =
      (init_system_stats s).stats.timer_interrupts +
      (init_system_stats s).stats.keyboard_interrupts +
      (init_system_stats s).stats.custom_interrupts ∧
    (update_all calls (init_system_stats s)).stats.total_interrupts =
      (update_all calls (init_system_stats s)).stats.timer_interrupts +
      (update_all calls (init_system_stats s)).stats.keyboard_interrupts +
      (update_all calls (init_system_stats s)).stats.custom_interrupts := by
  obtain ⟨h1, h2, h3, h4⟩ := update_stats_counters s v t
  refine ⟨h1, fun hv => ?_, fun hv => ?_, fun hv0 hv1 => ?_, rfl, update_all_consistent s calls⟩
  · rw [h2, h3, h4]
    simp [hv]
  · rw [h2, h3, h4]
    simp [hv]
  · rw [h2, h3, h4]
    simp [hv0, hv1]

theorem update_stats_counts_witness :
    ((update_stats 0 100 started).stats.timer_interrupts = started.stats.timer_interrupts + 1 ∧
      (update_stats 0 100 started).stats.keyboard_interrupts = started.stats.keyboard_interrupts ∧
      (update_stats 0 100 started).stats.custom_interrupts = started.stats.custom_interrupts) ∧
    ((update_stats 1 100 started).stats.timer_interrupts = started.stats.timer_interrupts ∧
      (update_stats 1 100 started).stats.keyboard_interrupts =
        started.stats.keyboard_interrupts + 1 ∧
      (update_stats 1 100 started).stats.custom_interrupts = started.stats.custom_interrupts) ∧
    ((update_stats 7 100 started).stats.timer_interrupts = started.stats.timer_interrupts ∧
      (update_stats 7 100 started).stats.keyboard_interrupts = started.stats.keyboard_interrupts ∧
      (update_stats 7 100 started).stats.custom_interrupts =
        started.stats.custom_interrupts + 1) :=
  ⟨(update_stats_counts started 0 100 []).2.1 rfl,
   (update_stats_counts started 1 100 []).2.2.1 rfl,
   (update_stats_counts started 7 100 []).2.2.2.1 (by decide) (by decide)⟩

theorem update_stats_average (s : Sys) (v : Int) (t : Nat) :
    (update_stats v t s).stats.average_response_time =
      (s.stats.average_response_time * (s.stats.total_interrupts : ℚ) + (t : ℚ)) /
        ((s.stats.total_interrupts : ℚ) + 1) := by
  unfold update_stats
  by_cases h0 : v = IRQ_TIMER
  · simp [h0]
  · by_cases h1 : v = IRQ_KEYBOARD
    · simp [h1]
    · simp [h0, h1]

theorem update_all_average (s : Sys) (calls : List (Int × Nat)) :
    (update_all calls (init_system_stats s)).stats.total_interrupts = calls.length ∧
    (update_all calls (init_system_stats s)).stats.average_response_time * (calls.length : ℚ) =
      total_time calls := by
  induction calls using List.reverseRecOn with
  | nil =>
      refine ⟨rfl, ?_⟩
      simp [total_time]
  | append_singleton calls c ih =>
      obtain ⟨hk, havg⟩ := ih
      rw [update_all_concat]
      refine ⟨?_, ?_⟩
      · rw [(update_stats_counters _ c.1 c.2).1, hk]
        simp
      · rw [update_stats_average, hk]
        have hlen : (((calls ++ [c]).length : Nat) : ℚ) = (calls.length : ℚ) + 1 := by
          simp
        have hne : (calls.length : ℚ) + 1 ≠ 0 := by positivity
        rw [hlen, div_mul_cancel₀ _ hne, havg]
        simp [total_time]

/-- C22: starting from `init_system_stats`, after `k >= 1` calls
`update_stats(v_i, t_i)` the running average `average_response_time` equals
`(t_1 + ... + t_k) / k`, the arithmetic read over the rationals; and each
step of the code, `(avg * (n - 1) + t) / n` with `n` the new total, equals
the incremental-mean step `avg + (t - avg) / n`. -/
theorem running_average_is_mean (s : Sys) (calls : List (Int × Nat)) (v : Int) (t : Nat)
    (hk : 1 ≤ calls.length) :
    (update_all calls (init_system_stats s)).stats.average_response_time =
      total_time calls / (calls.length : ℚ) ∧
    (update_stats v t s).stats.average_response_time =
      (s.stats.average_response_time *
          (((update_stats v t s).stats.total_interrupts - 1 : Nat) : ℚ) + (t : ℚ)) /
        ((update_stats v t s).stats.total_interrupts : ℚ) ∧
    (update_stats v t s).stats.average_response_time =
      s.stats.average_response_time +
        ((t : ℚ) - s.stats.average_response_time) /
          ((update_stats v t s).stats.total_interrupts : ℚ) := by
  have hne : (calls.length : ℚ) ≠ 0 := by
    have : (0 : ℚ) < (calls.length : ℚ) := by exact_mod_cast hk
    exact ne_of_gt this
  have htot := (update_stats_counters s v t).1
  have hne2 : (s.stats.total_interrupts : ℚ) + 1 ≠ 0 := by positivity
  refine ⟨?_, ?_, ?_⟩
  · rw [eq_div_iff hne]
    exact (update_all_average s calls).2
  · rw [update_stats_average, htot]
    simp
  · rw [update_stats_average, htot]
    push_cast
    field_simp
    ring

theorem running_average_is_mean_witness :
    (1 : Nat) ≤ [((0 : Int), (100 : Nat)), (1, 200), (7, 600)].length ∧
    (update_all [(0, 100), (1, 200), (7, 600)] (init_system_stats started)).stats.average_response_time
      = total_time [(0, 100), (1, 200), (7, 600)] /
          (([((0 : Int), (100 : Nat)), (1, 200), (7, 600)].length : Nat) : ℚ) ∧
    total_time [(0, 100), (1, 200), (7, 600)] = 900 :=
  ⟨by decide,
    (running_average_is_mean started [(0, 100), (1, 200), (7, 600)] 0 100 (by decide)).1,
    by norm_num [total_time]⟩

end Statistics

/-! ## Elapsed time of a dispatch -/

section ElapsedTime

open irq_state_t log_level_t

/-- Division by 1000 truncating toward zero: quotient and remainder. -/
theorem tdiv_thousand (d : Int) :
    ∃ r : Int, d = 1000 * d.tdiv 1000 + r ∧ -1000 < r ∧ r < 1000 ∧
      (0 ≤ d → 0 ≤ r) ∧ (d ≤ 0 → r ≤ 0) := by
  refine ⟨d - 1000 * d.tdiv 1000, by ring, ?_⟩
  by_cases hd : 0 ≤ d
  · have h : d.tdiv 1000 = d / 1000 := Int.tdiv_eq_ediv hd (by norm_num)
    rw [h]
    omega
  · have h : d.tdiv 1000 = -((-d) / 1000) := by
      rw [← Int.tdiv_eq_ediv (by omega) (by norm_num), Int.neg_tdiv, neg_neg]
    rw [h]
    omega

/-- C28: for every pair of clock readings `start <= end` with nanosecond
fields in `[0, 10^9)`, the elapsed time computed in `dispatch_interrupt` as
`(end.sec - start.sec) * 1000000 + (end.nsec - start.nsec) / 1000`, with the
division truncating toward zero, is non-negative and differs from the exact
elapsed time in microseconds by less than 1; the `unsigned long` in which it
is stored holds this very value whenever the value is below `2 ^ 64`. -/
theorem elapsed_time_accuracy (start_time end_time : timespec)
    (hs : 0 ≤ start_time.tv_nsec ∧ start_time.tv_nsec < 1000000000)
    (he : 0 ≤ end_time.tv_nsec ∧ end_time.tv_nsec < 1000000000)
    (hle : start_time.tv_sec < end_time.tv_sec ∨
      (start_time.tv_sec = end_time.tv_sec ∧ start_time.tv_nsec ≤ end_time.tv_nsec)) :
    0 ≤ elapsed_long start_time end_time ∧
    |((elapsed_long start_time end_time : Int) : ℚ) - elapsed_exact start_time end_time| < 1 ∧
    (elapsed_long start_time end_time < 2 ^ 64 →
      ((execution_time_of start_time end_time : Nat) : Int) =
        elapsed_long start_time end_time) := by
  obtain ⟨r, hr, hr1, hr2, hr3, hr4⟩ := tdiv_thousand (end_time.tv_nsec - start_time.tv_nsec)
  have hnn : 0 ≤ elapsed_long start_time end_time := by
    unfold elapsed_long
    rcases hle with h | ⟨h1, h2⟩
    · omega
    · have := hr3 (by omega)
      omega
  refine ⟨hnn, ?_, fun hlt => ?_⟩
  · unfold elapsed_long elapsed_exact
    have hrq : ((end_time.tv_nsec - start_time.tv_nsec : Int) : ℚ) =
        1000 * (((end_time.tv_nsec - start_time.tv_nsec).tdiv 1000 : Int) : ℚ) + (r : ℚ) := by
      exact_mod_cast hr
    have hr1q : (-1000 : ℚ) < (r : ℚ) := by exact_mod_cast hr1
    have hr2q : (r : ℚ) < 1000 := by exact_mod_cast hr2
    push_cast at hrq ⊢
    rw [abs_lt, hrq]
    constructor <;> linarith
  · have h1 : execution_time_of start_time end_time =
        ((elapsed_long start_time end_time) % ((2 : Int) ^ 64)).toNat := rfl
    rw [h1, Int.emod_eq_of_lt hnn hlt, Int.toNat_of_nonneg hnn]

theorem elapsed_time_accuracy_witness :
    0 ≤ elapsed_long { tv_sec := 5, tv_nsec := 999999000 } { tv_sec := 6, tv_nsec := 500 } ∧
    |((elapsed_long { tv_sec := 5, tv_nsec := 999999000 } { tv_sec := 6, tv_nsec := 500 } : Int)
        : ℚ) -
      elapsed_exact { tv_sec := 5, tv_nsec := 999999000 } { tv_sec := 6, tv_nsec := 500 }| < 1 ∧
    ((execution_time_of { tv_sec := 5, tv_nsec := 999999000 } { tv_sec := 6, tv_nsec := 500 } : Nat)
        : Int) =
      elapsed_long { tv_sec := 5, tv_nsec := 999999000 } { tv_sec := 6, tv_nsec := 500 } ∧
    execution_time_of { tv_sec := 5, tv_nsec := 999999000 } { tv_sec := 6, tv_nsec := 500 } = 2 :=
  ⟨(elapsed_time_accuracy { tv_sec := 5, tv_nsec := 999999000 } { tv_sec := 6, tv_nsec := 500 }
      (by decide) (by decide) (Or.inl (by decide))).1,
    (elapsed_time_accuracy { tv_sec := 5, tv_nsec := 999999000 } { tv_sec := 6, tv_nsec := 500 }
      (by decide) (by decide) (Or.inl (by decide))).2.1,
    (elapsed_time_accuracy { tv_sec := 5, tv_nsec := 999999000 } { tv_sec := 6, tv_nsec := 500 }
      (by decide) (by decide) (Or.inl (by decide))).2.2 (by decide),
    by decide⟩

end ElapsedTime

/-! ## Per-vector frame -/

section Frame

open irq_state_t log_level_t

theorem idx_ne_of_ne (v : Int) (w : Fin MAX_INTERRUPTS) (hvw : v ≠ ((w : Nat) : Int))
    (hv : 0 ≤ v ∧ v < 16) : w ≠ idx v := by
  intro h
  apply hvw
  rw [h]
  exact (cast_idx v hv).symm

/-- C29: for every vector `v` and every other vector `w` in `[0,16)`,
`register_isr(v, ...)`, `unregister_isr(v)` and `dispatch_interrupt(v)` (with
handlers that do not themselves touch the table) leave all fields of
descriptor `w` unchanged, and `register_isr` and `unregister_isr` also leave
`last_call` of `v` and the statistics unchanged. -/
theorem per_vector_frame (isrs : IsrImpl) (s : Sys) (v : Int) (w : Fin MAX_INTERRUPTS)
    (h : isr_ptr) (d : CString)
    (hvw : v ≠ ((w : Nat) : Int))
    (hframe : ∀ (f : Nat) (a : Int) (t : Sys), (isrs f a t).idt = t.idt) :
    (register_isr v h d s).2.idt w = s.idt w ∧
    (unregister_isr v s).2.idt w = s.idt w ∧
    (dispatch_interrupt isrs v s).1.idt w = s.idt w ∧
    ((register_isr v h d s).2.idt (idx v)).last_call = (s.idt (idx v)).last_call ∧
    ((unregister_isr v s).2.idt (idx v)).last_call = (s.idt (idx v)).last_call ∧
    (register_isr v h d s).2.stats = s.stats ∧
    (unregister_isr v s).2.stats = s.stats := by
  refine ⟨?_, ?_, ?_, ?_, ?_, register_isr_stats s v h d, unregister_isr_stats s v⟩
  · rw [register_isr_idt]
    unfold register_table
    split_ifs with h1 h2
    · rfl
    · rfl
    · have hv : 0 ≤ v ∧ v < 16 := (validate_irq_num_eq_success v).1 (by simpa using h1)
      unfold register_locked
      rw [Function.update_noteq (idx_ne_of_ne v w hvw hv)]
  · rw [unregister_isr_idt]
    unfold unregister_table
    split_ifs with h1 h2
    · rfl
    · rfl
    · have hv : 0 ≤ v ∧ v < 16 := (validate_irq_num_eq_success v).1 (by simpa using h1)
      unfold unregister_locked
      rw [Function.update_noteq (idx_ne_of_ne v w hvw hv)]
  · by_cases hv : 0 ≤ v ∧ v < 16
    · have hne := idx_ne_of_ne v w hvw hv
      rw [← cast_idx v hv]
      generalize idx v = u at hne
      by_cases hrej : (s.idt u).state ≠ IRQ_STATE_REGISTERED ∨ (s.idt u).isr = none
      · rw [dispatch_turned_away isrs s u hrej, add_trace_smart_idt]
      · have hstate : (s.idt u).state = IRQ_STATE_REGISTERED := by
          by_contra hc
          exact hrej (Or.inl hc)
        obtain ⟨f, hf⟩ : ∃ f, (s.idt u).isr = some f := by
          cases hi : (s.idt u).isr with
          | none => exact absurd (Or.inr hi) hrej
          | some f => exact ⟨f, rfl⟩
        rw [dispatch_accepted_idt isrs s u f hstate hf (hframe f)]
        unfold dispatch_restore_registered dispatch_mark_executing
        rw [Function.update_noteq hne, Function.update_noteq hne]
    · rw [(dispatch_invalid_idt isrs s v hv).2]
  · rw [register_isr_idt]
    unfold register_table
    split_ifs with h1 h2
    · rfl
    · rfl
    · simp [register_locked]
  · rw [unregister_isr_idt]
    unfold unregister_table
    split_ifs with h1 h2
    · rfl
    · rfl
    · simp [unregister_locked]

theorem per_vector_frame_witness :
    (2 : Int) ≠ (((5 : Fin MAX_INTERRUPTS) : Nat) : Int) ∧
    (register_isr 2 (some 3) (cstr "X") started).2.idt 5 = started.idt 5 ∧
    (unregister_isr 2 started).2.idt 5 = started.idt 5 ∧
    (dispatch_interrupt program_isrs 2 started).1.idt 5 = started.idt 5 ∧
    ((register_isr 2 (some 3) (cstr "X") started).2.idt (idx 2)).last_call =
      (started.idt (idx 2)).last_call ∧
    ((unregister_isr 2 started).2.idt (idx 2)).last_call = (started.idt (idx 2)).last_call ∧
    (register_isr 2 (some 3) (cstr "X") started).2.stats = started.stats ∧
    (unregister_isr 2 started).2.stats = started.stats :=
  ⟨by decide,
    per_vector_frame program_isrs started 2 5 (some 3) (cstr "X") (by decide) program_isrs_idt⟩

end Frame

/-! ## Classification of timer-related entries -/

section TimerClassification

open irq_state_t log_level_t

theorem starts_with_iff : ∀ (pattern text : CString),
    starts_with text pattern = true ↔ ∃ rest, text = pattern ++ rest := by
  intro pattern
  induction pattern with
  | nil =>
      intro text
      cases text <;> simp [starts_with]
  | cons b pattern ih =>
      intro text
      cases text with
      | nil => simp [starts_with]
      | cons c text =>
          simp only [starts_with, Bool.and_eq_true, beq_iff_eq, ih text, List.cons_append,
            List.cons.injEq]
          constructor
          · rintro ⟨h1, rest, h2⟩
            exact ⟨rest, h1, h2⟩
          · rintro ⟨rest, h1, h2⟩
            exact ⟨h1, rest, h2⟩

/-- The result of `strstr` is not `NULL` exactly when the needle occurs in
the haystack as a run of consecutive bytes. -/
theorem strstr_isSome_iff (haystack needle : CString) :
    (strstr haystack needle).isSome = true ↔
      ∃ before after, haystack = before ++ needle ++ after := by
  unfold strstr
  rw [List.find?_isSome]
  constructor
  · rintro ⟨i, _, hi⟩
    obtain ⟨rest, hrest⟩ := (starts_with_iff needle _).1 hi
    refine ⟨haystack.take i, rest, ?_⟩
    rw [List.append_assoc, ← hrest, List.take_append_drop]
  · rintro ⟨before, after, h⟩
    refine ⟨before.length, ?_, ?_⟩
    · rw [List.mem_range, h]
      simp only [List.length_append]
      omega
    · rw [starts_with_iff]
      refine ⟨after, ?_⟩
      rw [h, List.append_assoc, List.drop_left]

/-- C27 (as stated, refuted): an entry tagged with the non-timer vector 5
whose message is "Timer" is classified as timer-related, because of its
message text. -/
theorem tagged_entry_classified_by_text :
    is_timer_related_trace { timestamp := [], event := cstr "Timer", irq_num := 5 } = 1 ∧
    is_timer_related_trace { timestamp := [], event := cstr "evento", irq_num := 5 } = 0 := by
  decide

/-- C27 (amended): for every trace entry `e`, `is_timer_related_trace(e)` is
true if and only if the vector of `e` equals the reserved timer vector 0, or
the message of `e` contains, as a substring, one of the fourteen patterns of
the code ("TIMER", "Timer", "timer", "TICK", "Tick", "tick", "Hilo del timer",
"timer_thread", "DESPACHANDO IRQ 0", "FINALIZANDO IRQ 0",
">>> DESPACHANDO IRQ 0", "<<< FINALIZANDO IRQ 0", "iniciado", "finalizando"),
whether or not `e` carries a vector; so an entry tagged with a non-timer
vector is classified as timer-related exactly when its message contains one
of these patterns. The result is 0 or 1. -/
theorem is_timer_related_trace_spec (e : trace_entry_t) :
    (is_timer_related_trace e ≠ 0 ↔
      (e.irq_num = 0 ∨
        ∃ p ∈ timer_patterns, ∃ before after, e.event = before ++ p ++ after)) ∧
    (is_timer_related_trace e = 0 ∨ is_timer_related_trace e = 1) ∧
    timer_patterns =
      [cstr "TIMER", cstr "Timer", cstr "timer", cstr "TICK", cstr "Tick", cstr "tick",
       cstr "Hilo del timer", cstr "timer_thread", cstr "DESPACHANDO IRQ 0",
       cstr "FINALIZANDO IRQ 0", cstr ">>> DESPACHANDO IRQ 0", cstr "<<< FINALIZANDO IRQ 0",
       cstr "iniciado", cstr "finalizando"] := by
  have hany : (timer_patterns.any (fun p => (strstr e.event p).isSome)) = true ↔
      ∃ p ∈ timer_patterns, ∃ before after, e.event = before ++ p ++ after := by
    rw [List.any_eq_true]
    constructor
    · rintro ⟨p, hp, h⟩
      exact ⟨p, hp, (strstr_isSome_iff _ _).1 h⟩
    · rintro ⟨p, hp, h⟩
      exact ⟨p, hp, (strstr_isSome_iff _ _).2 h⟩
  rw [← hany]
  unfold is_timer_related_trace
  refine ⟨?_, ?_, rfl⟩
  · by_cases h0 : e.irq_num = IRQ_TIMER
    · simp [h0]
    · by_cases h1 : (timer_patterns.any (fun p => (strstr e.event p).isSome)) = true
      · have h0b : ¬ e.irq_num = 0 := h0
        simp [h0, h1]
      · have h0b : ¬ e.irq_num = 0 := h0
        simp [h0, h0b, h1]
  · by_cases h0 : e.irq_num = IRQ_TIMER
    · simp [h0]
    · by_cases h1 : (timer_patterns.any (fun p => (strstr e.event p).isSome)) = true
      · simp [h0, h1]
      · simp [h0, h1]

end TimerClassification

/-! ## Timer thread -/

section TimerThread

open irq_state_t log_level_t

theorem timer_thread_loop_stopped (isrs : IsrImpl) (s : Sys) (h : s.system_running = 0) :
    ∀ others : List (Sys → Sys), timer_thread_loop isrs others s = (s, 0, true) := by
  intro others
  cases others with
  | nil => simp [timer_thread_loop, h]
  | cons a rest => simp [timer_thread_loop, h]

/-- C24: in every iteration of the loop of `timer_thread_func`, the timer
vector is dispatched, and the "timer firing" event recorded, only if
`system_running` is still set when it is checked after the sleep; when the
flag has been cleared during the sleep the iteration records and dispatches
nothing and the loop is left, and when it is cleared before the loop test
the loop is left without another sleep. -/
theorem timer_loop_checks_flag (isrs : IsrImpl) (during_sleep : Sys → Sys)
    (rest : List (Sys → Sys)) (s : Sys) :
    (s.system_running ≠ 0 → (during_sleep (sleep TIMER_INTERVAL_SEC s)).system_running ≠ 0 →
      timer_thread_loop isrs (during_sleep :: rest) s =
        ((timer_thread_loop isrs rest
            (dispatch_interrupt isrs IRQ_TIMER
              (add_trace_smart
                (snprintf MAX_TRACE_MSG_LEN
                  (cstr "⏲️  HARDWARE: Timer PIT disparando IRQ0 - Señal de reloj del sistema"))
                (-1) 1 (during_sleep (sleep TIMER_INTERVAL_SEC s)))).1).1,
         (timer_thread_loop isrs rest
            (dispatch_interrupt isrs IRQ_TIMER
              (add_trace_smart
                (snprintf MAX_TRACE_MSG_LEN
                  (cstr "⏲️  HARDWARE: Timer PIT disparando IRQ0 - Señal de reloj del sistema"))
                (-1) 1 (during_sleep (sleep TIMER_INTERVAL_SEC s)))).1).2.1 + 1,
         (timer_thread_loop isrs rest
            (dispatch_interrupt isrs IRQ_TIMER
              (add_trace_smart
                (snprintf MAX_TRACE_MSG_LEN
                  (cstr "⏲️  HARDWARE: Timer PIT disparando IRQ0 - Señal de reloj del sistema"))
                (-1) 1 (during_sleep (sleep TIMER_INTERVAL_SEC s)))).1).2.2)) ∧
    (s.system_running ≠ 0 → (during_sleep (sleep TIMER_INTERVAL_SEC s)).system_running = 0 →
      timer_thread_loop isrs (during_sleep :: rest) s =
        (during_sleep (sleep TIMER_INTERVAL_SEC s), 0, true)) ∧
    (s.system_running = 0 →
      timer_thread_loop isrs (during_sleep :: rest) s = (s, 0, true) ∧
      timer_thread_loop isrs [] s = (s, 0, true)) := by
  refine ⟨fun h1 h2 => ?_, fun h1 h2 => ?_, fun h1 => ?_⟩
  · rw [timer_thread_loop]
    simp only [h1, h2, ne_eq, not_false_eq_true, if_true]
  · rw [timer_thread_loop]
    simp only [h1, ne_eq, not_false_eq_true, if_true, h2, not_true_eq_false, if_false]
    exact timer_thread_loop_stopped isrs _ h2 rest
  · exact ⟨timer_thread_loop_stopped isrs s h1 _, timer_thread_loop_stopped isrs s h1 _⟩

theorem timer_loop_checks_flag_witness :
    (with_timer.system_running ≠ 0 ∧
      (request_shutdown (sleep TIMER_INTERVAL_SEC with_timer)).system_running = 0 ∧
      timer_thread_loop program_isrs [request_shutdown] with_timer =
        (request_shutdown (sleep TIMER_INTERVAL_SEC with_timer), 0, true)) ∧
    ((request_shutdown with_timer).system_running = 0 ∧
      timer_thread_loop program_isrs [request_shutdown] (request_shutdown with_timer) =
        (request_shutdown with_timer, 0, true)) ∧
    ((fun t : Sys => t) (sleep TIMER_INTERVAL_SEC with_timer)).system_running ≠ 0 ∧
    (timer_thread_loop program_isrs [fun t => t, request_shutdown] with_timer).2 = (1, true) :=
  ⟨⟨by decide, rfl,
      (timer_loop_checks_flag program_isrs request_shutdown [] with_timer).2.1 (by decide) rfl⟩,
   ⟨rfl,
      ((timer_loop_checks_flag program_isrs request_shutdown [] (request_shutdown with_timer)).2.2
        rfl).1⟩,
   by decide,
   by
    rw [(timer_loop_checks_flag program_isrs (fun t => t) [request_shutdown] with_timer).1
      (by decide) (by decide)]
    decide⟩

end TimerThread

/-! ## Lock discipline -/

section Locks

open irq_state_t log_level_t mutex_t

/-- C25 (the code at the failing input): with `custom_isr` registered on
vector 2, the calls `register_isr(2, ...)` and `unregister_isr(2)` never lock
`trace_mutex` while `idt_mutex` is held, but `dispatch_interrupt(2)` does:
after `LOCK_IDT()` it records three events, each locking `trace_mutex`,
before `UNLOCK_IDT()`. -/
theorem dispatch_traces_under_table_lock :
    (with_custom.idt 2).state = IRQ_STATE_REGISTERED ∧
    trace_locked_under_table false (register_isr_locks 2 with_custom) = false ∧
    trace_locked_under_table false (unregister_isr_locks 2 with_custom) = false ∧
    dispatch_interrupt_locks [] 2 with_custom =
      [LockEvent.lock idt_mutex,
       LockEvent.lock trace_mutex, LockEvent.unlock trace_mutex,
       LockEvent.lock trace_mutex, LockEvent.unlock trace_mutex,
       LockEvent.lock trace_mutex, LockEvent.unlock trace_mutex,
       LockEvent.unlock idt_mutex,
       LockEvent.lock trace_mutex, LockEvent.unlock trace_mutex,
       LockEvent.call_isr 3 2,
       LockEvent.lock idt_mutex, LockEvent.unlock idt_mutex,
       LockEvent.lock stats_mutex, LockEvent.unlock stats_mutex,
       LockEvent.lock trace_mutex, LockEvent.unlock trace_mutex,
       LockEvent.lock trace_mutex, LockEvent.unlock trace_mutex] ∧
    trace_locked_under_table false (dispatch_interrupt_locks [] 2 with_custom) = true := by
  decide

/-- The mutex operations of `dispatch_interrupt_steps` are those of
`dispatch_interrupt_locks`. -/
theorem lock_events_dispatch_interrupt_steps (isr_steps : List LockEvent) (irq_num : Int)
    (s : Sys) :
    lock_events (dispatch_interrupt_steps isr_steps irq_num s) =
      dispatch_interrupt_locks (lock_events isr_steps) irq_num s := by
  unfold dispatch_interrupt_steps dispatch_interrupt_locks
  split_ifs
  · rfl
  · rfl
  · rfl
  · cases (s.idt (idx irq_num)).isr with
    | none => rfl
    | some f =>
        simp [lock_events, add_trace_smart_locks, add_trace_locks, update_stats_locks,
          List.filter_append]

/-- C26 (what the code does): in every accepted `dispatch_interrupt(v)` the
handler is called after the table lock has been released and before it is
taken again, with no mutex held at the call; the table lock is taken twice.
The second time it is held around the update to Registered only. The first
time it is held not only around the update to Executing: between `LOCK_IDT()`
and that update three trace events are recorded, each locking and unlocking
`trace_mutex`. -/
theorem table_lock_around_handler_call (isr_steps : List LockEvent) (s : Sys)
    (v : Fin MAX_INTERRUPTS) (f : Nat)
    (hstate : (s.idt v).state = IRQ_STATE_REGISTERED) (hisr : (s.idt v).isr = some f) :
    dispatch_interrupt_steps isr_steps ((v : Nat) : Int) s =
      [LockEvent.lock idt_mutex, LockEvent.read_idt ((v : Nat) : Int),
       LockEvent.lock trace_mutex, LockEvent.unlock trace_mutex,
       LockEvent.lock trace_mutex, LockEvent.unlock trace_mutex,
       LockEvent.lock trace_mutex, LockEvent.unlock trace_mutex,
       LockEvent.write_idt ((v : Nat) : Int) IRQ_STATE_EXECUTING,
       LockEvent.read_idt ((v : Nat) : Int),
       LockEvent.unlock idt_mutex,
       LockEvent.lock trace_mutex, LockEvent.unlock trace_mutex] ++
      LockEvent.call_isr f ((v : Nat) : Int) ::
      (isr_steps ++
        [LockEvent.lock idt_mutex, LockEvent.write_idt ((v : Nat) : Int) IRQ_STATE_REGISTERED,
         LockEvent.unlock idt_mutex,
         LockEvent.lock stats_mutex, LockEvent.unlock stats_mutex,
         LockEvent.lock trace_mutex, LockEvent.unlock trace_mutex,
         LockEvent.lock trace_mutex, LockEvent.unlock trace_mutex]) ∧
    (∀ m : mutex_t, holds m false
      [LockEvent.lock idt_mutex, LockEvent.read_idt ((v : Nat) : Int),
       LockEvent.lock trace_mutex, LockEvent.unlock trace_mutex,
       LockEvent.lock trace_mutex, LockEvent.unlock trace_mutex,
       LockEvent.lock trace_mutex, LockEvent.unlock trace_mutex,
       LockEvent.write_idt ((v : Nat) : Int) IRQ_STATE_EXECUTING,
       LockEvent.read_idt ((v : Nat) : Int),
       LockEvent.unlock idt_mutex,
       LockEvent.lock trace_mutex, LockEvent.unlock trace_mutex] = false) ∧
    table_lock_only_around_table false
      [LockEvent.lock idt_mutex, LockEvent.write_idt ((v : Nat) : Int) IRQ_STATE_REGISTERED,
       LockEvent.unlock idt_mutex,
       LockEvent.lock stats_mutex, LockEvent.unlock stats_mutex,
       LockEvent.lock trace_mutex, LockEvent.unlock trace_mutex,
       LockEvent.lock trace_mutex, LockEvent.unlock trace_mutex] = true ∧
    table_lock_only_around_table false
      (dispatch_interrupt_steps isr_steps ((v : Nat) : Int) s) = false := by
  have hval := validate_irq_num_cast v
  have hsteps : dispatch_interrupt_steps isr_steps ((v : Nat) : Int) s =
      [LockEvent.lock idt_mutex, LockEvent.read_idt ((v : Nat) : Int),
       LockEvent.lock trace_mutex, LockEvent.unlock trace_mutex,
       LockEvent.lock trace_mutex, LockEvent.unlock trace_mutex,
       LockEvent.lock trace_mutex, LockEvent.unlock trace_mutex,
       LockEvent.write_idt ((v : Nat) : Int) IRQ_STATE_EXECUTING,
       LockEvent.read_idt ((v : Nat) : Int),
       LockEvent.unlock idt_mutex,
       LockEvent.lock trace_mutex, LockEvent.unlock trace_mutex] ++
      LockEvent.call_isr f ((v : Nat) : Int) ::
      (isr_steps ++
        [LockEvent.lock idt_mutex, LockEvent.write_idt ((v : Nat) : Int) IRQ_STATE_REGISTERED,
         LockEvent.unlock idt_mutex,
         LockEvent.lock stats_mutex, LockEvent.unlock stats_mutex,
         LockEvent.lock trace_mutex, LockEvent.unlock trace_mutex,
         LockEvent.lock trace_mutex, LockEvent.unlock trace_mutex]) := by
    unfold dispatch_interrupt_steps
    rw [idx_cast]
    simp [hval, hstate, hisr, add_trace_smart_locks, add_trace_locks, update_stats_locks]
  refine ⟨hsteps, ?_, ?_, ?_⟩
  · intro m
    cases m <;> simp [holds]
  · simp [table_lock_only_around_table]
  · rw [hsteps]
    simp [table_lock_only_around_table]

theorem table_lock_around_handler_call_witness :
    (with_custom.idt 2).state = IRQ_STATE_REGISTERED ∧
    (with_custom.idt 2).isr = some 3 ∧
    table_lock_only_around_table false
      (dispatch_interrupt_steps (add_trace_locks ++ add_trace_locks ++ add_trace_locks) 2
        with_custom) = false ∧
    holds idt_mutex false
      [LockEvent.lock idt_mutex, LockEvent.read_idt 2,
       LockEvent.lock trace_mutex, LockEvent.unlock trace_mutex,
       LockEvent.lock trace_mutex, LockEvent.unlock trace_mutex,
       LockEvent.lock trace_mutex, LockEvent.unlock trace_mutex,
       LockEvent.write_idt 2 IRQ_STATE_EXECUTING,
       LockEvent.read_idt 2,
       LockEvent.unlock idt_mutex,
       LockEvent.lock trace_mutex, LockEvent.unlock trace_mutex] = false :=
  ⟨by decide, by decide,
    (table_lock_around_handler_call (add_trace_locks ++ add_trace_locks ++ add_trace_locks)
      with_custom 2 3 (by decide) (by decide)).2.2.2,
    (table_lock_around_handler_call (add_trace_locks ++ add_trace_locks ++ add_trace_locks)
      with_custom 2 3 (by decide) (by decide)).2.1 idt_mutex⟩

end Locks

/-! ## Register, dispatch, unregister: the scenario -/

section Scenario

open irq_state_t log_level_t

theorem append_events_append (ts : CString) (a b : List (CString × Int)) (r : Ring × Nat) :
    append_events ts (a ++ b) r = append_events ts b (append_events ts a r) := by
  simp [append_events, List.foldl_append]

theorem get_timestamp_congr (s t : Sys) (h : s.realtime = t.realtime) :
    get_timestamp s = get_timestamp t := by
  unfold get_timestamp time
  rw [h]

theorem ring_of_add_trace_with_irq (e : CString) (n : Int) (s : Sys)
    (he : strncpy (MAX_TRACE_MSG_LEN - 1) e = e) :
    ring_of (add_trace_with_irq e n s) = ring_append (get_timestamp s) (e, n) (ring_of s) ∧
    get_timestamp (add_trace_with_irq e n s) = get_timestamp s := by
  refine ⟨?_, rfl⟩
  unfold ring_of ring_append add_trace_with_irq
  simp only [printf_trace_log, printf_trace_index, he]

theorem ring_of_add_trace_smart (e : CString) (n t : Int) (s : Sys) (hn : n ≥ 0)
    (he : strncpy (MAX_TRACE_MSG_LEN - 1) e = e) :
    ring_of (add_trace_smart e n t s) = ring_append (get_timestamp s) (e, n) (ring_of s) ∧
    get_timestamp (add_trace_smart e n t s) = get_timestamp s := by
  refine ⟨?_, get_timestamp_congr _ _ (add_trace_smart_realtime e n t s)⟩
  have h := add_trace_smart_ring e n t s
  rw [if_pos hn] at h
  unfold ring_of ring_append
  rw [h]
  unfold ring_put
  rw [he]

/-- The state left by a successful `register_isr`. -/
theorem register_isr_state (s : Sys) (v : Fin MAX_INTERRUPTS) (h : isr_ptr) (d : CString)
    (hs : (s.idt v).state ≠ IRQ_STATE_EXECUTING) :
    (register_isr ((v : Nat) : Int) h d s).2 =
      add_trace_with_irq (msg_connected ((v : Nat) : Int)) ((v : Nat) : Int)
        (add_trace_with_irq (msg_attached ((v : Nat) : Int) d) ((v : Nat) : Int)
          { s with idt := register_locked v h d s.idt }) := by
  have hval := validate_irq_num_cast v
  unfold register_isr
  rw [idx_cast]
  simp only [hval, ne_eq, not_true_eq_false, if_false, hs]
  rfl

/-- The state left by a successful `unregister_isr`. -/
theorem unregister_isr_state (s : Sys) (v : Fin MAX_INTERRUPTS)
    (hs : (s.idt v).state ≠ IRQ_STATE_EXECUTING) :
    (unregister_isr ((v : Nat) : Int) s).2 =
      add_trace_with_irq (msg_disconnected ((v : Nat) : Int)) ((v : Nat) : Int)
        (add_trace_with_irq
          (msg_detached ((v : Nat) : Int) (strncpy (MAX_DESCRIPTION_LEN - 1) (s.idt v).description))
          ((v : Nat) : Int)
          { s with idt := unregister_locked v ((v : Nat) : Int) s.idt }) := by
  have hval := validate_irq_num_cast v
  unfold unregister_isr
  rw [idx_cast]
  simp only [hval, ne_eq, not_true_eq_false, if_false, hs]
  rfl

/-- The state left by an accepted `dispatch_interrupt`. -/
theorem dispatch_accepted_state (isrs : IsrImpl) (s : Sys) (v : Fin MAX_INTERRUPTS) (f : Nat)
    (hstate : (s.idt v).state = IRQ_STATE_REGISTERED) (hisr : (s.idt v).isr = some f) :
    ∃ t : Sys,
      t.trace_log = (isrs f ((v : Nat) : Int) (dispatch_enter ((v : Nat) : Int) s).1).trace_log ∧
      t.trace_index = (isrs f ((v : Nat) : Int) (dispatch_enter ((v : Nat) : Int) s).1).trace_index ∧
      t.realtime = (isrs f ((v : Nat) : Int) (dispatch_enter ((v : Nat) : Int) s).1).realtime ∧
      (dispatch_interrupt isrs ((v : Nat) : Int) s).1 =
        add_trace_smart
          (snprintf MAX_TRACE_MSG_LEN
            (cstr "✅ KERNEL: IRQ " ++ fmt_d ((v : Nat) : Int) ++
              cstr " procesada - Sistema listo para nuevas interrupciones"))
          ((v : Nat) : Int) (if ((v : Nat) : Int) = IRQ_TIMER then 1 else 0)
          (add_trace_smart
            (snprintf MAX_TRACE_MSG_LEN
              (cstr "🔄 CPU: Restaurando contexto - Volviendo al proceso interrumpido (" ++
                fmt_lu (execution_time_of (clock_gettime (dispatch_enter ((v : Nat) : Int) s).1)
                  (clock_gettime
                    (isrs f ((v : Nat) : Int) (dispatch_enter ((v : Nat) : Int) s).1))) ++
                cstr " μs)"))
            ((v : Nat) : Int) (if ((v : Nat) : Int) = IRQ_TIMER then 1 else 0) t) := by
  have hval := validate_irq_num_cast v
  have hcap : (dispatch_enter ((v : Nat) : Int) s).2 = some f := by
    rw [dispatch_enter_isr, idx_cast, hisr]
  refine ⟨update_stats ((v : Nat) : Int)
      (execution_time_of (clock_gettime (dispatch_enter ((v : Nat) : Int) s).1)
        (clock_gettime (isrs f ((v : Nat) : Int) (dispatch_enter ((v : Nat) : Int) s).1)))
      { isrs f ((v : Nat) : Int) (dispatch_enter ((v : Nat) : Int) s).1 with
        idt := dispatch_restore_registered v
          (execution_time_of (clock_gettime (dispatch_enter ((v : Nat) : Int) s).1)
            (clock_gettime (isrs f ((v : Nat) : Int) (dispatch_enter ((v : Nat) : Int) s).1)))
          (isrs f ((v : Nat) : Int) (dispatch_enter ((v : Nat) : Int) s).1).idt },
    rfl, rfl, rfl, ?_⟩
  unfold dispatch_interrupt
  rw [idx_cast]
  simp only [hval, ne_eq, not_true_eq_false, if_false, hstate, hisr, or_self, hcap]
  simp

/-- The four events recorded by `dispatch_interrupt` before the handler runs. -/
theorem dispatch_enter_ring (s : Sys) (v : Fin MAX_INTERRUPTS) :
    ring_of (dispatch_enter ((v : Nat) : Int) s).1 =
      append_events (get_timestamp s)
        ((msgs_before_handler ((v : Nat) : Int) (s.idt v).description
          (int_wrap ((s.idt v).call_count + 1))).map (fun m => (m, ((v : Nat) : Int))))
        (ring_of s) ∧
    get_timestamp (dispatch_enter ((v : Nat) : Int) s).1 = get_timestamp s := by
  have hn : ((v : Nat) : Int) ≥ 0 := Int.ofNat_nonneg _
  unfold dispatch_enter
  rw [idx_cast]
  generalize (if ((v : Nat) : Int) = IRQ_TIMER then (1 : Int) else 0) = t
  dsimp only
  generalize hm1 : snprintf MAX_TRACE_MSG_LEN
      (cstr "🔥 HARDWARE: IRQ " ++ fmt_d ((v : Nat) : Int) ++
        cstr " disparada - Línea de interrupción activada") = m1
  generalize hm2 : snprintf MAX_TRACE_MSG_LEN
      (cstr "🚨 CPU: Guardando contexto actual - Registros y estado del procesador") = m2
  generalize hm3 : snprintf MAX_TRACE_MSG_LEN
      (cstr "🔍 KERNEL: Consultando IDT[" ++ fmt_d ((v : Nat) : Int) ++
        cstr "] - Vector de interrupción encontrado") = m3
  have e1 : strncpy (MAX_TRACE_MSG_LEN - 1) m1 = m1 := by rw [← hm1]; exact snprintf_strncpy _
  have e2 : strncpy (MAX_TRACE_MSG_LEN - 1) m2 = m2 := by rw [← hm2]; exact snprintf_strncpy _
  have e3 : strncpy (MAX_TRACE_MSG_LEN - 1) m3 = m3 := by rw [← hm3]; exact snprintf_strncpy _
  obtain ⟨r1, g1⟩ := ring_of_add_trace_smart m1 ((v : Nat) : Int) t s hn e1
  obtain ⟨r2, g2⟩ := ring_of_add_trace_smart m2 ((v : Nat) : Int) t
    (add_trace_smart m1 ((v : Nat) : Int) t s) hn e2
  obtain ⟨r3, g3⟩ := ring_of_add_trace_smart m3 ((v : Nat) : Int) t
    (add_trace_smart m2 ((v : Nat) : Int) t (add_trace_smart m1 ((v : Nat) : Int) t s)) hn e3
  have hidt : (add_trace_smart m3 ((v : Nat) : Int) t
      (add_trace_smart m2 ((v : Nat) : Int) t (add_trace_smart m1 ((v : Nat) : Int) t s))).idt =
      s.idt := by
    rw [add_trace_smart_idt, add_trace_smart_idt, add_trace_smart_idt]
  simp only [hidt, dispatch_mark_executing, Function.update_same]
  generalize hm4 : snprintf MAX_TRACE_MSG_LEN
      (cstr "⚡ KERNEL: Ejecutando ISR " ++ dquote ++ (s.idt v).description ++ dquote ++
        cstr " - Llamada #" ++ fmt_d (int_wrap ((s.idt v).call_count + 1)) ++ cstr " [Modo Kernel]") = m4
  have e4 : strncpy (MAX_TRACE_MSG_LEN - 1) m4 = m4 := by rw [← hm4]; exact snprintf_strncpy _
  obtain ⟨r4, g4⟩ := ring_of_add_trace_smart m4 ((v : Nat) : Int) t
    { add_trace_smart m3 ((v : Nat) : Int) t
        (add_trace_smart m2 ((v : Nat) : Int) t (add_trace_smart m1 ((v : Nat) : Int) t s)) with
      idt := Function.update s.idt v
        { s.idt v with
          state := IRQ_STATE_EXECUTING,
          call_count := int_wrap ((s.idt v).call_count + 1),
          last_call := time (add_trace_smart m3 ((v : Nat) : Int) t
            (add_trace_smart m2 ((v : Nat) : Int) t
              (add_trace_smart m1 ((v : Nat) : Int) t s))) } } hn e4
  have hts : get_timestamp
      { add_trace_smart m3 ((v : Nat) : Int) t
          (add_trace_smart m2 ((v : Nat) : Int) t (add_trace_smart m1 ((v : Nat) : Int) t s)) with
        idt := Function.update s.idt v
          { s.idt v with
            state := IRQ_STATE_EXECUTING,
            call_count := int_wrap ((s.idt v).call_count + 1),
            last_call := time (add_trace_smart m3 ((v : Nat) : Int) t
              (add_trace_smart m2 ((v : Nat) : Int) t
                (add_trace_smart m1 ((v : Nat) : Int) t s))) } } = get_timestamp s := by
    rw [← g1, ← g2, ← g3]
    rfl
  refine ⟨?_, g4.trans hts⟩
  rw [r4, hts]
  have hring : ring_of
      { add_trace_smart m3 ((v : Nat) : Int) t
          (add_trace_smart m2 ((v : Nat) : Int) t (add_trace_smart m1 ((v : Nat) : Int) t s)) with
        idt := Function.update s.idt v
          { s.idt v with
            state := IRQ_STATE_EXECUTING,
            call_count := int_wrap ((s.idt v).call_count + 1),
            last_call := time (add_trace_smart m3 ((v : Nat) : Int) t
              (add_trace_smart m2 ((v : Nat) : Int) t
                (add_trace_smart m1 ((v : Nat) : Int) t s))) } } =
      ring_of (add_trace_smart m3 ((v : Nat) : Int) t
        (add_trace_smart m2 ((v : Nat) : Int) t (add_trace_smart m1 ((v : Nat) : Int) t s))) := rfl
  rw [hring, r3, g2, r2, g1, r1]
  simp only [msgs_before_handler, hm1, hm2, hm3, hm4, append_events, List.map, List.foldl]

theorem ring_of_two_events (m1 m2 : CString) (n : Int) (s : Sys)
    (e1 : strncpy (MAX_TRACE_MSG_LEN - 1) m1 = m1) (e2 : strncpy (MAX_TRACE_MSG_LEN - 1) m2 = m2) :
    ring_of (add_trace_with_irq m2 n (add_trace_with_irq m1 n s)) =
      append_events (get_timestamp s) [(m1, n), (m2, n)] (ring_of s) ∧
    get_timestamp (add_trace_with_irq m2 n (add_trace_with_irq m1 n s)) = get_timestamp s := by
  obtain ⟨r1, g1⟩ := ring_of_add_trace_with_irq m1 n s e1
  obtain ⟨r2, g2⟩ := ring_of_add_trace_with_irq m2 n (add_trace_with_irq m1 n s) e2
  refine ⟨?_, g2.trans g1⟩
  rw [r2, g1, r1]
  rfl

/-- C23: for every valid vector `v` whose state is Free and every handler `f`
that does not modify the table, `register_isr(v, f, d)`,
`dispatch_interrupt(v)`, `unregister_isr(v)` in sequence all succeed, call
`f` once, leave descriptor `v` Free with `call_count` 0 and no handler, and
append to the trace, in this order and each tagged with vector `v`: the two
registration events (handler attached, quoting `d`; hardware line
connected) and the four dispatch events that precede the handler, then
whatever the handler records, then the two dispatch events that follow the
handler and the two unregistration events (handler detached, quoting the
stored description, the first 63 bytes of `d`; hardware line disconnected). -/
theorem register_dispatch_unregister (isrs : IsrImpl) (s : Sys) (v : Fin MAX_INTERRUPTS)
    (f : Nat) (d : CString)
    (hfree : (s.idt v).state = IRQ_STATE_FREE)
    (hframe : ∀ (a : Int) (t : Sys), (isrs f a t).idt = t.idt) :
    (register_isr ((v : Nat) : Int) (some f) d s).1 = SUCCESS ∧
    (dispatch_interrupt isrs ((v : Nat) : Int) (scenario_registered v f d s)).2 =
      [(f, ((v : Nat) : Int))] ∧
    (unregister_isr ((v : Nat) : Int) (scenario_dispatched isrs v f d s)).1 = SUCCESS ∧
    ((scenario_final isrs v f d s).idt v).state = IRQ_STATE_FREE ∧
    ((scenario_final isrs v f d s).idt v).call_count = 0 ∧
    ((scenario_final isrs v f d s).idt v).isr = none ∧
    ring_of (scenario_at_handler v f d s) =
      append_events (get_timestamp s)
        ((msg_attached ((v : Nat) : Int) d :: msg_connected ((v : Nat) : Int) ::
            msgs_before_handler ((v : Nat) : Int) (d.take 63) 1).map
          (fun m => (m, ((v : Nat) : Int))))
        (ring_of s) ∧
    ring_of (scenario_final isrs v f d s) =
      append_events (get_timestamp (scenario_after_handler isrs v f d s))
        ((msgs_after_handler ((v : Nat) : Int)
              (execution_time_of (clock_gettime (scenario_at_handler v f d s))
                (clock_gettime (scenario_after_handler isrs v f d s))) ++
            [msg_detached ((v : Nat) : Int) (d.take 63),
             msg_disconnected ((v : Nat) : Int)]).map
          (fun m => (m, ((v : Nat) : Int))))
        (ring_of (scenario_after_handler isrs v f d s)) := by
  have hn : ((v : Nat) : Int) ≥ 0 := Int.ofNat_nonneg _
  have hv : (0 : Int) ≤ ((v : Nat) : Int) ∧ ((v : Nat) : Int) < 16 :=
    (validate_irq_num_eq_success _).1 (validate_irq_num_cast v)
  have hs : (s.idt v).state ≠ IRQ_STATE_EXECUTING := by rw [hfree]; decide
  -- registration
  have hreg := register_isr_state s v (some f) d hs
  have hcode1 : (register_isr ((v : Nat) : Int) (some f) d s).1 = SUCCESS := by
    rw [register_isr_code]
    simp [hv, idx_cast, hs]
  have hidt1 : (scenario_registered v f d s).idt = register_locked v (some f) d s.idt := by
    unfold scenario_registered
    rw [hreg]
    rfl
  have hd1 : (scenario_registered v f d s).idt v =
      { s.idt v with
        isr := some f, state := IRQ_STATE_REGISTERED, call_count := 0,
        total_execution_time := 0, description := d.take 63 } := by
    rw [hidt1]
    simp [register_locked, strncpy]
  obtain ⟨hring1, hts1⟩ := ring_of_two_events (msg_attached ((v : Nat) : Int) d)
    (msg_connected ((v : Nat) : Int)) ((v : Nat) : Int)
    { s with idt := register_locked v (some f) d s.idt }
    (snprintf_strncpy _) (snprintf_strncpy _)
  rw [← hreg] at hring1 hts1
  have hts1b : get_timestamp (scenario_registered v f d s) = get_timestamp s := hts1
  have hring1b : ring_of (scenario_registered v f d s) =
      append_events (get_timestamp s)
        [(msg_attached ((v : Nat) : Int) d, ((v : Nat) : Int)),
         (msg_connected ((v : Nat) : Int), ((v : Nat) : Int))] (ring_of s) := hring1
  -- dispatch
  have hstate1 : ((scenario_registered v f d s).idt v).state = IRQ_STATE_REGISTERED := by
    rw [hd1]
  have hisr1 : ((scenario_registered v f d s).idt v).isr = some f := by
    rw [hd1]
  obtain ⟨hring5, hts5⟩ := dispatch_enter_ring (scenario_registered v f d s) v
  have hdesc1 : ((scenario_registered v f d s).idt v).description = d.take 63 := by rw [hd1]
  have hcount1 : ((scenario_registered v f d s).idt v).call_count = 0 := by rw [hd1]
  have hw1 : int_wrap (0 + 1) = 1 := by decide
  rw [hdesc1, hcount1, hw1, hts1b, hring1b, ← append_events_append] at hring5
  have hcalls := (dispatch_accepted isrs (scenario_registered v f d s) v f hstate1 hisr1).1
  have hidt2 := dispatch_accepted_idt isrs (scenario_registered v f d s) v f hstate1 hisr1 hframe
  obtain ⟨t, ht1, ht2, ht3, hdisp⟩ :=
    dispatch_accepted_state isrs (scenario_registered v f d s) v f hstate1 hisr1
  obtain ⟨ra, ga⟩ := ring_of_add_trace_smart
    (snprintf MAX_TRACE_MSG_LEN
      (cstr "🔄 CPU: Restaurando contexto - Volviendo al proceso interrumpido (" ++
        fmt_lu (execution_time_of
          (clock_gettime (dispatch_enter ((v : Nat) : Int) (scenario_registered v f d s)).1)
          (clock_gettime (isrs f ((v : Nat) : Int)
            (dispatch_enter ((v : Nat) : Int) (scenario_registered v f d s)).1))) ++
        cstr " μs)"))
    ((v : Nat) : Int) (if ((v : Nat) : Int) = IRQ_TIMER then 1 else 0) t hn (snprintf_strncpy _)
  obtain ⟨rb, gb⟩ := ring_of_add_trace_smart
    (snprintf MAX_TRACE_MSG_LEN
      (cstr "✅ KERNEL: IRQ " ++ fmt_d ((v : Nat) : Int) ++
        cstr " procesada - Sistema listo para nuevas interrupciones"))
    ((v : Nat) : Int) (if ((v : Nat) : Int) = IRQ_TIMER then 1 else 0)
    (add_trace_smart
      (snprintf MAX_TRACE_MSG_LEN
        (cstr "🔄 CPU: Restaurando contexto - Volviendo al proceso interrumpido (" ++
          fmt_lu (execution_time_of
            (clock_gettime (dispatch_enter ((v : Nat) : Int) (scenario_registered v f d s)).1)
            (clock_gettime (isrs f ((v : Nat) : Int)
              (dispatch_enter ((v : Nat) : Int) (scenario_registered v f d s)).1))) ++
          cstr " μs)"))
      ((v : Nat) : Int) (if ((v : Nat) : Int) = IRQ_TIMER then 1 else 0) t)
    hn (snprintf_strncpy _)
  rw [← hdisp] at rb gb
  have htst : get_timestamp t = get_timestamp (scenario_after_handler isrs v f d s) :=
    get_timestamp_congr _ _ ht3
  have hringt : ring_of t = ring_of (scenario_after_handler isrs v f d s) := by
    unfold ring_of
    rw [ht1, ht2]
    rfl
  rw [ga, ra, htst, hringt] at rb
  rw [ga, htst] at gb
  have hts8 : get_timestamp (scenario_dispatched isrs v f d s) =
      get_timestamp (scenario_after_handler isrs v f d s) := gb
  have hring8 : ring_of (scenario_dispatched isrs v f d s) =
      append_events (get_timestamp (scenario_after_handler isrs v f d s))
        ((msgs_after_handler ((v : Nat) : Int)
          (execution_time_of (clock_gettime (scenario_at_handler v f d s))
            (clock_gettime (scenario_after_handler isrs v f d s)))).map
          (fun m => (m, ((v : Nat) : Int))))
        (ring_of (scenario_after_handler isrs v f d s)) := by
    unfold scenario_dispatched
    rw [rb]
    rfl
  have hd8 : (scenario_dispatched isrs v f d s).idt v =
      { (scenario_registered v f d s).idt v with
        state := IRQ_STATE_REGISTERED,
        call_count := int_wrap (((scenario_registered v f d s).idt v).call_count + 1),
        last_call := time (scenario_registered v f d s),
        total_execution_time := ((scenario_registered v f d s).idt v).total_execution_time +
          execution_time_of (clock_gettime (scenario_at_handler v f d s))
            (clock_gettime (scenario_after_handler isrs v f d s)) } := by
    unfold scenario_dispatched
    rw [hidt2]
    simp [dispatch_restore_registered, dispatch_mark_executing, scenario_at_handler,
      scenario_after_handler]
  have hs8 : ((scenario_dispatched isrs v f d s).idt v).state ≠ IRQ_STATE_EXECUTING := by
    rw [hd8]
    show IRQ_STATE_REGISTERED ≠ IRQ_STATE_EXECUTING
    decide
  have hdesc8 : ((scenario_dispatched isrs v f d s).idt v).description = d.take 63 := by
    rw [hd8]
    exact hdesc1
  -- unregistration
  have hunreg := unregister_isr_state (scenario_dispatched isrs v f d s) v hs8
  have hcode3 : (unregister_isr ((v : Nat) : Int) (scenario_dispatched isrs v f d s)).1 =
      SUCCESS := by
    rw [unregister_isr_code]
    simp [hv, idx_cast, hs8]
  obtain ⟨hring9, _⟩ := ring_of_two_events
    (msg_detached ((v : Nat) : Int)
      (strncpy (MAX_DESCRIPTION_LEN - 1) ((scenario_dispatched isrs v f d s).idt v).description))
    (msg_disconnected ((v : Nat) : Int)) ((v : Nat) : Int)
    { scenario_dispatched isrs v f d s with
      idt := unregister_locked v ((v : Nat) : Int) (scenario_dispatched isrs v f d s).idt }
    (snprintf_strncpy _) (snprintf_strncpy _)
  rw [← hunreg] at hring9
  have hold : strncpy (MAX_DESCRIPTION_LEN - 1)
      ((scenario_dispatched isrs v f d s).idt v).description = d.take 63 := by
    rw [hdesc8]
    simp [strncpy, List.take_take]
  rw [hold] at hring9
  have hring9b : ring_of (scenario_final isrs v f d s) =
      append_events (get_timestamp (scenario_dispatched isrs v f d s))
        [(msg_detached ((v : Nat) : Int) (d.take 63), ((v : Nat) : Int)),
         (msg_disconnected ((v : Nat) : Int), ((v : Nat) : Int))]
        (ring_of (scenario_dispatched isrs v f d s)) := hring9
  have hidt9 : (scenario_final isrs v f d s).idt =
      unregister_locked v ((v : Nat) : Int) (scenario_dispatched isrs v f d s).idt := by
    unfold scenario_final
    rw [hunreg]
    rfl
  refine ⟨hcode1, hcalls, hcode3, ?_, ?_, ?_, ?_, ?_⟩
  · rw [hidt9]
    simp [unregister_locked]
  · rw [hidt9]
    simp [unregister_locked]
  · rw [hidt9]
    simp [unregister_locked]
  · exact hring5
  · rw [hring9b, hts8, hring8, ← append_events_append, List.map_append]
    rfl

theorem register_dispatch_unregister_witness :
    (started.idt (2 : Fin MAX_INTERRUPTS)).state = IRQ_STATE_FREE ∧
    (∀ (a : Int) (t : Sys), (program_isrs 3 a t).idt = t.idt) ∧
    (dispatch_interrupt program_isrs (((2 : Fin MAX_INTERRUPTS) : Nat) : Int)
        (scenario_registered 2 3 (cstr "X") started)).2 =
      [(3, (((2 : Fin MAX_INTERRUPTS) : Nat) : Int))] ∧
    ((scenario_final program_isrs 2 3 (cstr "X") started).idt 2).state = IRQ_STATE_FREE ∧
    ((scenario_final program_isrs 2 3 (cstr "X") started).idt 2).call_count = 0 ∧
    ((scenario_final program_isrs 2 3 (cstr "X") started).idt 2).isr = none :=
  ⟨by decide, fun a t => program_isrs_idt 3 a t,
    (register_dispatch_unregister program_isrs started 2 3 (cstr "X") (by decide)
      (fun a t => program_isrs_idt 3 a t)).2.1,
    (register_dispatch_unregister program_isrs started 2 3 (cstr "X") (by decide)
      (fun a t => program_isrs_idt 3 a t)).2.2.2.1,
    (register_dispatch_unregister program_isrs started 2 3 (cstr "X") (by decide)
      (fun a t => program_isrs_idt 3 a t)).2.2.2.2.1,
    (register_dispatch_unregister program_isrs started 2 3 (cstr "X") (by decide)
      (fun a t => program_isrs_idt 3 a t)).2.2.2.2.2.1⟩

end Scenario

end InterruptSimulator
